import Mathlib

/-!
# Core IBC message server: a shallow embedding

Sources: `modules/core/keeper/msg_server.go`, and further down
`modules/apps/27-interchain-accounts/keeper/relay.go` and
`modules/light-clients/08-wasm/types/validation.go`.

The handlers of the message server are translated statement by statement.
What they call but what lives outside that file (the channel keeper, the
port router, the application callbacks, the address decoder) is taken as a
record of functions, so every theorem holds for all such collaborators.

Modelling conventions

* `sdk.Context` is a value holding the branchable key/value store and the
  events of its event manager.  A Go call `f(ctx, ...)` that may write the
  store or emit events is a function returning the context it leaves.
  Logger and telemetry calls do not touch the context and are omitted.
* `ctx.CacheContext()` returns a branch holding a copy of the store and a
  fresh event manager; its write function flushes the branch store to the
  parent and appends the branch events to the parent events.
* A Go result `(*Resp, error)` is the pair of two options: `none` is `nil`.
* Every handler result also carries the list of collaborator calls it made,
  in order, with their arguments.  The list is bookkeeping only; nothing
  reads it.
-/

set_option linter.dupNamespace false

namespace IbcCore

/-! ## Errors -/

/-- Go `error` values: registered sentinels compared by identity, and wrapped errors. -/
inductive Error where
  | sentinel (name : String)
  | Wrap (err : Error) (description : String)
deriving DecidableEq, Repr

/-- Sentinel `channeltypes.ErrNoOpMsg`. -/
def ErrNoOpMsg : Error := .sentinel "ErrNoOpMsg"
/-- Sentinel `porttypes.ErrInvalidRoute`. -/
def ErrInvalidRoute : Error := .sentinel "ErrInvalidRoute"
/-- Sentinel `channeltypes.ErrChannelNotFound`. -/
def ErrChannelNotFound : Error := .sentinel "ErrChannelNotFound"

/-! ## Store and context -/

/-- Byte strings. -/
abbrev Bytes := List Nat

/-- Key/value store: an association list, first match wins. -/
abbrev KVStore := List (String × Bytes)

/-- Read a key. -/
def KVStore.get (s : KVStore) (key : String) : Option Bytes :=
  match s with
  | [] => none
  | (k, v) :: rest => if k = key then some v else KVStore.get rest key

/-- Remove every entry of a key. -/
def KVStore.delete (s : KVStore) (key : String) : KVStore :=
  s.filter (fun kv => decide (kv.1 ≠ key))

/-- Write a key, replacing what was there. -/
def KVStore.set (s : KVStore) (key : String) (value : Bytes) : KVStore :=
  (key, value) :: KVStore.delete s key

/-- Membership of a key. -/
def KVStore.has (s : KVStore) (key : String) : Bool :=
  (KVStore.get s key).isSome

/-- An emitted event. -/
structure Event where
  type : String
  attributes : List (String × String)
deriving DecidableEq, Repr

/-- The parts of `sdk.Context` the handlers act on. -/
structure Context where
  store : KVStore
  events : List Event
deriving DecidableEq, Repr

/-- Branch of `ctx.CacheContext()`: same store contents, new event manager. -/
def Context.CacheContext (ctx : Context) : Context :=
  { store := ctx.store, events := [] }

/-- The write function returned by `ctx.CacheContext()`, applied to the
parent `ctx` and the branch `cacheCtx` as it stands at the time of the call. -/
def Context.writeFn (ctx cacheCtx : Context) : Context :=
  { store := cacheCtx.store, events := ctx.events ++ cacheCtx.events }

/-- Go `ctx.EventManager().EmitEvents(evs)`. -/
def Context.EmitEvents (ctx : Context) (evs : List Event) : Context :=
  { store := ctx.store, events := ctx.events ++ evs }

/-! ## Channel types -/

/-- Client height. -/
structure Height where
  RevisionNumber : Nat
  RevisionHeight : Nat
deriving DecidableEq, Repr

/-- Packet of `channeltypes`. -/
structure Packet where
  Sequence : Nat
  SourcePort : String
  SourceChannel : String
  DestinationPort : String
  DestinationChannel : String
  Data : Bytes
  TimeoutHeight : Height
  TimeoutTimestamp : Nat
deriving DecidableEq, Repr

/-- Capability handle. -/
structure Capability where
  Index : Nat
deriving DecidableEq, Repr

/-- Decoded account address. -/
abbrev AccAddress := Bytes

/-- Value of the interface `exported.Acknowledgement`: the two methods. -/
structure Acknowledgement where
  Success : Bool
  Acknowledgement : Bytes
deriving DecidableEq, Repr

/-- Enumeration `channeltypes.ResponseResultType`. -/
inductive ResponseResultType where
  | UNSPECIFIED
  | NOOP
  | SUCCESS
deriving DecidableEq, Repr

/-- Channel ordering. -/
inductive Order where
  | NONE
  | UNORDERED
  | ORDERED
deriving DecidableEq, Repr

/-- Channel state. -/
inductive State where
  | UNINITIALIZED
  | INIT
  | TRYOPEN
  | OPEN
  | CLOSED
  | INITUPGRADE
  | TRYUPGRADE
deriving DecidableEq, Repr

/-- Channel counterparty. -/
structure Counterparty where
  PortId : String
  ChannelId : String
deriving DecidableEq, Repr

/-- Channel end. -/
structure Channel where
  State : State
  Ordering : Order
  Counterparty : Counterparty
  ConnectionHops : List String
  Version : String
  UpgradeSequence : Nat
deriving DecidableEq, Repr

/-- Fields an upgrade may change. -/
structure UpgradeFields where
  Ordering : Order
  ConnectionHops : List String
  Version : String
deriving DecidableEq, Repr

/-- Upgrade timeout. -/
structure Timeout where
  Height : Height
  Timestamp : Nat
deriving DecidableEq, Repr

/-- Upgrade proposal. -/
structure Upgrade where
  Fields : UpgradeFields
  Timeout : Timeout
  LatestSequenceSend : Nat
deriving DecidableEq, Repr

/-- Flush status carried by `MsgChannelUpgradeAck`. -/
inductive FlushStatus where
  | NOTINFLUSH
  | FLUSHING
  | FLUSHCOMPLETE
deriving DecidableEq, Repr

/-! ## Messages and responses -/

/-- Message `MsgRecvPacket`. -/
structure MsgRecvPacket where
  Packet : Packet
  ProofCommitment : Bytes
  ProofHeight : Height
  Signer : String
deriving DecidableEq, Repr

/-- Response `MsgRecvPacketResponse`. -/
structure MsgRecvPacketResponse where
  Result : ResponseResultType
deriving DecidableEq, Repr

/-- Message `MsgTimeout`. -/
structure MsgTimeout where
  Packet : Packet
  ProofUnreceived : Bytes
  ProofHeight : Height
  NextSequenceRecv : Nat
  Signer : String
deriving DecidableEq, Repr

/-- Response `MsgTimeoutResponse`. -/
structure MsgTimeoutResponse where
  Result : ResponseResultType
deriving DecidableEq, Repr

/-- Message `MsgTimeoutOnClose`. -/
structure MsgTimeoutOnClose where
  Packet : Packet
  ProofUnreceived : Bytes
  ProofClose : Bytes
  ProofHeight : Height
  NextSequenceRecv : Nat
  Signer : String
deriving DecidableEq, Repr

/-- Response `MsgTimeoutOnCloseResponse`. -/
structure MsgTimeoutOnCloseResponse where
  Result : ResponseResultType
deriving DecidableEq, Repr

/-- Message `MsgAcknowledgement`. -/
structure MsgAcknowledgement where
  Packet : Packet
  Acknowledgement : Bytes
  ProofAcked : Bytes
  ProofHeight : Height
  Signer : String
deriving DecidableEq, Repr

/-- Response `MsgAcknowledgementResponse`. -/
structure MsgAcknowledgementResponse where
  Result : ResponseResultType
deriving DecidableEq, Repr

/-- Message `MsgChannelUpgradeInit`. -/
structure MsgChannelUpgradeInit where
  PortId : String
  ChannelId : String
  Fields : UpgradeFields
  Timeout : Timeout
  Signer : String
deriving DecidableEq, Repr

/-- Response `MsgChannelUpgradeInitResponse`. -/
structure MsgChannelUpgradeInitResponse where
  ChannelId : String
  Upgrade : Upgrade
  UpgradeSequence : Nat
deriving DecidableEq, Repr

/-- Message `MsgChannelUpgradeTry`; the handler reads none of its fields. -/
structure MsgChannelUpgradeTry where
  PortId : String
  ChannelId : String
  Signer : String
deriving DecidableEq, Repr

/-- Response `MsgChannelUpgradeTryResponse`, as built by the handler (all fields zero). -/
structure MsgChannelUpgradeTryResponse where
deriving DecidableEq, Repr

/-- Message `MsgChannelUpgradeAck`. -/
structure MsgChannelUpgradeAck where
  PortId : String
  ChannelId : String
  CounterpartyFlushStatus : FlushStatus
  CounterpartyUpgrade : Upgrade
  ProofChannel : Bytes
  ProofUpgrade : Bytes
  ProofHeight : Height
  Signer : String
deriving DecidableEq, Repr

/-- Response `MsgChannelUpgradeAckResponse`. -/
structure MsgChannelUpgradeAckResponse where
deriving DecidableEq, Repr

/-- Message `MsgChannelUpgradeConfirm`; the handler reads none of its fields. -/
structure MsgChannelUpgradeConfirm where
  PortId : String
  ChannelId : String
  Signer : String
deriving DecidableEq, Repr

/-- Response `MsgChannelUpgradeConfirmResponse`. -/
structure MsgChannelUpgradeConfirmResponse where
deriving DecidableEq, Repr

/-- Message `MsgChannelUpgradeTimeout`; the handler reads none of its fields. -/
structure MsgChannelUpgradeTimeout where
  PortId : String
  ChannelId : String
  Signer : String
deriving DecidableEq, Repr

/-- Response `MsgChannelUpgradeTimeoutResponse`. -/
structure MsgChannelUpgradeTimeoutResponse where
deriving DecidableEq, Repr

/-- Message `MsgChannelUpgradeCancel`; the handler reads none of its fields. -/
structure MsgChannelUpgradeCancel where
  PortId : String
  ChannelId : String
  Signer : String
deriving DecidableEq, Repr

/-- Response `MsgChannelUpgradeCancelResponse`. -/
structure MsgChannelUpgradeCancelResponse where
deriving DecidableEq, Repr

/-- Message `MsgChannelOpenInit`. -/
structure MsgChannelOpenInit where
  PortId : String
  Channel : Channel
  Signer : String
deriving DecidableEq, Repr

/-- Response `MsgChannelOpenInitResponse`. -/
structure MsgChannelOpenInitResponse where
  ChannelId : String
  Version : String
deriving DecidableEq, Repr

/-- Message `MsgChannelOpenTry`. -/
structure MsgChannelOpenTry where
  PortId : String
  PreviousChannelId : String
  Channel : Channel
  CounterpartyVersion : String
  ProofInit : Bytes
  ProofHeight : Height
  Signer : String
deriving DecidableEq, Repr

/-- Response `MsgChannelOpenTryResponse`. -/
structure MsgChannelOpenTryResponse where
  ChannelId : String
  Version : String
deriving DecidableEq, Repr

/-- Message `MsgChannelOpenAck`. -/
structure MsgChannelOpenAck where
  PortId : String
  ChannelId : String
  CounterpartyChannelId : String
  CounterpartyVersion : String
  ProofTry : Bytes
  ProofHeight : Height
  Signer : String
deriving DecidableEq, Repr

/-- Response `MsgChannelOpenAckResponse`. -/
structure MsgChannelOpenAckResponse where
deriving DecidableEq, Repr

/-- Message `MsgChannelOpenConfirm`. -/
structure MsgChannelOpenConfirm where
  PortId : String
  ChannelId : String
  ProofAck : Bytes
  ProofHeight : Height
  Signer : String
deriving DecidableEq, Repr

/-- Response `MsgChannelOpenConfirmResponse`. -/
structure MsgChannelOpenConfirmResponse where
deriving DecidableEq, Repr

/-- Message `MsgChannelCloseInit`. -/
structure MsgChannelCloseInit where
  PortId : String
  ChannelId : String
  Signer : String
deriving DecidableEq, Repr

/-- Response `MsgChannelCloseInitResponse`. -/
structure MsgChannelCloseInitResponse where
deriving DecidableEq, Repr

/-- Message `MsgChannelCloseConfirm`. -/
structure MsgChannelCloseConfirm where
  PortId : String
  ChannelId : String
  ProofInit : Bytes
  ProofHeight : Height
  Signer : String
deriving DecidableEq, Repr

/-- Response `MsgChannelCloseConfirmResponse`. -/
structure MsgChannelCloseConfirmResponse where
deriving DecidableEq, Repr

/-! ## Collaborators of the message server -/

/-- Application callbacks of one module (interface `porttypes.IBCModule`), with the
argument lists the message server passes. -/
structure IBCModule where
  OnChanOpenInit : Context → Order → List String → String → String → Capability →
    Counterparty → String → Context × Except Error String
  OnChanOpenTry : Context → Order → List String → String → String → Capability →
    Counterparty → String → Context × Except Error String
  OnChanOpenAck : Context → String → String → String → String → Context × Option Error
  OnChanOpenConfirm : Context → String → String → Context × Option Error
  OnChanCloseInit : Context → String → String → Context × Option Error
  OnChanCloseConfirm : Context → String → String → Context × Option Error
  OnRecvPacket : Context → Packet → AccAddress → Context × Option Acknowledgement
  OnAcknowledgementPacket : Context → Packet → Bytes → AccAddress → Context × Option Error
  OnTimeoutPacket : Context → Packet → AccAddress → Context × Option Error
  OnChanUpgradeInit : Context → String → String → Order → List String → Nat → String →
    String → Context × Except Error String
  OnChanUpgradeAck : Context → String → String → String → String → Context × Option Error

/-- The methods of the channel keeper the message server calls.  Lookups and
getters read the context; the others return the context they leave. -/
structure ChannelKeeper where
  LookupModuleByChannel : Context → String → String → Except Error (String × Capability)
  GetChannel : Context → String → String → Option Channel
  ChanOpenInit : Context → Order → List String → String → Capability → Counterparty →
    String → Context × Except Error (String × Capability)
  WriteOpenInitChannel : Context → String → String → Order → List String → Counterparty →
    String → Context
  ChanOpenTry : Context → Order → List String → String → Capability → Counterparty →
    String → Bytes → Height → Context × Except Error (String × Capability)
  WriteOpenTryChannel : Context → String → String → Order → List String → Counterparty →
    String → Context
  ChanOpenAck : Context → String → String → Capability → String → String → Bytes → Height →
    Context × Option Error
  WriteOpenAckChannel : Context → String → String → String → String → Context
  ChanOpenConfirm : Context → String → String → Capability → Bytes → Height →
    Context × Option Error
  WriteOpenConfirmChannel : Context → String → String → Context
  ChanCloseInit : Context → String → String → Capability → Context × Option Error
  ChanCloseConfirm : Context → String → String → Capability → Bytes → Height →
    Context × Option Error
  RecvPacket : Context → Capability → Packet → Bytes → Height → Context × Option Error
  WriteAcknowledgement : Context → Capability → Packet → Acknowledgement →
    Context × Option Error
  TimeoutPacket : Context → Packet → Bytes → Height → Nat → Context × Option Error
  TimeoutOnClose : Context → Capability → Packet → Bytes → Bytes → Height → Nat →
    Context × Option Error
  TimeoutExecuted : Context → Capability → Packet → Context × Option Error
  AcknowledgePacket : Context → Capability → Packet → Bytes → Bytes → Height →
    Context × Option Error
  ChanUpgradeInit : Context → String → String → UpgradeFields → Timeout →
    Context × Except Error Upgrade
  WriteUpgradeInitChannel : Context → String → String → Upgrade → Context
  ChanUpgradeAck : Context → String → String → FlushStatus → Upgrade → Bytes → Bytes →
    Height → Context × Option Error

/-- Port keeper: lookup of the module bound to a port. -/
structure PortKeeper where
  LookupModuleByPort : Context → String → Except Error (String × Capability)

/-- Port router: module name to callbacks. -/
structure Router where
  GetRoute : String → Option IBCModule

/-- The core keeper: its sub-keepers and router, and the address decoder
`sdk.AccAddressFromBech32` the packet handlers call. -/
structure Keeper where
  ChannelKeeper : ChannelKeeper
  PortKeeper : PortKeeper
  Router : Router
  AccAddressFromBech32 : String → Except Error AccAddress

/-- The keeper `k` with its router replaced by one that knows the callbacks `cbs`
only, under every module name. -/
def Keeper.withOnlyRoute (k : Keeper) (cbs : IBCModule) : Keeper :=
  { k with Router := { GetRoute := fun _ => some cbs } }

/-- One collaborator call, with its arguments (the context apart). -/
inductive Call where
  | LookupModuleByPort (portID : String)
  | LookupModuleByChannel (portID channelID : String)
  | GetRoute (module : String)
  | GetChannel (portID channelID : String)
  | ChanOpenInit (order : Order) (connectionHops : List String) (portID : String)
      (portCap : Capability) (counterparty : Counterparty) (version : String)
  | WriteOpenInitChannel (portID channelID : String) (order : Order)
      (connectionHops : List String) (counterparty : Counterparty) (version : String)
  | ChanOpenTry (order : Order) (connectionHops : List String) (portID : String)
      (portCap : Capability) (counterparty : Counterparty) (counterpartyVersion : String)
      (proofInit : Bytes) (proofHeight : Height)
  | WriteOpenTryChannel (portID channelID : String) (order : Order)
      (connectionHops : List String) (counterparty : Counterparty) (version : String)
  | ChanOpenAck (portID channelID : String) (chanCap : Capability)
      (counterpartyVersion counterpartyChannelID : String) (proofTry : Bytes)
      (proofHeight : Height)
  | WriteOpenAckChannel (portID channelID counterpartyVersion counterpartyChannelID : String)
  | ChanOpenConfirm (portID channelID : String) (chanCap : Capability) (proofAck : Bytes)
      (proofHeight : Height)
  | WriteOpenConfirmChannel (portID channelID : String)
  | ChanCloseInit (portID channelID : String) (chanCap : Capability)
  | ChanCloseConfirm (portID channelID : String) (chanCap : Capability) (proofInit : Bytes)
      (proofHeight : Height)
  | RecvPacket (chanCap : Capability) (packet : Packet) (proof : Bytes) (proofHeight : Height)
  | WriteAcknowledgement (chanCap : Capability) (packet : Packet) (ack : Acknowledgement)
  | TimeoutPacket (packet : Packet) (proof : Bytes) (proofHeight : Height)
      (nextSequenceRecv : Nat)
  | TimeoutOnClose (chanCap : Capability) (packet : Packet) (proof proofClosed : Bytes)
      (proofHeight : Height) (nextSequenceRecv : Nat)
  | TimeoutExecuted (chanCap : Capability) (packet : Packet)
  | AcknowledgePacket (chanCap : Capability) (packet : Packet) (acknowledgement : Bytes)
      (proof : Bytes) (proofHeight : Height)
  | ChanUpgradeInit (portID channelID : String) (fields : UpgradeFields) (timeout : Timeout)
  | WriteUpgradeInitChannel (portID channelID : String) (upgrade : Upgrade)
  | ChanUpgradeAck (portID channelID : String) (flushStatus : FlushStatus)
      (counterpartyUpgrade : Upgrade) (proofChannel proofUpgrade : Bytes)
      (proofHeight : Height)
  | OnChanOpenInit (order : Order) (connectionHops : List String) (portID channelID : String)
      (chanCap : Capability) (counterparty : Counterparty) (version : String)
  | OnChanOpenTry (order : Order) (connectionHops : List String) (portID channelID : String)
      (chanCap : Capability) (counterparty : Counterparty) (counterpartyVersion : String)
  | OnChanOpenAck (portID channelID counterpartyChannelID counterpartyVersion : String)
  | OnChanOpenConfirm (portID channelID : String)
  | OnChanCloseInit (portID channelID : String)
  | OnChanCloseConfirm (portID channelID : String)
  | OnRecvPacket (packet : Packet) (relayer : AccAddress)
  | OnAcknowledgementPacket (packet : Packet) (acknowledgement : Bytes) (relayer : AccAddress)
  | OnTimeoutPacket (packet : Packet) (relayer : AccAddress)
  | OnChanUpgradeInit (portID channelID : String) (order : Order)
      (connectionHops : List String) (sequence : Nat) (version previousVersion : String)
  | OnChanUpgradeAck (portID channelID counterpartyChannelID counterpartyVersion : String)
deriving DecidableEq, Repr

/-- Selects the `WriteAcknowledgement` calls of a call list. -/
def isWriteAcknowledgement : Call → Bool
  | Call.WriteAcknowledgement _ _ _ => true
  | _ => false

/-- Selects the `OnAcknowledgementPacket` calls of a call list. -/
def isOnAcknowledgementPacket : Call → Bool
  | Call.OnAcknowledgementPacket _ _ _ => true
  | _ => false

/-- Selects the `OnTimeoutPacket` calls of a call list. -/
def isOnTimeoutPacket : Call → Bool
  | Call.OnTimeoutPacket _ _ => true
  | _ => false

/-- Selects the `TimeoutExecuted` calls of a call list. -/
def isTimeoutExecuted : Call → Bool
  | Call.TimeoutExecuted _ _ => true
  | _ => false

/-- What a handler leaves: the Go result pair, the context, and the calls made. -/
structure Reply (α : Type) where
  resp : Option α
  err : Option Error
  ctx : Context
  calls : List Call

/-! ## Packet handlers -/

/-- Handler `Keeper.RecvPacket` for `MsgRecvPacket`. -/
def Keeper.RecvPacket (k : Keeper) (ctx : Context) (msg : MsgRecvPacket) :
    Reply MsgRecvPacketResponse :=
  match k.AccAddressFromBech32 msg.Signer with
  | .error err => ⟨none, some (.Wrap err "Invalid address for msg Signer"), ctx, []⟩
  | .ok relayer =>
    -- Lookup module by channel capability
    let t1 := [Call.LookupModuleByChannel msg.Packet.DestinationPort msg.Packet.DestinationChannel]
    match k.ChannelKeeper.LookupModuleByChannel ctx msg.Packet.DestinationPort
        msg.Packet.DestinationChannel with
    | .error err => ⟨none, some (.Wrap err "could not retrieve module from port-id"), ctx, t1⟩
    | .ok (module, capability) =>
      -- Retrieve callbacks from router
      let t2 := t1 ++ [Call.GetRoute module]
      match k.Router.GetRoute module with
      | none =>
        ⟨none, some (.Wrap ErrInvalidRoute ("route not found to module: " ++ module)), ctx, t2⟩
      | some cbs =>
        -- Perform TAO verification on a cached context
        let cacheCtx := ctx.CacheContext
        let r := k.ChannelKeeper.RecvPacket cacheCtx capability msg.Packet msg.ProofCommitment
          msg.ProofHeight
        let cacheCtx := r.1
        let t3 := t2 ++ [Call.RecvPacket capability msg.Packet msg.ProofCommitment msg.ProofHeight]
        match r.2 with
        | some err =>
          if err = ErrNoOpMsg then
            ⟨some { Result := .NOOP }, none, ctx, t3⟩
          else
            ⟨none, some (.Wrap err "receive packet verification failed"), ctx, t3⟩
        | none =>
          let ctx := ctx.writeFn cacheCtx
          -- Perform application logic callback on a second cached context
          let cacheCtx := ctx.CacheContext
          let r := cbs.OnRecvPacket cacheCtx msg.Packet relayer
          let cacheCtx := r.1
          let ack := r.2
          let t4 := t3 ++ [Call.OnRecvPacket msg.Packet relayer]
          let ctx :=
            if (match ack with
                | none => true
                | some a => a.Success) then
              -- write application state changes for asynchronous and successful acknowledgements
              ctx.writeFn cacheCtx
            else
              ctx.EmitEvents cacheCtx.events
          -- Set packet acknowledgement only if the acknowledgement is not nil
          match ack with
          | some a =>
            let w := k.ChannelKeeper.WriteAcknowledgement ctx capability msg.Packet a
            let t5 := t4 ++ [Call.WriteAcknowledgement capability msg.Packet a]
            match w.2 with
            | some err => ⟨none, some err, w.1, t5⟩
            | none => ⟨some { Result := .SUCCESS }, none, w.1, t5⟩
          | none => ⟨some { Result := .SUCCESS }, none, ctx, t4⟩

/-- Handler `Keeper.Timeout` for `MsgTimeout`. -/
def Keeper.Timeout (k : Keeper) (ctx : Context) (msg : MsgTimeout) : Reply MsgTimeoutResponse :=
  match k.AccAddressFromBech32 msg.Signer with
  | .error err => ⟨none, some (.Wrap err "Invalid address for msg Signer"), ctx, []⟩
  | .ok relayer =>
    -- Lookup module by channel capability
    let t1 := [Call.LookupModuleByChannel msg.Packet.SourcePort msg.Packet.SourceChannel]
    match k.ChannelKeeper.LookupModuleByChannel ctx msg.Packet.SourcePort
        msg.Packet.SourceChannel with
    | .error err => ⟨none, some (.Wrap err "could not retrieve module from port-id"), ctx, t1⟩
    | .ok (module, capability) =>
      -- Retrieve callbacks from router
      let t2 := t1 ++ [Call.GetRoute module]
      match k.Router.GetRoute module with
      | none =>
        ⟨none, some (.Wrap ErrInvalidRoute ("route not found to module: " ++ module)), ctx, t2⟩
      | some cbs =>
        -- Perform TAO verification on a cached context
        let cacheCtx := ctx.CacheContext
        let r := k.ChannelKeeper.TimeoutPacket cacheCtx msg.Packet msg.ProofUnreceived
          msg.ProofHeight msg.NextSequenceRecv
        let cacheCtx := r.1
        let t3 := t2 ++ [Call.TimeoutPacket msg.Packet msg.ProofUnreceived msg.ProofHeight
          msg.NextSequenceRecv]
        match r.2 with
        | some err =>
          if err = ErrNoOpMsg then
            ⟨some { Result := .NOOP }, none, ctx, t3⟩
          else
            ⟨none, some (.Wrap err "timeout packet verification failed"), ctx, t3⟩
        | none =>
          let ctx := ctx.writeFn cacheCtx
          -- Perform application logic callback
          let c := cbs.OnTimeoutPacket ctx msg.Packet relayer
          let ctx := c.1
          let t4 := t3 ++ [Call.OnTimeoutPacket msg.Packet relayer]
          match c.2 with
          | some err => ⟨none, some (.Wrap err "timeout packet callback failed"), ctx, t4⟩
          | none =>
            -- Delete packet commitment
            let e := k.ChannelKeeper.TimeoutExecuted ctx capability msg.Packet
            let t5 := t4 ++ [Call.TimeoutExecuted capability msg.Packet]
            match e.2 with
            | some err => ⟨none, some err, e.1, t5⟩
            | none => ⟨some { Result := .SUCCESS }, none, e.1, t5⟩

/-- Handler `Keeper.TimeoutOnClose` for `MsgTimeoutOnClose`. -/
def Keeper.TimeoutOnClose (k : Keeper) (ctx : Context) (msg : MsgTimeoutOnClose) :
    Reply MsgTimeoutOnCloseResponse :=
  match k.AccAddressFromBech32 msg.Signer with
  | .error err => ⟨none, some (.Wrap err "Invalid address for msg Signer"), ctx, []⟩
  | .ok relayer =>
    -- Lookup module by channel capability
    let t1 := [Call.LookupModuleByChannel msg.Packet.SourcePort msg.Packet.SourceChannel]
    match k.ChannelKeeper.LookupModuleByChannel ctx msg.Packet.SourcePort
        msg.Packet.SourceChannel with
    | .error err => ⟨none, some (.Wrap err "could not retrieve module from port-id"), ctx, t1⟩
    | .ok (module, capability) =>
      -- Retrieve callbacks from router
      let t2 := t1 ++ [Call.GetRoute module]
      match k.Router.GetRoute module with
      | none =>
        ⟨none, some (.Wrap ErrInvalidRoute ("route not found to module: " ++ module)), ctx, t2⟩
      | some cbs =>
        -- Perform TAO verification on a cached context
        let cacheCtx := ctx.CacheContext
        let r := k.ChannelKeeper.TimeoutOnClose cacheCtx capability msg.Packet
          msg.ProofUnreceived msg.ProofClose msg.ProofHeight msg.NextSequenceRecv
        let cacheCtx := r.1
        let t3 := t2 ++ [Call.TimeoutOnClose capability msg.Packet msg.ProofUnreceived
          msg.ProofClose msg.ProofHeight msg.NextSequenceRecv]
        match r.2 with
        | some err =>
          if err = ErrNoOpMsg then
            ⟨some { Result := .NOOP }, none, ctx, t3⟩
          else
            ⟨none, some (.Wrap err "timeout on close packet verification failed"), ctx, t3⟩
        | none =>
          let ctx := ctx.writeFn cacheCtx
          -- MsgTimeout and MsgTimeoutOnClose use the same OnTimeoutPacket callback
          let c := cbs.OnTimeoutPacket ctx msg.Packet relayer
          let ctx := c.1
          let t4 := t3 ++ [Call.OnTimeoutPacket msg.Packet relayer]
          match c.2 with
          | some err => ⟨none, some (.Wrap err "timeout packet callback failed"), ctx, t4⟩
          | none =>
            -- Delete packet commitment
            let e := k.ChannelKeeper.TimeoutExecuted ctx capability msg.Packet
            let t5 := t4 ++ [Call.TimeoutExecuted capability msg.Packet]
            match e.2 with
            | some err => ⟨none, some err, e.1, t5⟩
            | none => ⟨some { Result := .SUCCESS }, none, e.1, t5⟩

/-- Handler `Keeper.Acknowledgement` for `MsgAcknowledgement`. -/
def Keeper.Acknowledgement (k : Keeper) (ctx : Context) (msg : MsgAcknowledgement) :
    Reply MsgAcknowledgementResponse :=
  match k.AccAddressFromBech32 msg.Signer with
  | .error err => ⟨none, some (.Wrap err "Invalid address for msg Signer"), ctx, []⟩
  | .ok relayer =>
    -- Lookup module by channel capability
    let t1 := [Call.LookupModuleByChannel msg.Packet.SourcePort msg.Packet.SourceChannel]
    match k.ChannelKeeper.LookupModuleByChannel ctx msg.Packet.SourcePort
        msg.Packet.SourceChannel with
    | .error err => ⟨none, some (.Wrap err "could not retrieve module from port-id"), ctx, t1⟩
    | .ok (module, capability) =>
      -- Retrieve callbacks from router
      let t2 := t1 ++ [Call.GetRoute module]
      match k.Router.GetRoute module with
      | none =>
        ⟨none, some (.Wrap ErrInvalidRoute ("route not found to module: " ++ module)), ctx, t2⟩
      | some cbs =>
        -- Perform TAO verification on a cached context
        let cacheCtx := ctx.CacheContext
        let r := k.ChannelKeeper.AcknowledgePacket cacheCtx capability msg.Packet
          msg.Acknowledgement msg.ProofAcked msg.ProofHeight
        let cacheCtx := r.1
        let t3 := t2 ++ [Call.AcknowledgePacket capability msg.Packet msg.Acknowledgement
          msg.ProofAcked msg.ProofHeight]
        match r.2 with
        | some err =>
          if err = ErrNoOpMsg then
            ⟨some { Result := .NOOP }, none, ctx, t3⟩
          else
            ⟨none, some (.Wrap err "acknowledge packet verification failed"), ctx, t3⟩
        | none =>
          let ctx := ctx.writeFn cacheCtx
          -- Perform application logic callback
          let c := cbs.OnAcknowledgementPacket ctx msg.Packet msg.Acknowledgement relayer
          let ctx := c.1
          let t4 := t3 ++ [Call.OnAcknowledgementPacket msg.Packet msg.Acknowledgement relayer]
          match c.2 with
          | some err => ⟨none, some (.Wrap err "acknowledge packet callback failed"), ctx, t4⟩
          | none => ⟨some { Result := .SUCCESS }, none, ctx, t4⟩

/-! ## Channel upgrade handlers -/

/-- Handler `Keeper.ChannelUpgradeInit` for `MsgChannelUpgradeInit`. -/
def Keeper.ChannelUpgradeInit (k : Keeper) (ctx : Context) (msg : MsgChannelUpgradeInit) :
    Reply MsgChannelUpgradeInitResponse :=
  let t1 := [Call.LookupModuleByChannel msg.PortId msg.ChannelId]
  match k.ChannelKeeper.LookupModuleByChannel ctx msg.PortId msg.ChannelId with
  | .error err => ⟨none, some (.Wrap err "could not retrieve module from port-id"), ctx, t1⟩
  | .ok (module, _) =>
    let t2 := t1 ++ [Call.GetRoute module]
    match k.Router.GetRoute module with
    | none =>
      ⟨none, some (.Wrap ErrInvalidRoute ("route not found to module: " ++ module)), ctx, t2⟩
    | some cbs =>
      let r := k.ChannelKeeper.ChanUpgradeInit ctx msg.PortId msg.ChannelId msg.Fields
        msg.Timeout
      let ctx := r.1
      let t3 := t2 ++ [Call.ChanUpgradeInit msg.PortId msg.ChannelId msg.Fields msg.Timeout]
      match r.2 with
      | .error err => ⟨none, some (.Wrap err "channel handshake upgrade init failed"), ctx, t3⟩
      | .ok proposedUpgrade =>
        let t4 := t3 ++ [Call.GetChannel msg.PortId msg.ChannelId]
        match k.ChannelKeeper.GetChannel ctx msg.PortId msg.ChannelId with
        | none =>
          ⟨none, some (.Wrap ErrChannelNotFound
            ("port ID (" ++ msg.PortId ++ ") channel ID (" ++ msg.ChannelId ++ ")")), ctx, t4⟩
        | some channel =>
          let c := cbs.OnChanUpgradeInit ctx msg.PortId msg.ChannelId
            proposedUpgrade.Fields.Ordering proposedUpgrade.Fields.ConnectionHops
            channel.UpgradeSequence proposedUpgrade.Fields.Version channel.Version
          let ctx := c.1
          let t5 := t4 ++ [Call.OnChanUpgradeInit msg.PortId msg.ChannelId
            proposedUpgrade.Fields.Ordering proposedUpgrade.Fields.ConnectionHops
            channel.UpgradeSequence proposedUpgrade.Fields.Version channel.Version]
          match c.2 with
          | .error err =>
            ⟨none, some (.Wrap err ("channel upgrade init callback failed for port ID: " ++
              msg.PortId ++ ", channel ID: " ++ msg.ChannelId)), ctx, t5⟩
          | .ok proposedVersion =>
            let proposedUpgrade : Upgrade :=
              { proposedUpgrade with
                Fields := { proposedUpgrade.Fields with Version := proposedVersion } }
            let ctx := k.ChannelKeeper.WriteUpgradeInitChannel ctx msg.PortId msg.ChannelId
              proposedUpgrade
            let t6 := t5 ++ [Call.WriteUpgradeInitChannel msg.PortId msg.ChannelId
              proposedUpgrade]
            ⟨some { ChannelId := msg.ChannelId, Upgrade := proposedUpgrade,
                    UpgradeSequence := channel.UpgradeSequence }, none, ctx, t6⟩

/-- Handler `Keeper.ChannelUpgradeTry` for `MsgChannelUpgradeTry`. -/
def Keeper.ChannelUpgradeTry (_k : Keeper) (ctx : Context) (_msg : MsgChannelUpgradeTry) :
    Reply MsgChannelUpgradeTryResponse :=
  ⟨some {}, none, ctx, []⟩

/-- Handler `Keeper.ChannelUpgradeAck` for `MsgChannelUpgradeAck`. -/
def Keeper.ChannelUpgradeAck (k : Keeper) (ctx : Context) (msg : MsgChannelUpgradeAck) :
    Reply MsgChannelUpgradeAckResponse :=
  let t1 := [Call.LookupModuleByChannel msg.PortId msg.ChannelId]
  match k.ChannelKeeper.LookupModuleByChannel ctx msg.PortId msg.ChannelId with
  | .error err => ⟨none, some (.Wrap err "could not retrieve module from port-id"), ctx, t1⟩
  | .ok (module, _) =>
    let t2 := t1 ++ [Call.GetRoute module]
    match k.Router.GetRoute module with
    | none =>
      ⟨none, some (.Wrap ErrInvalidRoute ("route not found to module: " ++ module)), ctx, t2⟩
    | some cbs =>
      let r := k.ChannelKeeper.ChanUpgradeAck ctx msg.PortId msg.ChannelId
        msg.CounterpartyFlushStatus msg.CounterpartyUpgrade msg.ProofChannel msg.ProofUpgrade
        msg.ProofHeight
      let ctx := r.1
      let t3 := t2 ++ [Call.ChanUpgradeAck msg.PortId msg.ChannelId msg.CounterpartyFlushStatus
        msg.CounterpartyUpgrade msg.ProofChannel msg.ProofUpgrade msg.ProofHeight]
      match r.2 with
      | some err => ⟨none, some (.Wrap err "channel handshake upgrade ack failed"), ctx, t3⟩
      | none =>
        let c := cbs.OnChanUpgradeAck ctx msg.PortId msg.ChannelId "" ""
        let ctx := c.1
        let t4 := t3 ++ [Call.OnChanUpgradeAck msg.PortId msg.ChannelId "" ""]
        match c.2 with
        | some _ =>
          -- the call restoreChannel(portID, channelID) is commented out in the source
          ⟨some {}, none, ctx, t4⟩
        | none => ⟨none, none, ctx, t4⟩

/-- Handler `Keeper.ChannelUpgradeConfirm` for `MsgChannelUpgradeConfirm`. -/
def Keeper.ChannelUpgradeConfirm (_k : Keeper) (ctx : Context)
    (_msg : MsgChannelUpgradeConfirm) : Reply MsgChannelUpgradeConfirmResponse :=
  ⟨none, none, ctx, []⟩

/-- Handler `Keeper.ChannelUpgradeTimeout` for `MsgChannelUpgradeTimeout`. -/
def Keeper.ChannelUpgradeTimeout (_k : Keeper) (ctx : Context)
    (_msg : MsgChannelUpgradeTimeout) : Reply MsgChannelUpgradeTimeoutResponse :=
  ⟨none, none, ctx, []⟩

/-- Handler `Keeper.ChannelUpgradeCancel` for `MsgChannelUpgradeCancel`. -/
def Keeper.ChannelUpgradeCancel (_k : Keeper) (ctx : Context)
    (_msg : MsgChannelUpgradeCancel) : Reply MsgChannelUpgradeCancelResponse :=
  ⟨none, none, ctx, []⟩

/-! ## Channel handshake handlers -/

/-- Handler `Keeper.ChannelOpenInit` for `MsgChannelOpenInit`. -/
def Keeper.ChannelOpenInit (k : Keeper) (ctx : Context) (msg : MsgChannelOpenInit) :
    Reply MsgChannelOpenInitResponse :=
  -- Lookup module by port capability
  let t1 := [Call.LookupModuleByPort msg.PortId]
  match k.PortKeeper.LookupModuleByPort ctx msg.PortId with
  | .error err => ⟨none, some (.Wrap err "could not retrieve module from port-id"), ctx, t1⟩
  | .ok (module, portCap) =>
    -- Retrieve application callbacks from router
    let t2 := t1 ++ [Call.GetRoute module]
    match k.Router.GetRoute module with
    | none =>
      ⟨none, some (.Wrap ErrInvalidRoute ("route not found to module: " ++ module)), ctx, t2⟩
    | some cbs =>
      -- Perform 04-channel verification
      let r := k.ChannelKeeper.ChanOpenInit ctx msg.Channel.Ordering msg.Channel.ConnectionHops
        msg.PortId portCap msg.Channel.Counterparty msg.Channel.Version
      let ctx := r.1
      let t3 := t2 ++ [Call.ChanOpenInit msg.Channel.Ordering msg.Channel.ConnectionHops
        msg.PortId portCap msg.Channel.Counterparty msg.Channel.Version]
      match r.2 with
      | .error err => ⟨none, some (.Wrap err "channel handshake open init failed"), ctx, t3⟩
      | .ok (channelID, capability) =>
        -- Perform application logic callback
        let c := cbs.OnChanOpenInit ctx msg.Channel.Ordering msg.Channel.ConnectionHops
          msg.PortId channelID capability msg.Channel.Counterparty msg.Channel.Version
        let ctx := c.1
        let t4 := t3 ++ [Call.OnChanOpenInit msg.Channel.Ordering msg.Channel.ConnectionHops
          msg.PortId channelID capability msg.Channel.Counterparty msg.Channel.Version]
        match c.2 with
        | .error err =>
          ⟨none, some (.Wrap err ("channel open init callback failed for port ID: " ++
            msg.PortId ++ ", channel ID: " ++ channelID)), ctx, t4⟩
        | .ok version =>
          -- Write channel into state
          let ctx := k.ChannelKeeper.WriteOpenInitChannel ctx msg.PortId channelID
            msg.Channel.Ordering msg.Channel.ConnectionHops msg.Channel.Counterparty version
          let t5 := t4 ++ [Call.WriteOpenInitChannel msg.PortId channelID msg.Channel.Ordering
            msg.Channel.ConnectionHops msg.Channel.Counterparty version]
          ⟨some { ChannelId := channelID, Version := version }, none, ctx, t5⟩

/-- Handler `Keeper.ChannelOpenTry` for `MsgChannelOpenTry`. -/
def Keeper.ChannelOpenTry (k : Keeper) (ctx : Context) (msg : MsgChannelOpenTry) :
    Reply MsgChannelOpenTryResponse :=
  -- Lookup module by port capability
  let t1 := [Call.LookupModuleByPort msg.PortId]
  match k.PortKeeper.LookupModuleByPort ctx msg.PortId with
  | .error err => ⟨none, some (.Wrap err "could not retrieve module from port-id"), ctx, t1⟩
  | .ok (module, portCap) =>
    -- Retrieve application callbacks from router
    let t2 := t1 ++ [Call.GetRoute module]
    match k.Router.GetRoute module with
    | none =>
      ⟨none, some (.Wrap ErrInvalidRoute ("route not found to module: " ++ module)), ctx, t2⟩
    | some cbs =>
      -- Perform 04-channel verification
      let r := k.ChannelKeeper.ChanOpenTry ctx msg.Channel.Ordering msg.Channel.ConnectionHops
        msg.PortId portCap msg.Channel.Counterparty msg.CounterpartyVersion msg.ProofInit
        msg.ProofHeight
      let ctx := r.1
      let t3 := t2 ++ [Call.ChanOpenTry msg.Channel.Ordering msg.Channel.ConnectionHops
        msg.PortId portCap msg.Channel.Counterparty msg.CounterpartyVersion msg.ProofInit
        msg.ProofHeight]
      match r.2 with
      | .error err => ⟨none, some (.Wrap err "channel handshake open try failed"), ctx, t3⟩
      | .ok (channelID, capability) =>
        -- Perform application logic callback
        let c := cbs.OnChanOpenTry ctx msg.Channel.Ordering msg.Channel.ConnectionHops
          msg.PortId channelID capability msg.Channel.Counterparty msg.CounterpartyVersion
        let ctx := c.1
        let t4 := t3 ++ [Call.OnChanOpenTry msg.Channel.Ordering msg.Channel.ConnectionHops
          msg.PortId channelID capability msg.Channel.Counterparty msg.CounterpartyVersion]
        match c.2 with
        | .error err =>
          ⟨none, some (.Wrap err ("channel open try callback failed for port ID: " ++
            msg.PortId ++ ", channel ID: " ++ channelID)), ctx, t4⟩
        | .ok version =>
          -- Write channel into state
          let ctx := k.ChannelKeeper.WriteOpenTryChannel ctx msg.PortId channelID
            msg.Channel.Ordering msg.Channel.ConnectionHops msg.Channel.Counterparty version
          let t5 := t4 ++ [Call.WriteOpenTryChannel msg.PortId channelID msg.Channel.Ordering
            msg.Channel.ConnectionHops msg.Channel.Counterparty version]
          ⟨some { ChannelId := channelID, Version := version }, none, ctx, t5⟩

/-- Handler `Keeper.ChannelOpenAck` for `MsgChannelOpenAck`. -/
def Keeper.ChannelOpenAck (k : Keeper) (ctx : Context) (msg : MsgChannelOpenAck) :
    Reply MsgChannelOpenAckResponse :=
  -- Lookup module by channel capability
  let t1 := [Call.LookupModuleByChannel msg.PortId msg.ChannelId]
  match k.ChannelKeeper.LookupModuleByChannel ctx msg.PortId msg.ChannelId with
  | .error err => ⟨none, some (.Wrap err "could not retrieve module from port-id"), ctx, t1⟩
  | .ok (module, capability) =>
    -- Retrieve application callbacks from router
    let t2 := t1 ++ [Call.GetRoute module]
    match k.Router.GetRoute module with
    | none =>
      ⟨none, some (.Wrap ErrInvalidRoute ("route not found to module: " ++ module)), ctx, t2⟩
    | some cbs =>
      -- Perform 04-channel verification
      let r := k.ChannelKeeper.ChanOpenAck ctx msg.PortId msg.ChannelId capability
        msg.CounterpartyVersion msg.CounterpartyChannelId msg.ProofTry msg.ProofHeight
      let ctx := r.1
      let t3 := t2 ++ [Call.ChanOpenAck msg.PortId msg.ChannelId capability
        msg.CounterpartyVersion msg.CounterpartyChannelId msg.ProofTry msg.ProofHeight]
      match r.2 with
      | some err => ⟨none, some (.Wrap err "channel handshake open ack failed"), ctx, t3⟩
      | none =>
        -- Write channel into state
        let ctx := k.ChannelKeeper.WriteOpenAckChannel ctx msg.PortId msg.ChannelId
          msg.CounterpartyVersion msg.CounterpartyChannelId
        let t4 := t3 ++ [Call.WriteOpenAckChannel msg.PortId msg.ChannelId
          msg.CounterpartyVersion msg.CounterpartyChannelId]
        -- Perform application logic callback
        let c := cbs.OnChanOpenAck ctx msg.PortId msg.ChannelId msg.CounterpartyChannelId
          msg.CounterpartyVersion
        let ctx := c.1
        let t5 := t4 ++ [Call.OnChanOpenAck msg.PortId msg.ChannelId msg.CounterpartyChannelId
          msg.CounterpartyVersion]
        match c.2 with
        | some err =>
          ⟨none, some (.Wrap err ("channel open ack callback failed for port ID: " ++
            msg.PortId ++ ", channel ID: " ++ msg.ChannelId)), ctx, t5⟩
        | none => ⟨some {}, none, ctx, t5⟩

/-- Handler `Keeper.ChannelOpenConfirm` for `MsgChannelOpenConfirm`. -/
def Keeper.ChannelOpenConfirm (k : Keeper) (ctx : Context) (msg : MsgChannelOpenConfirm) :
    Reply MsgChannelOpenConfirmResponse :=
  -- Lookup module by channel capability
  let t1 := [Call.LookupModuleByChannel msg.PortId msg.ChannelId]
  match k.ChannelKeeper.LookupModuleByChannel ctx msg.PortId msg.ChannelId with
  | .error err => ⟨none, some (.Wrap err "could not retrieve module from port-id"), ctx, t1⟩
  | .ok (module, capability) =>
    -- Retrieve application callbacks from router
    let t2 := t1 ++ [Call.GetRoute module]
    match k.Router.GetRoute module with
    | none =>
      ⟨none, some (.Wrap ErrInvalidRoute ("route not found to module: " ++ module)), ctx, t2⟩
    | some cbs =>
      -- Perform 04-channel verification
      let r := k.ChannelKeeper.ChanOpenConfirm ctx msg.PortId msg.ChannelId capability
        msg.ProofAck msg.ProofHeight
      let ctx := r.1
      let t3 := t2 ++ [Call.ChanOpenConfirm msg.PortId msg.ChannelId capability msg.ProofAck
        msg.ProofHeight]
      match r.2 with
      | some err => ⟨none, some (.Wrap err "channel handshake open confirm failed"), ctx, t3⟩
      | none =>
        -- Write channel into state
        let ctx := k.ChannelKeeper.WriteOpenConfirmChannel ctx msg.PortId msg.ChannelId
        let t4 := t3 ++ [Call.WriteOpenConfirmChannel msg.PortId msg.ChannelId]
        -- Perform application logic callback
        let c := cbs.OnChanOpenConfirm ctx msg.PortId msg.ChannelId
        let ctx := c.1
        let t5 := t4 ++ [Call.OnChanOpenConfirm msg.PortId msg.ChannelId]
        match c.2 with
        | some err =>
          ⟨none, some (.Wrap err ("channel open confirm callback failed for port ID: " ++
            msg.PortId ++ ", channel ID: " ++ msg.ChannelId)), ctx, t5⟩
        | none => ⟨some {}, none, ctx, t5⟩

/-- Handler `Keeper.ChannelCloseInit` for `MsgChannelCloseInit`. -/
def Keeper.ChannelCloseInit (k : Keeper) (ctx : Context) (msg : MsgChannelCloseInit) :
    Reply MsgChannelCloseInitResponse :=
  -- Lookup module by channel capability
  let t1 := [Call.LookupModuleByChannel msg.PortId msg.ChannelId]
  match k.ChannelKeeper.LookupModuleByChannel ctx msg.PortId msg.ChannelId with
  | .error err => ⟨none, some (.Wrap err "could not retrieve module from port-id"), ctx, t1⟩
  | .ok (module, capability) =>
    -- Retrieve callbacks from router
    let t2 := t1 ++ [Call.GetRoute module]
    match k.Router.GetRoute module with
    | none =>
      ⟨none, some (.Wrap ErrInvalidRoute ("route not found to module: " ++ module)), ctx, t2⟩
    | some cbs =>
      let c := cbs.OnChanCloseInit ctx msg.PortId msg.ChannelId
      let ctx := c.1
      let t3 := t2 ++ [Call.OnChanCloseInit msg.PortId msg.ChannelId]
      match c.2 with
      | some err =>
        ⟨none, some (.Wrap err ("channel close init callback failed for port ID: " ++
          msg.PortId ++ ", channel ID: " ++ msg.ChannelId)), ctx, t3⟩
      | none =>
        let r := k.ChannelKeeper.ChanCloseInit ctx msg.PortId msg.ChannelId capability
        let ctx := r.1
        let t4 := t3 ++ [Call.ChanCloseInit msg.PortId msg.ChannelId capability]
        match r.2 with
        | some err => ⟨none, some (.Wrap err "channel handshake close init failed"), ctx, t4⟩
        | none => ⟨some {}, none, ctx, t4⟩

/-- Handler `Keeper.ChannelCloseConfirm` for `MsgChannelCloseConfirm`. -/
def Keeper.ChannelCloseConfirm (k : Keeper) (ctx : Context) (msg : MsgChannelCloseConfirm) :
    Reply MsgChannelCloseConfirmResponse :=
  -- Lookup module by channel capability
  let t1 := [Call.LookupModuleByChannel msg.PortId msg.ChannelId]
  match k.ChannelKeeper.LookupModuleByChannel ctx msg.PortId msg.ChannelId with
  | .error err => ⟨none, some (.Wrap err "could not retrieve module from port-id"), ctx, t1⟩
  | .ok (module, capability) =>
    -- Retrieve callbacks from router
    let t2 := t1 ++ [Call.GetRoute module]
    match k.Router.GetRoute module with
    | none =>
      ⟨none, some (.Wrap ErrInvalidRoute ("route not found to module: " ++ module)), ctx, t2⟩
    | some cbs =>
      let c := cbs.OnChanCloseConfirm ctx msg.PortId msg.ChannelId
      let ctx := c.1
      let t3 := t2 ++ [Call.OnChanCloseConfirm msg.PortId msg.ChannelId]
      match c.2 with
      | some err =>
        ⟨none, some (.Wrap err ("channel close confirm callback failed for port ID: " ++
          msg.PortId ++ ", channel ID: " ++ msg.ChannelId)), ctx, t3⟩
      | none =>
        let r := k.ChannelKeeper.ChanCloseConfirm ctx msg.PortId msg.ChannelId capability
          msg.ProofInit msg.ProofHeight
        let ctx := r.1
        let t4 := t3 ++ [Call.ChanCloseConfirm msg.PortId msg.ChannelId capability
          msg.ProofInit msg.ProofHeight]
        match r.2 with
        | some err =>
          ⟨none, some (.Wrap err "channel handshake close confirm failed"), ctx, t4⟩
        | none => ⟨some {}, none, ctx, t4⟩

/-! ## Interchain accounts: authentication and execution of a transaction

Source: `modules/apps/27-interchain-accounts/keeper/relay.go`.

An `sdk.Msg` is taken with the results of its methods `GetSigners` and
`ValidateBasic`.  The account lookup, the rendering of an address as a string
and the message router are collaborators of the keeper.  The cached context
of `executeTx` is the branch of `Context.CacheContext`; what is proved about
`executeTx` concerns the store and the returned error. -/

namespace Ica

/-- Sentinel `sdkerrors.ErrUnauthorized`. -/
def ErrUnauthorized : Error := .sentinel "sdkerrors.ErrUnauthorized"
/-- Sentinel `types.ErrInvalidRoute` of the interchain accounts module. -/
def ErrInvalidRoute : Error := .sentinel "icatypes.ErrInvalidRoute"

/-- Value of the interface `sdk.Msg`: a type tag and payload, and what the
methods `GetSigners()` and `ValidateBasic()` return. -/
structure Msg where
  TypeURL : String
  Value : Bytes
  GetSigners : List AccAddress
  ValidateBasic : Option Error
deriving DecidableEq, Repr

/-- Result `sdk.Result` of a message handler. -/
structure Result where
  Data : Bytes
deriving DecidableEq, Repr

/-- Message handler `sdk.Handler`. -/
abbrev Handler := Context → Msg → Context × Except Error Result

/-- The collaborators of the interchain accounts keeper used by `relay.go`:
the registered account address of a port (value and found flag), the method
`String()` of an address, and `msgRouter.Handler` (nil when there is no route). -/
structure Keeper where
  GetInterchainAccountAddress : Context → String → Option String
  AccAddressString : AccAddress → String
  msgRouterHandler : Msg → Option Handler

/-- Inner loop of `AuthenticateTx`: the signers of one message. -/
def AuthenticateTx.signers (k : Keeper) (interchainAccountAddr : String) :
    List AccAddress → Option Error
  | [] => none
  | signer :: rest =>
    if interchainAccountAddr ≠ k.AccAddressString signer then some ErrUnauthorized
    else AuthenticateTx.signers k interchainAccountAddr rest

/-- Outer loop of `AuthenticateTx`: the messages. -/
def AuthenticateTx.msgs (k : Keeper) (interchainAccountAddr : String) :
    List Msg → Option Error
  | [] => none
  | msg :: rest =>
    match AuthenticateTx.signers k interchainAccountAddr msg.GetSigners with
    | some err => some err
    | none => AuthenticateTx.msgs k interchainAccountAddr rest

/-- Method `Keeper.AuthenticateTx`. -/
def Keeper.AuthenticateTx (k : Keeper) (ctx : Context) (msgs : List Msg) (portID : String) :
    Option Error :=
  match k.GetInterchainAccountAddress ctx portID with
  | none => some ErrUnauthorized
  | some interchainAccountAddr => AuthenticateTx.msgs k interchainAccountAddr msgs

/-- Method `Keeper.executeMsg`. -/
def Keeper.executeMsg (k : Keeper) (ctx : Context) (msg : Msg) :
    Context × Except Error Result :=
  match k.msgRouterHandler msg with
  | none => (ctx, .error ErrInvalidRoute)
  | some handler => handler ctx msg

/-- First loop of `executeTx`: `ValidateBasic` of every message. -/
def executeTx.validate : List Msg → Option Error
  | [] => none
  | msg :: rest =>
    match msg.ValidateBasic with
    | some err => some err
    | none => executeTx.validate rest

/-- Second loop of `executeTx`: `executeMsg` on the cached context, message by
message, stopping at the first error. -/
def executeTx.execute (k : Keeper) (cacheCtx : Context) : List Msg → Context × Option Error
  | [] => (cacheCtx, none)
  | msg :: rest =>
    let r := k.executeMsg cacheCtx msg
    match r.2 with
    | .error err => (r.1, some err)
    | .ok _ => executeTx.execute k r.1 rest

/-- Method `Keeper.executeTx`: the context it leaves and the error it returns. -/
def Keeper.executeTx (k : Keeper) (ctx : Context) (sourcePort _destPort _destChannel : String)
    (msgs : List Msg) : Context × Option Error :=
  match k.AuthenticateTx ctx msgs sourcePort with
  | some err => (ctx, some err)
  | none =>
    match executeTx.validate msgs with
    | some err => (ctx, some err)
    | none =>
      -- writeCache is called only if all msgs succeed
      let cacheCtx := ctx.CacheContext
      let r := executeTx.execute k cacheCtx msgs
      match r.2 with
      | some err => (ctx, some err)
      | none => (ctx.writeFn r.1, none)

/-- The claim's words, "every message has a route and its handler succeeds":
checked message by message on the state the previous handlers left. -/
def allHandled (k : Keeper) (c : Context) : List Msg → Bool
  | [] => true
  | msg :: rest =>
    match k.msgRouterHandler msg with
    | none => false
    | some handler =>
      match (handler c msg).2 with
      | .error _ => false
      | .ok _ => allHandled k (handler c msg).1 rest

/-- The claim's words, "the state obtained by running the handlers in list
order": each routed handler applied to the state the previous one left. -/
def runInOrder (k : Keeper) (c : Context) : List Msg → Context
  | [] => c
  | msg :: rest =>
    match k.msgRouterHandler msg with
    | none => runInOrder k c rest
    | some handler => runInOrder k (handler c msg).1 rest

end Ica

/-! ## Wasm light client: validation of contract code

Source: `modules/light-clients/08-wasm/types/validation.go`. -/

namespace Wasm

/-- Sentinel `ErrWasmEmptyCode`. -/
def ErrWasmEmptyCode : Error := .sentinel "ErrWasmEmptyCode"
/-- Sentinel `ErrWasmCodeTooLarge`. -/
def ErrWasmCodeTooLarge : Error := .sentinel "ErrWasmCodeTooLarge"

/-- Constant `maxWasmSize`. -/
def maxWasmSize : Nat := 3 * 1024 * 1024

/-- Function `ValidateWasmCode`. -/
def ValidateWasmCode (code : Bytes) : Option Error :=
  if code.length = 0 then some ErrWasmEmptyCode
  else if code.length > maxWasmSize then some ErrWasmCodeTooLarge
  else none

/-- Function `MaxWasmByteSize`, a `uint64`. -/
def MaxWasmByteSize : Nat := maxWasmSize % 2 ^ 64

end Wasm

/-! ## Wasm light client: code hash, consensus state, client store

Sources: `modules/light-clients/08-wasm/types/validation.go`,
`consensus_state.go` and `store.go` of the same package. -/

namespace Wasm

/-- Sentinel `ErrInvalidCodeHash`. -/
def ErrInvalidCodeHash : Error := .sentinel "ErrInvalidCodeHash"
/-- Sentinel `ErrRetrieveClientID`. -/
def ErrRetrieveClientID : Error := .sentinel "ErrRetrieveClientID"

/-- The four bytes that open every wasm binary, a zero byte and "asm". -/
def wasmMagic : Bytes := [0, 97, 115, 109]

/-- Function `ValidateWasmCodeHash`. -/
def ValidateWasmCodeHash (codeHash : Bytes) : Option Error :=
  let lenCodeHash := codeHash.length
  if lenCodeHash = 0 then
    some (.Wrap ErrInvalidCodeHash "code hash cannot be empty")
  else if lenCodeHash ≠ 32 then
    some (.Wrap ErrInvalidCodeHash
      ("expected length of 32 bytes, got " ++ Nat.repr lenCodeHash))
  else none

/-- Wasm `ConsensusState`, with the field the constructor sets. -/
structure ConsensusState where
  Data : Bytes
deriving DecidableEq, Repr

/-- Function `NewConsensusState`; the timestamp is a `uint64`. -/
def NewConsensusState (data : Bytes) (_timestamp : Nat) : ConsensusState :=
  { Data := data }

/-- Method `ConsensusState.GetTimestamp`. -/
def ConsensusState.GetTimestamp (_cs : ConsensusState) : Nat :=
  0

/-- Go `bytes.HasPrefix`. -/
def bytes.HasPrefix (s pre : Bytes) : Bool :=
  decide (pre.length ≤ s.length ∧ s.take pre.length = pre)

/-- Go `bytes.TrimPrefix`. -/
def bytes.TrimPrefix (s pre : Bytes) : Bytes :=
  if bytes.HasPrefix s pre then s.drop pre.length else s

/-- The methods of the interface `storetypes.KVStore` the wrapped store calls on
its two stores.  A store is a value; `Set` and `Delete` return the store
they leave.  `Get` returns `none` for Go's nil. -/
class storetypes.KVStore (σ : Type) where
  Get : σ → Bytes → Option Bytes
  Has : σ → Bytes → Bool
  Set : σ → Bytes → Bytes → σ
  Delete : σ → Bytes → σ

/-- Struct `updateProposalWrappedStore`, over stores of type `σ`. -/
structure updateProposalWrappedStore (σ : Type) where
  subjectStore : σ
  substituteStore : σ
  subjectPrefix : Bytes
  substitutePrefix : Bytes

/-- Function `newUpdateProposalWrappedStore`. -/
def newUpdateProposalWrappedStore {σ : Type} (subjectStore substituteStore : σ)
    (subjectPrefix substitutePrefix : Bytes) : updateProposalWrappedStore σ :=
  { subjectStore := subjectStore, substituteStore := substituteStore,
    subjectPrefix := subjectPrefix, substitutePrefix := substitutePrefix }

/-- Method `updateProposalWrappedStore.trimPrefix`. -/
def updateProposalWrappedStore.trimPrefix {σ : Type} (ws : updateProposalWrappedStore σ)
    (key : Bytes) : Bytes :=
  if bytes.HasPrefix key ws.subjectPrefix then bytes.TrimPrefix key ws.subjectPrefix
  else bytes.TrimPrefix key ws.substitutePrefix

/-- Method `updateProposalWrappedStore.getStore`. -/
def updateProposalWrappedStore.getStore {σ : Type} (ws : updateProposalWrappedStore σ)
    (key : Bytes) : σ :=
  if bytes.HasPrefix key ws.subjectPrefix then ws.subjectStore else ws.substituteStore

/-- The store `getStore` returns is a reference into the wrapped store: a write
through it changes that store of the wrapped store.  This puts the written
store `s` back where `getStore` took it. -/
def updateProposalWrappedStore.putStore {σ : Type} (ws : updateProposalWrappedStore σ)
    (key : Bytes) (s : σ) : updateProposalWrappedStore σ :=
  if bytes.HasPrefix key ws.subjectPrefix then { ws with subjectStore := s }
  else { ws with substituteStore := s }

/-- Method `updateProposalWrappedStore.Get`. -/
def updateProposalWrappedStore.Get {σ : Type} [storetypes.KVStore σ]
    (ws : updateProposalWrappedStore σ) (key : Bytes) : Option Bytes :=
  storetypes.KVStore.Get (ws.getStore key) (ws.trimPrefix key)

/-- Method `updateProposalWrappedStore.Has`. -/
def updateProposalWrappedStore.Has {σ : Type} [storetypes.KVStore σ]
    (ws : updateProposalWrappedStore σ) (key : Bytes) : Bool :=
  storetypes.KVStore.Has (ws.getStore key) (ws.trimPrefix key)

/-- Method `updateProposalWrappedStore.Set`. -/
def updateProposalWrappedStore.Set {σ : Type} [storetypes.KVStore σ]
    (ws : updateProposalWrappedStore σ) (key value : Bytes) : updateProposalWrappedStore σ :=
  ws.putStore key (storetypes.KVStore.Set (ws.getStore key) (ws.trimPrefix key) value)

/-- Method `updateProposalWrappedStore.Delete`. -/
def updateProposalWrappedStore.Delete {σ : Type} [storetypes.KVStore σ]
    (ws : updateProposalWrappedStore σ) (key : Bytes) : updateProposalWrappedStore σ :=
  ws.putStore key (storetypes.KVStore.Delete (ws.getStore key) (ws.trimPrefix key))

/-- An in-memory store: an association list, first match wins. -/
abbrev MemStore := List (Bytes × Bytes)

/-- Read a key of an in-memory store. -/
def MemStore.get (s : MemStore) (key : Bytes) : Option Bytes :=
  match s with
  | [] => none
  | (k, v) :: rest => if k = key then some v else MemStore.get rest key

/-- Remove a key of an in-memory store. -/
def MemStore.delete (s : MemStore) (key : Bytes) : MemStore :=
  s.filter (fun kv => decide (kv.1 ≠ key))

instance : storetypes.KVStore MemStore where
  Get := MemStore.get
  Has := fun s key => (MemStore.get s key).isSome
  Set := fun s key value => (key, value) :: MemStore.delete s key
  Delete := MemStore.delete

/-- Modelled from the spec: the constant `exported.Wasm`, the client type
"08-wasm", here as bytes; its declaration is not among the sources. -/
def exportedWasm : Bytes := [48, 56, 45, 119, 97, 115, 109]

/-- Go `strings.Split(s, "/")` for the one-byte separator `sep`: the segments
between the separators, one more than there are separators. -/
def stringsSplit (sep : Nat) : Bytes → List Bytes
  | [] => [[]]
  | b :: rest =>
    if b = sep then [] :: stringsSplit sep rest
    else
      match stringsSplit sep rest with
      | [] => [[b]]
      | seg :: segs => (b :: seg) :: segs

/-- The values of the interface `storetypes.KVStore` as `getClientID` tells them
apart by their dynamic type: a `storeprefix.Store` with its parent and its
private field `prefix`, an `updateProposalWrappedStore`, or a store of any
other type. -/
inductive ClientStore where
  | prefixStore (parent : ClientStore) (storePrefix : Bytes)
  | updateProposalWrappedStore (ws : Wasm.updateProposalWrappedStore ClientStore)
  | other (entries : MemStore)

/-- The part of `getClientID` after the prefix has been read from the store. -/
def getClientID.fromPrefix (storePrefix : Bytes) : Except Error Bytes :=
  let split := stringsSplit 47 storePrefix
  if split.length < 3 then
    .error (.Wrap ErrRetrieveClientID "prefix is not of the expected form")
  else
    -- the clientID is the second to last element of the prefix
    let clientID := split.getD (split.length - 2) []
    let isClientID := bytes.HasPrefix clientID exportedWasm
    if !isClientID then
      .error (.Wrap ErrRetrieveClientID "prefix does not contain a 08-wasm clientID")
    else .ok clientID

/-- Function `getClientID`.  The field `prefix` of a `storeprefix.Store` always
exists, so the branch "prefix field not found" is not taken. -/
def getClientID (clientStore : ClientStore) : Except Error Bytes :=
  let clientStore :=
    match clientStore with
    | .updateProposalWrappedStore upws => upws.subjectStore
    | s => s
  match clientStore with
  | .prefixStore _ storePrefix => getClientID.fromPrefix storePrefix
  | _ => .error (.Wrap ErrRetrieveClientID "clientStore is not a prefix store")

end Wasm

/-! ## Client handlers of the message server

Source: `modules/core/keeper/msg_server.go`, `UpdateClient` and
`SubmitMisbehaviour`.  Of the core keeper these handlers use the client
keeper only; it is passed to them, with the function
`clienttypes.UnpackClientMessage`. -/

/-- A packed message `codectypes.Any`. -/
structure Any where
  TypeUrl : String
  Value : Bytes
deriving DecidableEq, Repr

/-- An unpacked `exported.ClientMessage`. -/
structure ClientMessage where
  ClientType : String
  Data : Bytes
deriving DecidableEq, Repr

/-- Message `MsgUpdateClient`. -/
structure MsgUpdateClient where
  ClientId : String
  ClientMessage : Any
  Signer : String
deriving DecidableEq, Repr

/-- Response `MsgUpdateClientResponse`. -/
structure MsgUpdateClientResponse where
deriving DecidableEq, Repr

/-- Message `MsgSubmitMisbehaviour`. -/
structure MsgSubmitMisbehaviour where
  ClientId : String
  Misbehaviour : Any
  Signer : String
deriving DecidableEq, Repr

/-- Response `MsgSubmitMisbehaviourResponse`. -/
structure MsgSubmitMisbehaviourResponse where
deriving DecidableEq, Repr

/-- The method of the client keeper the two handlers call. -/
structure ClientKeeper where
  UpdateClient : Context → String → ClientMessage → Context × Option Error

/-- What a client handler leaves: the Go result pair and the context. -/
structure ClientReply (α : Type) where
  resp : Option α
  err : Option Error
  ctx : Context

/-- Handler `Keeper.UpdateClient` for `MsgUpdateClient`. -/
def Keeper.UpdateClient (ClientKeeper : ClientKeeper)
    (UnpackClientMessage : Any → Except Error ClientMessage) (ctx : Context)
    (msg : MsgUpdateClient) : ClientReply MsgUpdateClientResponse :=
  match UnpackClientMessage msg.ClientMessage with
  | .error err => ⟨none, some err, ctx⟩
  | .ok clientMsg =>
    let r := ClientKeeper.UpdateClient ctx msg.ClientId clientMsg
    match r.2 with
    | some err => ⟨none, some err, r.1⟩
    | none => ⟨some {}, none, r.1⟩

/-- Handler `Keeper.SubmitMisbehaviour` for `MsgSubmitMisbehaviour`. -/
def Keeper.SubmitMisbehaviour (ClientKeeper : ClientKeeper)
    (UnpackClientMessage : Any → Except Error ClientMessage) (ctx : Context)
    (msg : MsgSubmitMisbehaviour) : ClientReply MsgSubmitMisbehaviourResponse :=
  match UnpackClientMessage msg.Misbehaviour with
  | .error err => ⟨none, some err, ctx⟩
  | .ok misbehaviour =>
    let r := ClientKeeper.UpdateClient ctx msg.ClientId misbehaviour
    match r.2 with
    | some err => ⟨none, some err, r.1⟩
    | none => ⟨some {}, none, r.1⟩

/-! ## A small concrete chain used to run the handlers -/

namespace Demo

/-- Store key of a packet receipt. -/
def receiptKey (p : Packet) : String :=
  "receipts/ports/" ++ p.DestinationPort ++ "/channels/" ++ p.DestinationChannel ++
    "/sequences/" ++ Nat.repr p.Sequence

/-- Store key of a packet acknowledgement. -/
def ackKey (p : Packet) : String :=
  "acks/ports/" ++ p.DestinationPort ++ "/channels/" ++ p.DestinationChannel ++
    "/sequences/" ++ Nat.repr p.Sequence

/-- Store key of a packet commitment. -/
def commitmentKey (p : Packet) : String :=
  "commitments/ports/" ++ p.SourcePort ++ "/channels/" ++ p.SourceChannel ++
    "/sequences/" ++ Nat.repr p.Sequence

/-- Store key of a channel end. -/
def channelKey (portID channelID : String) : String :=
  "channelEnds/ports/" ++ portID ++ "/channels/" ++ channelID

/-- Store key of the upgrade proposed for a channel. -/
def upgradeKey (portID channelID : String) : String :=
  "channelUpgrades/upgrades/ports/" ++ portID ++ "/channels/" ++ channelID

/-- Demo encoding of the ordering and version of a channel or of an upgrade. -/
def encodeFields (ordering : Order) (version : String) : Bytes :=
  [if ordering = .ORDERED then 1 else 0, if version = "mock-version" then 1 else 2]

/-- Store key of a channel capability. -/
def capabilityKey (portID channelID : String) : String :=
  "capabilities/ports/" ++ portID ++ "/channels/" ++ channelID

/-- Key the application writes when its receive callback runs. -/
def recvCanaryKey (p : Packet) : String :=
  "mock/recv canary/" ++ p.DestinationPort ++ "/" ++ p.DestinationChannel ++ "/" ++
    Nat.repr p.Sequence

/-- Key the application writes when its acknowledgement callback runs. -/
def ackCanaryKey (p : Packet) : String :=
  "mock/ack canary/" ++ p.SourcePort ++ "/" ++ p.SourceChannel ++ "/" ++ Nat.repr p.Sequence

/-- Key the application writes when its timeout callback runs. -/
def timeoutCanaryKey (p : Packet) : String :=
  "mock/timeout canary/" ++ p.SourcePort ++ "/" ++ p.SourceChannel ++ "/" ++
    Nat.repr p.Sequence

/-- Packet data answered with a successful acknowledgement. -/
def MockPacketData : Bytes := [1]
/-- Packet data answered asynchronously (no acknowledgement). -/
def MockAsyncPacketData : Bytes := [2]
/-- The successful acknowledgement. -/
def MockAcknowledgement : Acknowledgement := { Success := true, Acknowledgement := [1] }
/-- The failed acknowledgement. -/
def MockFailAcknowledgement : Acknowledgement := { Success := false, Acknowledgement := [0] }
/-- Error of a rejecting callback. -/
def applicationCallbackError : Error := .sentinel "mock application callback failed"

/-- Application module: every packet callback first writes its canary key.
The receive callback answers by packet data; the acknowledgement callback
rejects an empty acknowledgement; the timeout callback rejects a packet
without data; the channel callbacks accept. -/
def module : IBCModule where
  OnChanOpenInit := fun ctx _ _ _ _ _ _ version => (ctx, .ok version)
  OnChanOpenTry := fun ctx _ _ _ _ _ _ version => (ctx, .ok version)
  OnChanOpenAck := fun ctx _ _ _ _ => (ctx, none)
  OnChanOpenConfirm := fun ctx _ _ => (ctx, none)
  OnChanCloseInit := fun ctx _ _ => (ctx, none)
  OnChanCloseConfirm := fun ctx _ _ => (ctx, none)
  OnRecvPacket := fun ctx packet _ =>
    let ctx : Context :=
      { store := KVStore.set ctx.store (recvCanaryKey packet) [1],
        events := ctx.events ++ [{ type := "mock-recv", attributes := [] }] }
    if packet.Data = MockPacketData then (ctx, some MockAcknowledgement)
    else if packet.Data = MockAsyncPacketData then (ctx, none)
    else (ctx, some MockFailAcknowledgement)
  OnAcknowledgementPacket := fun ctx packet acknowledgement _ =>
    let ctx : Context :=
      { store := KVStore.set ctx.store (ackCanaryKey packet) [1], events := ctx.events }
    if acknowledgement = [] then (ctx, some applicationCallbackError) else (ctx, none)
  OnTimeoutPacket := fun ctx packet _ =>
    let ctx : Context :=
      { store := KVStore.set ctx.store (timeoutCanaryKey packet) [1], events := ctx.events }
    if packet.Data = [] then (ctx, some applicationCallbackError) else (ctx, none)
  OnChanUpgradeInit := fun ctx _ _ _ _ _ version _ => (ctx, .ok version)
  OnChanUpgradeAck := fun ctx _ _ _ _ => (ctx, none)

/-- The module with its upgrade acknowledgement callback overridden to reject. -/
def rejectingModule : IBCModule :=
  { module with OnChanUpgradeAck := fun ctx _ _ _ _ => (ctx, some applicationCallbackError) }

/-- Channel keeper of the demo chain.  Packet verification accepts any
non-empty proof.  `RecvPacket` writes the receipt before it checks the
proof, so a failed verification leaves a dirty branch.  An upgrade is stored
by `WriteUpgradeInitChannel` and `ChanUpgradeAck` moves the channel to the
proposed ordering and version. -/
def channelKeeper : ChannelKeeper where
  LookupModuleByChannel := fun ctx portID channelID =>
    if KVStore.has ctx.store (capabilityKey portID channelID) then .ok ("mock", { Index := 1 })
    else .error (.sentinel "ErrCapabilityNotFound")
  GetChannel := fun ctx portID channelID =>
    match KVStore.get ctx.store (channelKey portID channelID) with
    | some [o, v] =>
      some { State := .OPEN, Ordering := if o = 1 then .ORDERED else .UNORDERED,
             Counterparty := { PortId := portID, ChannelId := channelID },
             ConnectionHops := ["connection-0"],
             Version := if v = 1 then "mock-version" else "mock-version-upgraded",
             UpgradeSequence := 0 }
    | _ => none
  ChanOpenInit := fun ctx _ _ _ portCap _ _ => (ctx, .ok ("channel-0", portCap))
  WriteOpenInitChannel := fun ctx portID channelID _ _ _ _ =>
    { store := KVStore.set ctx.store (channelKey portID channelID) [0, 1], events := ctx.events }
  ChanOpenTry := fun ctx _ _ _ portCap _ _ _ _ => (ctx, .ok ("channel-0", portCap))
  WriteOpenTryChannel := fun ctx portID channelID _ _ _ _ =>
    { store := KVStore.set ctx.store (channelKey portID channelID) [0, 1], events := ctx.events }
  ChanOpenAck := fun ctx _ _ _ _ _ _ _ => (ctx, none)
  WriteOpenAckChannel := fun ctx _ _ _ _ => ctx
  ChanOpenConfirm := fun ctx _ _ _ _ _ => (ctx, none)
  WriteOpenConfirmChannel := fun ctx _ _ => ctx
  ChanCloseInit := fun ctx _ _ _ => (ctx, none)
  ChanCloseConfirm := fun ctx _ _ _ _ _ => (ctx, none)
  RecvPacket := fun ctx _ packet proof _ =>
    if KVStore.has ctx.store (receiptKey packet) then (ctx, some ErrNoOpMsg)
    else
      let ctx : Context :=
        { store := KVStore.set ctx.store (receiptKey packet) [1],
          events := ctx.events ++ [{ type := "recv_packet", attributes := [] }] }
      if proof = [] then (ctx, some (.sentinel "ErrInvalidProof")) else (ctx, none)
  WriteAcknowledgement := fun ctx _ packet ack =>
    if KVStore.has ctx.store (ackKey packet) then
      (ctx, some (.sentinel "ErrAcknowledgementExists"))
    else
      ({ store := KVStore.set ctx.store (ackKey packet) ack.Acknowledgement,
         events := ctx.events ++ [{ type := "write_acknowledgement", attributes := [] }] }, none)
  TimeoutPacket := fun ctx packet proof _ _ =>
    if KVStore.has ctx.store (commitmentKey packet) then
      if proof = [] then (ctx, some (.sentinel "ErrInvalidProof")) else (ctx, none)
    else (ctx, some ErrNoOpMsg)
  TimeoutOnClose := fun ctx _ packet proof proofClosed _ _ =>
    if KVStore.has ctx.store (commitmentKey packet) then
      if proof = [] ∨ proofClosed = [] then (ctx, some (.sentinel "ErrInvalidProof"))
      else (ctx, none)
    else (ctx, some ErrNoOpMsg)
  TimeoutExecuted := fun ctx _ packet =>
    if KVStore.has ctx.store (channelKey packet.SourcePort packet.SourceChannel) then
      ({ store := KVStore.delete ctx.store (commitmentKey packet),
         events := ctx.events ++ [{ type := "timeout_packet", attributes := [] }] }, none)
    else (ctx, some ErrChannelNotFound)
  AcknowledgePacket := fun ctx _ packet _ proof _ =>
    if KVStore.has ctx.store (commitmentKey packet) then
      if proof = [] then (ctx, some (.sentinel "ErrInvalidProof"))
      else
        ({ store := KVStore.delete ctx.store (commitmentKey packet),
           events := ctx.events ++ [{ type := "acknowledge_packet", attributes := [] }] }, none)
    else (ctx, some ErrNoOpMsg)
  ChanUpgradeInit := fun ctx _ _ fields timeout =>
    (ctx, .ok { Fields := fields, Timeout := timeout, LatestSequenceSend := 0 })
  WriteUpgradeInitChannel := fun ctx portID channelID upgrade =>
    { store := KVStore.set ctx.store (upgradeKey portID channelID)
        (encodeFields upgrade.Fields.Ordering upgrade.Fields.Version),
      events := ctx.events }
  ChanUpgradeAck := fun ctx portID channelID _ _ _ proofUpgrade _ =>
    if proofUpgrade = [] then (ctx, some (.sentinel "ErrInvalidProof"))
    else
      match KVStore.get ctx.store (upgradeKey portID channelID) with
      | some proposed =>
        ({ store := KVStore.set ctx.store (channelKey portID channelID) proposed,
           events := ctx.events }, none)
      | none => (ctx, some (.sentinel "ErrUpgradeNotFound"))

/-- The demo chain around one application module, routed under the name "mock";
an address is valid when non-empty. -/
def keeperWith (app : IBCModule) : Keeper where
  ChannelKeeper := channelKeeper
  PortKeeper :=
    { LookupModuleByPort := fun _ portID =>
        if portID = "mock" then .ok ("mock", { Index := 0 })
        else .error (.sentinel "ErrCapabilityNotFound") }
  Router := { GetRoute := fun name => if name = "mock" then some app else none }
  AccAddressFromBech32 := fun s =>
    if s = "" then .error (.sentinel "empty address string is not allowed")
    else .ok (s.toList.map Char.toNat)

/-- The demo chain with the accepting module. -/
def keeper : Keeper := keeperWith module

/-- A packet from channel-0 of port "mock" to channel-1 of port "mock". -/
def packet (data : Bytes) : Packet :=
  { Sequence := 1, SourcePort := "mock", SourceChannel := "channel-0",
    DestinationPort := "mock", DestinationChannel := "channel-1", Data := data,
    TimeoutHeight := { RevisionNumber := 0, RevisionHeight := 100 }, TimeoutTimestamp := 0 }

/-- State of the receiving side: the channel capability and the channel end. -/
def recvCtx : Context :=
  { store := [(capabilityKey "mock" "channel-1", [1]), (channelKey "mock" "channel-1", [1, 1])],
    events := [] }

/-- State of the sending side: capability, channel end and the commitment of packet 1. -/
def sendCtx : Context :=
  { store := [(capabilityKey "mock" "channel-0", [1]), (channelKey "mock" "channel-0", [1, 1]),
              (commitmentKey (packet [1]), [7])],
    events := [] }

/-- Height of the proofs. -/
def proofHeight : Height := { RevisionNumber := 0, RevisionHeight := 50 }

/-- Receive message for the demo packet. -/
def msgRecv (data proof : Bytes) : MsgRecvPacket :=
  { Packet := packet data, ProofCommitment := proof, ProofHeight := proofHeight,
    Signer := "relayer" }

/-- Decoded signer of the demo messages. -/
def relayer : AccAddress := [114, 101, 108, 97, 121, 101, 114]

/-- Capability of the demo channels. -/
def chanCap : Capability := { Index := 1 }

/-- Branch the keeper leaves when it verifies the demo receive message on `recvCtx`. -/
def taoBranch (data proof : Bytes) : Context :=
  (channelKeeper.RecvPacket recvCtx.CacheContext chanCap (packet data) proof proofHeight).1

/-- Branch the receive callback leaves after a verification with proof [1]. -/
def appBranch (data : Bytes) : Context :=
  (module.OnRecvPacket (recvCtx.writeFn (taoBranch data [1])).CacheContext (packet data)
    relayer).1

/-- Upgrade initiation on channel-0 of port "mock": keep the ordering, propose the
version "mock-version-upgraded". -/
def msgUpgradeInit : MsgChannelUpgradeInit :=
  { PortId := "mock", ChannelId := "channel-0",
    Fields := { Ordering := .ORDERED, ConnectionHops := ["connection-0"],
                Version := "mock-version-upgraded" },
    Timeout := { Height := { RevisionNumber := 0, RevisionHeight := 200 }, Timestamp := 0 },
    Signer := "relayer" }

/-- Upgrade acknowledgement for the same channel. -/
def msgUpgradeAck : MsgChannelUpgradeAck :=
  { PortId := "mock", ChannelId := "channel-0", CounterpartyFlushStatus := .FLUSHING,
    CounterpartyUpgrade :=
      { Fields := { Ordering := .ORDERED, ConnectionHops := ["connection-0"],
                    Version := "mock-version-upgraded" },
        Timeout := { Height := { RevisionNumber := 0, RevisionHeight := 200 }, Timestamp := 0 },
        LatestSequenceSend := 1 },
    ProofChannel := [1], ProofUpgrade := [1], ProofHeight := proofHeight, Signer := "relayer" }

/-- State of the sending side after the upgrade has been initiated. -/
def upgradeInitiated : Context :=
  (keeper.ChannelUpgradeInit sendCtx msgUpgradeInit).ctx

/-- Acknowledgement message for the demo packet. -/
def msgAck (acknowledgement proof : Bytes) : MsgAcknowledgement :=
  { Packet := packet [1], Acknowledgement := acknowledgement, ProofAcked := proof,
    ProofHeight := proofHeight, Signer := "relayer" }

/-- Timeout message for the demo packet. -/
def msgTimeout (data proof : Bytes) : MsgTimeout :=
  { Packet := packet data, ProofUnreceived := proof, ProofHeight := proofHeight,
    NextSequenceRecv := 1, Signer := "relayer" }

/-- Timeout-on-close message for the demo packet. -/
def msgTimeoutOnClose (data proof : Bytes) : MsgTimeoutOnClose :=
  { Packet := packet data, ProofUnreceived := proof, ProofClose := [1],
    ProofHeight := proofHeight, NextSequenceRecv := 1, Signer := "relayer" }

/-- Sending side without a channel end: the capability and the commitment only. -/
def sendCtxNoChannel : Context :=
  { store := [(capabilityKey "mock" "channel-0", [1]), (commitmentKey (packet [1]), [7])],
    events := [] }

/-- Branch the keeper leaves when it verifies the demo acknowledgement on `sendCtx`. -/
def ackBranch (acknowledgement proof : Bytes) : Context :=
  (channelKeeper.AcknowledgePacket sendCtx.CacheContext chanCap (packet [1]) acknowledgement
    proof proofHeight).1

/-- State after the demo acknowledgement has been handled once on `sendCtx`. -/
def ackOnce : Context :=
  (keeper.Acknowledgement sendCtx (msgAck [1] [1])).ctx

/-- Context on which the timeout callback runs for the demo timeout on `ctx`. -/
def timeoutCommitted (ctx : Context) : Context :=
  ctx.writeFn (channelKeeper.TimeoutPacket ctx.CacheContext (packet [1]) [1] proofHeight 1).1

/-- State after the demo timeout has been handled once on `sendCtx`. -/
def timeoutOnce : Context :=
  (keeper.Timeout sendCtx (msgTimeout [1] [1])).ctx

/-- State after the demo timeout on close has been handled once on `sendCtx`. -/
def timeoutOnCloseOnce : Context :=
  (keeper.TimeoutOnClose sendCtx (msgTimeoutOnClose [1] [1])).ctx

/-- The demo chain with an empty router. -/
def keeperNoRoute : Keeper :=
  { keeper with Router := { GetRoute := fun _ => none } }

/-- A channel end as carried by the channel open messages. -/
def proposedChannel : Channel :=
  { State := .INIT, Ordering := .UNORDERED,
    Counterparty := { PortId := "mock", ChannelId := "" },
    ConnectionHops := ["connection-0"], Version := "mock-version", UpgradeSequence := 0 }

/-- Channel open init on a port. -/
def msgOpenInit (portID : String) : MsgChannelOpenInit :=
  { PortId := portID, Channel := proposedChannel, Signer := "relayer" }

/-- Channel open try on a port. -/
def msgOpenTry (portID : String) (proof : Bytes) : MsgChannelOpenTry :=
  { PortId := portID, PreviousChannelId := "", Channel := proposedChannel,
    CounterpartyVersion := "mock-version", ProofInit := proof, ProofHeight := proofHeight,
    Signer := "relayer" }

/-- Channel open ack on a channel of port "mock". -/
def msgOpenAck (channelID : String) : MsgChannelOpenAck :=
  { PortId := "mock", ChannelId := channelID, CounterpartyChannelId := "channel-1",
    CounterpartyVersion := "mock-version", ProofTry := [1], ProofHeight := proofHeight,
    Signer := "relayer" }

/-- Channel open confirm on a channel of port "mock". -/
def msgOpenConfirm (channelID : String) : MsgChannelOpenConfirm :=
  { PortId := "mock", ChannelId := channelID, ProofAck := [1], ProofHeight := proofHeight,
    Signer := "relayer" }

/-- Channel close init on a channel of port "mock". -/
def msgCloseInit (channelID : String) : MsgChannelCloseInit :=
  { PortId := "mock", ChannelId := channelID, Signer := "relayer" }

/-- Channel close confirm on a channel of port "mock". -/
def msgCloseConfirm (channelID : String) : MsgChannelCloseConfirm :=
  { PortId := "mock", ChannelId := channelID, ProofInit := [1], ProofHeight := proofHeight,
    Signer := "relayer" }

/-- A packet between channels for which the demo states hold no capability. -/
def strayPacket : Packet :=
  { packet [1] with SourceChannel := "channel-7", DestinationChannel := "channel-8" }

/-- Error of the demo capability lookups. -/
def ErrCapabilityNotFound : Error := .sentinel "ErrCapabilityNotFound"

/-- Store key under which the handshake keeper keeps the state of a channel. -/
def stateKey (portID channelID : String) : String :=
  "channelStates/ports/" ++ portID ++ "/channels/" ++ channelID

/-- Store key under which the observing module records what a callback saw. -/
def seenKey (callback : String) : String :=
  "mock/channel state seen by " ++ callback

/-- Channel keeper for the handshake: as `channelKeeper`, but the write steps
record the channel state (1 INIT, 2 TRYOPEN, 3 OPEN, 4 CLOSED) under
`stateKey`, the verification steps reject an empty proof, and an upgrade
without timeout is rejected. -/
def handshakeChannelKeeper : ChannelKeeper :=
  { channelKeeper with
    ChanOpenTry := fun ctx _ _ _ portCap _ _ proofInit _ =>
      if proofInit = [] then (ctx, .error (.sentinel "ErrInvalidProof"))
      else (ctx, .ok ("channel-0", portCap))
    WriteOpenInitChannel := fun ctx portID channelID _ _ _ _ =>
      { store := KVStore.set ctx.store (stateKey portID channelID) [1], events := ctx.events }
    WriteOpenTryChannel := fun ctx portID channelID _ _ _ _ =>
      { store := KVStore.set ctx.store (stateKey portID channelID) [2], events := ctx.events }
    ChanOpenAck := fun ctx _ _ _ _ _ proofTry _ =>
      if proofTry = [] then (ctx, some (.sentinel "ErrInvalidProof")) else (ctx, none)
    WriteOpenAckChannel := fun ctx portID channelID _ _ =>
      { store := KVStore.set ctx.store (stateKey portID channelID) [3], events := ctx.events }
    ChanOpenConfirm := fun ctx _ _ _ proofAck _ =>
      if proofAck = [] then (ctx, some (.sentinel "ErrInvalidProof")) else (ctx, none)
    WriteOpenConfirmChannel := fun ctx portID channelID =>
      { store := KVStore.set ctx.store (stateKey portID channelID) [3], events := ctx.events }
    ChanCloseInit := fun ctx portID channelID _ =>
      ({ store := KVStore.set ctx.store (stateKey portID channelID) [4],
         events := ctx.events }, none)
    ChanCloseConfirm := fun ctx portID channelID _ proofInit _ =>
      if proofInit = [] then (ctx, some (.sentinel "ErrInvalidProof"))
      else
        ({ store := KVStore.set ctx.store (stateKey portID channelID) [4],
           events := ctx.events }, none)
    ChanUpgradeInit := fun ctx _ _ fields timeout =>
      if timeout.Height.RevisionHeight = 0 ∧ timeout.Timestamp = 0 then
        (ctx, .error (.sentinel "ErrInvalidUpgradeTimeout"))
      else (ctx, .ok { Fields := fields, Timeout := timeout, LatestSequenceSend := 0 }) }

/-- What a callback of the observing module records: the channel state it
finds in the context it is called on, [0] when there is none. -/
def observe (ctx : Context) (callback portID channelID : String) : Context :=
  { store := KVStore.set ctx.store (seenKey callback)
      ((KVStore.get ctx.store (stateKey portID channelID)).getD [0]),
    events := ctx.events }

/-- Application module whose channel callbacks record the channel state they
see and whose version callbacks answer "mock-version-negotiated". -/
def observingModule : IBCModule :=
  { module with
    OnChanOpenInit := fun ctx _ _ portID channelID _ _ _ =>
      (observe ctx "OnChanOpenInit" portID channelID, .ok "mock-version-negotiated")
    OnChanOpenTry := fun ctx _ _ portID channelID _ _ _ =>
      (observe ctx "OnChanOpenTry" portID channelID, .ok "mock-version-negotiated")
    OnChanOpenAck := fun ctx portID channelID _ _ =>
      (observe ctx "OnChanOpenAck" portID channelID, none)
    OnChanOpenConfirm := fun ctx portID channelID =>
      (observe ctx "OnChanOpenConfirm" portID channelID, none)
    OnChanCloseInit := fun ctx portID channelID =>
      (observe ctx "OnChanCloseInit" portID channelID, none)
    OnChanCloseConfirm := fun ctx portID channelID =>
      (observe ctx "OnChanCloseConfirm" portID channelID, none)
    OnChanUpgradeInit := fun ctx _ _ _ _ _ _ _ => (ctx, .ok "mock-version-negotiated") }

/-- Application module that records what it sees and rejects every channel callback. -/
def refusingModule : IBCModule :=
  { module with
    OnChanOpenInit := fun ctx _ _ portID channelID _ _ _ =>
      (observe ctx "OnChanOpenInit" portID channelID, .error applicationCallbackError)
    OnChanOpenTry := fun ctx _ _ portID channelID _ _ _ =>
      (observe ctx "OnChanOpenTry" portID channelID, .error applicationCallbackError)
    OnChanCloseInit := fun ctx portID channelID =>
      (observe ctx "OnChanCloseInit" portID channelID, some applicationCallbackError)
    OnChanCloseConfirm := fun ctx portID channelID =>
      (observe ctx "OnChanCloseConfirm" portID channelID, some applicationCallbackError)
    OnChanUpgradeInit := fun ctx _ _ _ _ _ _ _ => (ctx, .error applicationCallbackError) }

/-- The demo chain with the handshake channel keeper around one application module. -/
def handshakeKeeper (app : IBCModule) : Keeper :=
  { keeperWith app with ChannelKeeper := handshakeChannelKeeper }

/-- State with the capability of channel-0 of port "mock" and nothing else. -/
def capCtx : Context :=
  { store := [(capabilityKey "mock" "channel-0", [1])], events := [] }

/-- State with the capability of channel-0 of port "mock" and the channel OPEN. -/
def openCtx : Context :=
  { store := [(capabilityKey "mock" "channel-0", [1]), (stateKey "mock" "channel-0", [3])],
    events := [] }

/-- Capability the demo port keeper hands out for port "mock". -/
def portCap : Capability := { Index := 0 }

/-- Handler of the demo message "/demo.MsgSet": writes the payload under "demo/value". -/
def setHandler : Ica.Handler := fun ctx msg =>
  ({ store := KVStore.set ctx.store "demo/value" msg.Value,
     events := ctx.events ++ [{ type := "demo-set", attributes := [] }] }, .ok { Data := [] })

/-- Handler of the demo message "/demo.MsgFail": writes "demo/failed" and then fails. -/
def failHandler : Ica.Handler := fun ctx _ =>
  ({ store := KVStore.set ctx.store "demo/failed" [1], events := ctx.events },
    .error (.sentinel "ErrDemoHandler"))

/-- Interchain accounts keeper of the demo chain: the port "icacontroller-owner"
has the account "cosmos1ica", which is how the address [1] is rendered. -/
def icaKeeper : Ica.Keeper where
  GetInterchainAccountAddress := fun _ portID =>
    if portID = "icacontroller-owner" then some "cosmos1ica" else none
  AccAddressString := fun addr => if addr = [1] then "cosmos1ica" else "cosmos1other"
  msgRouterHandler := fun msg =>
    if msg.TypeURL = "/demo.MsgSet" then some setHandler
    else if msg.TypeURL = "/demo.MsgFail" then some failHandler
    else none

/-- A demo message of a type, with a payload, signed by the interchain account. -/
def icaMsg (typeURL : String) (value : Bytes) : Ica.Msg :=
  { TypeURL := typeURL, Value := value, GetSigners := [[1]], ValidateBasic := none }

/-- State of the host chain before a transaction of the interchain account. -/
def hostCtx : Context :=
  { store := [("demo/value", [0])], events := [] }

/-- A wrapped store over two in-memory stores: keys under "1/" go to the subject
store, keys under "2/" to the substitute store; both hold the key [9]. -/
def wrappedStore : Wasm.updateProposalWrappedStore Wasm.MemStore :=
  Wasm.newUpdateProposalWrappedStore [([9], [10])] [([9], [20])] [1, 47] [2, 47]

/-- The bytes of "clients". -/
def clientsBytes : Bytes := [99, 108, 105, 101, 110, 116, 115]

/-- The bytes of "08-wasm-0". -/
def wasmClientID : Bytes := [48, 56, 45, 119, 97, 115, 109, 45, 48]

/-- The bytes of "07-tendermint-0". -/
def tendermintClientID : Bytes :=
  [48, 55, 45, 116, 101, 110, 100, 101, 114, 109, 105, 110, 116, 45, 48]

/-- The client store prefix "clients/{clientID}/". -/
def clientPrefix (clientID : Bytes) : Bytes :=
  clientsBytes ++ [47] ++ clientID ++ [47]

/-- The prefix store of a client over an empty parent. -/
def clientStore (clientID : Bytes) : Wasm.ClientStore :=
  .prefixStore (.other []) (clientPrefix clientID)

/-- Application module whose receive callback records the receipt it finds in
the context it is called on ([0] when there is none) and the number of
events that context holds, and answers with the successful acknowledgement. -/
def recvObservingModule : IBCModule :=
  { module with
    OnRecvPacket := fun ctx packet _ =>
      ({ store := KVStore.set
           (KVStore.set ctx.store (seenKey "OnRecvPacket")
             ((KVStore.get ctx.store (receiptKey packet)).getD [0]))
           (seenKey "OnRecvPacket events") [ctx.events.length],
         events := ctx.events ++ [{ type := "mock-recv", attributes := [] }] },
        some MockAcknowledgement) }

/-- A client keeper that stores the data of the client message under the client
id and rejects an empty one. -/
def clientKeeper : ClientKeeper where
  UpdateClient := fun ctx clientID clientMsg =>
    if clientMsg.Data = [] then (ctx, some (.sentinel "ErrInvalidHeader"))
    else
      ({ store := KVStore.set ctx.store ("clients/" ++ clientID) clientMsg.Data,
         events := ctx.events ++ [{ type := "update_client", attributes := [] }] }, none)

/-- Unpacking of a client message: only the type "/ibc.ClientMessage" is known. -/
def unpackClientMessage (any : Any) : Except Error ClientMessage :=
  if any.TypeUrl = "/ibc.ClientMessage" then .ok { ClientType := "08-wasm", Data := any.Value }
  else .error (.sentinel "ErrUnpackAny")

/-- The demo chain with the module that records what its receive callback sees. -/
def recvObservingKeeper : Keeper := keeperWith recvObservingModule

/-- The demo receive message for packet 2. -/
def msgRecvSecond (proof : Bytes) : MsgRecvPacket :=
  { Packet := { packet [1] with Sequence := 2 }, ProofCommitment := proof,
    ProofHeight := proofHeight, Signer := "relayer" }

/-- Branch the keeper leaves when it verifies packet 2 with an empty proof on
`recvCtx`: the receipt of packet 2 is written, the verification fails. -/
def discardedBranch : Context :=
  (channelKeeper.RecvPacket recvCtx.CacheContext chanCap (msgRecvSecond []).Packet []
    proofHeight).1

/-- State after the receive message for packet 2 with an empty proof has been
handled on `recvCtx`. -/
def afterRejected : Context :=
  (recvObservingKeeper.RecvPacket recvCtx (msgRecvSecond [])).ctx

/-- Branch the keeper leaves when it verifies packet 1 on `afterRejected`. -/
def taoBranchAfterRejected : Context :=
  (channelKeeper.RecvPacket afterRejected.CacheContext chanCap (packet [1]) [1] proofHeight).1

/-- The demo chain with a second module registered under the name "observer":
the channels of the demo belong to "mock". -/
def keeperTwoRoutes : Keeper :=
  { keeper with
    Router :=
      { GetRoute := fun name =>
          if name = "mock" then some module
          else if name = "observer" then some recvObservingModule else none } }

/-- Branch the keeper leaves when it verifies the demo timeout on `sendCtx`. -/
def timeoutBranch : Context :=
  (channelKeeper.TimeoutPacket sendCtx.CacheContext (packet [1]) [1] proofHeight 1).1

/-- Branch the keeper leaves when it verifies the demo timeout on close on `sendCtx`. -/
def timeoutOnCloseBranch : Context :=
  (channelKeeper.TimeoutOnClose sendCtx.CacheContext chanCap (packet [1]) [1] [1] proofHeight
    1).1

/-- State after the demo receive message has been handled once on `recvCtx`. -/
def recvOnce (data : Bytes) : Context :=
  (keeper.RecvPacket recvCtx (msgRecv data [1])).ctx

end Demo


/-! ## RecvPacket -/

/-- C1. RecvPacket atomicity: when TAO verification succeeds and `OnRecvPacket`
returns a non-nil acknowledgement with `Success() == false`, the context the
handler leaves is what `WriteAcknowledgement` makes of the context whose store
is exactly the store of the verification branch: every write of the
verification step is there, the acknowledgement is written on top, and the
store the callback left in its branch (`appCtx.store`) does not enter it.  In
particular, at every key `WriteAcknowledgement` does not touch, the store
left holds the value of the verification branch, whatever the callback wrote
there. -/
theorem RecvPacket_failed_ack_keeps_tao_drops_callback
    (k : Keeper) (ctx : Context) (msg : MsgRecvPacket) (relayer : AccAddress)
    (module : String) (capability : Capability) (cbs : IBCModule)
    (taoCtx appCtx : Context) (ack : Acknowledgement)
    (hSigner : k.AccAddressFromBech32 msg.Signer = .ok relayer)
    (hLookup : k.ChannelKeeper.LookupModuleByChannel ctx msg.Packet.DestinationPort
      msg.Packet.DestinationChannel = .ok (module, capability))
    (hRoute : k.Router.GetRoute module = some cbs)
    (hTao : k.ChannelKeeper.RecvPacket ctx.CacheContext capability msg.Packet
      msg.ProofCommitment msg.ProofHeight = (taoCtx, none))
    (hCallback : cbs.OnRecvPacket (ctx.writeFn taoCtx).CacheContext msg.Packet relayer
      = (appCtx, some ack))
    (hFail : ack.Success = false) :
    (k.RecvPacket ctx msg).ctx =
        (k.ChannelKeeper.WriteAcknowledgement
          { store := taoCtx.store, events := (ctx.events ++ taoCtx.events) ++ appCtx.events }
          capability msg.Packet ack).1 ∧
      Call.WriteAcknowledgement capability msg.Packet ack ∈ (k.RecvPacket ctx msg).calls ∧
      (∀ key : String,
        (∀ c : Context,
          KVStore.get (k.ChannelKeeper.WriteAcknowledgement c capability msg.Packet ack).1.store
            key = KVStore.get c.store key) →
        KVStore.get (k.RecvPacket ctx msg).ctx.store key = KVStore.get taoCtx.store key) := by
  have hCtx : (k.RecvPacket ctx msg).ctx =
      (k.ChannelKeeper.WriteAcknowledgement
        { store := taoCtx.store, events := (ctx.events ++ taoCtx.events) ++ appCtx.events }
        capability msg.Packet ack).1 := by
    simp only [Keeper.RecvPacket, hSigner, hLookup, hRoute, hTao, hCallback, hFail]
    simp only [Context.writeFn, Context.EmitEvents]
    split <;> simp
  refine ⟨hCtx, ?_, ?_⟩
  · simp only [Keeper.RecvPacket, hSigner, hLookup, hRoute, hTao, hCallback, hFail]
    split <;> simp
  · intro key hFrame
    rw [hCtx, hFrame]

/-- Witness of C1 on the demo chain: the packet data [9] is answered with the
failed acknowledgement; the callback wrote its canary key in its branch, and
afterwards the receipt and the acknowledgement are in the store and the
canary key is not. -/
theorem RecvPacket_failed_ack_keeps_tao_drops_callback_witness :
    KVStore.has (Demo.appBranch [9]).store (Demo.recvCanaryKey (Demo.packet [9])) = true ∧
      KVStore.has (Demo.keeper.RecvPacket Demo.recvCtx (Demo.msgRecv [9] [1])).ctx.store
        (Demo.recvCanaryKey (Demo.packet [9])) = false ∧
      KVStore.get (Demo.keeper.RecvPacket Demo.recvCtx (Demo.msgRecv [9] [1])).ctx.store
        (Demo.receiptKey (Demo.packet [9])) = some [1] ∧
      KVStore.get (Demo.keeper.RecvPacket Demo.recvCtx (Demo.msgRecv [9] [1])).ctx.store
        (Demo.ackKey (Demo.packet [9])) = some [0] ∧
      (Demo.keeper.RecvPacket Demo.recvCtx (Demo.msgRecv [9] [1])).ctx =
        (Demo.channelKeeper.WriteAcknowledgement
          { store := (Demo.taoBranch [9] [1]).store,
            events := (Demo.recvCtx.events ++ (Demo.taoBranch [9] [1]).events) ++
              (Demo.appBranch [9]).events }
          Demo.chanCap (Demo.packet [9]) Demo.MockFailAcknowledgement).1 ∧
      Call.WriteAcknowledgement Demo.chanCap (Demo.packet [9]) Demo.MockFailAcknowledgement ∈
        (Demo.keeper.RecvPacket Demo.recvCtx (Demo.msgRecv [9] [1])).calls :=
  have h := RecvPacket_failed_ack_keeps_tao_drops_callback Demo.keeper Demo.recvCtx
    (Demo.msgRecv [9] [1]) Demo.relayer "mock" Demo.chanCap Demo.module
    (Demo.taoBranch [9] [1]) (Demo.appBranch [9]) Demo.MockFailAcknowledgement
    rfl rfl rfl (by decide) (by decide) rfl
  ⟨by decide, by decide, by decide, by decide, h.1, h.2.1⟩

/-- C2. RecvPacket no-op: when `ChannelKeeper.RecvPacket` returns `ErrNoOpMsg`, the
handler answers `Result = NOOP` with a nil error, the context is the one it
was called with (the branch is not written back, whatever it holds), and the
calls made stop at the keeper verification: there is no `OnRecvPacket` and no
`WriteAcknowledgement` call. -/
theorem RecvPacket_noop
    (k : Keeper) (ctx : Context) (msg : MsgRecvPacket) (relayer : AccAddress)
    (module : String) (capability : Capability) (cbs : IBCModule) (branch : Context)
    (hSigner : k.AccAddressFromBech32 msg.Signer = .ok relayer)
    (hLookup : k.ChannelKeeper.LookupModuleByChannel ctx msg.Packet.DestinationPort
      msg.Packet.DestinationChannel = .ok (module, capability))
    (hRoute : k.Router.GetRoute module = some cbs)
    (hTao : k.ChannelKeeper.RecvPacket ctx.CacheContext capability msg.Packet
      msg.ProofCommitment msg.ProofHeight = (branch, some ErrNoOpMsg)) :
    (k.RecvPacket ctx msg).resp = some { Result := .NOOP } ∧
      (k.RecvPacket ctx msg).err = none ∧
      (k.RecvPacket ctx msg).ctx = ctx ∧
      (k.RecvPacket ctx msg).calls =
        [Call.LookupModuleByChannel msg.Packet.DestinationPort msg.Packet.DestinationChannel,
          Call.GetRoute module,
          Call.RecvPacket capability msg.Packet msg.ProofCommitment msg.ProofHeight] ∧
      (∀ p r, Call.OnRecvPacket p r ∉ (k.RecvPacket ctx msg).calls) ∧
      (∀ c p a, Call.WriteAcknowledgement c p a ∉ (k.RecvPacket ctx msg).calls) := by
  simp [Keeper.RecvPacket, hSigner, hLookup, hRoute, hTao]

/-- Witness of C2 on the demo chain: the same receive message delivered a second
time is a no-op that leaves the state of the first delivery. -/
theorem RecvPacket_noop_witness :
    (Demo.keeper.RecvPacket Demo.recvCtx (Demo.msgRecv [1] [1])).resp
        = some { Result := .SUCCESS } ∧
      ((Demo.keeper.RecvPacket (Demo.recvOnce [1]) (Demo.msgRecv [1] [1])).resp
          = some { Result := .NOOP } ∧
        (Demo.keeper.RecvPacket (Demo.recvOnce [1]) (Demo.msgRecv [1] [1])).err = none ∧
        (Demo.keeper.RecvPacket (Demo.recvOnce [1]) (Demo.msgRecv [1] [1])).ctx
          = Demo.recvOnce [1] ∧
        (Demo.keeper.RecvPacket (Demo.recvOnce [1]) (Demo.msgRecv [1] [1])).calls =
          [Call.LookupModuleByChannel "mock" "channel-1", Call.GetRoute "mock",
            Call.RecvPacket Demo.chanCap (Demo.packet [1]) [1] Demo.proofHeight] ∧
        (∀ p r, Call.OnRecvPacket p r ∉
          (Demo.keeper.RecvPacket (Demo.recvOnce [1]) (Demo.msgRecv [1] [1])).calls) ∧
        (∀ c p a, Call.WriteAcknowledgement c p a ∉
          (Demo.keeper.RecvPacket (Demo.recvOnce [1]) (Demo.msgRecv [1] [1])).calls)) :=
  ⟨by decide,
    RecvPacket_noop Demo.keeper (Demo.recvOnce [1]) (Demo.msgRecv [1] [1])
      Demo.relayer "mock" Demo.chanCap Demo.module (Demo.recvOnce [1]).CacheContext
      rfl rfl rfl (by decide)⟩

/-- C3. RecvPacket verification failure: when `ChannelKeeper.RecvPacket` returns an
error other than `ErrNoOpMsg`, the handler returns a nil response and the
wrapped error, makes no `OnRecvPacket` call, and leaves the context it was
called with, whatever the keeper wrote into the branch before failing. -/
theorem RecvPacket_verification_failure
    (k : Keeper) (ctx : Context) (msg : MsgRecvPacket) (relayer : AccAddress)
    (module : String) (capability : Capability) (cbs : IBCModule) (branch : Context)
    (err : Error)
    (hSigner : k.AccAddressFromBech32 msg.Signer = .ok relayer)
    (hLookup : k.ChannelKeeper.LookupModuleByChannel ctx msg.Packet.DestinationPort
      msg.Packet.DestinationChannel = .ok (module, capability))
    (hRoute : k.Router.GetRoute module = some cbs)
    (hTao : k.ChannelKeeper.RecvPacket ctx.CacheContext capability msg.Packet
      msg.ProofCommitment msg.ProofHeight = (branch, some err))
    (hErr : err ≠ ErrNoOpMsg) :
    (k.RecvPacket ctx msg).resp = none ∧
      (k.RecvPacket ctx msg).err = some (.Wrap err "receive packet verification failed") ∧
      (k.RecvPacket ctx msg).err ≠ none ∧
      (k.RecvPacket ctx msg).ctx = ctx ∧
      (∀ p r, Call.OnRecvPacket p r ∉ (k.RecvPacket ctx msg).calls) := by
  simp [Keeper.RecvPacket, hSigner, hLookup, hRoute, hTao, hErr]

/-- Witness of C3 on the demo chain: an empty proof is rejected after the keeper
has written the receipt into its branch; the context is untouched. -/
theorem RecvPacket_verification_failure_witness :
    KVStore.has (Demo.taoBranch [1] []).store (Demo.receiptKey (Demo.packet [1])) = true ∧
      ((Demo.keeper.RecvPacket Demo.recvCtx (Demo.msgRecv [1] [])).resp = none ∧
        (Demo.keeper.RecvPacket Demo.recvCtx (Demo.msgRecv [1] [])).err =
          some (.Wrap (.sentinel "ErrInvalidProof") "receive packet verification failed") ∧
        (Demo.keeper.RecvPacket Demo.recvCtx (Demo.msgRecv [1] [])).err ≠ none ∧
        (Demo.keeper.RecvPacket Demo.recvCtx (Demo.msgRecv [1] [])).ctx = Demo.recvCtx ∧
        (∀ p r, Call.OnRecvPacket p r ∉
          (Demo.keeper.RecvPacket Demo.recvCtx (Demo.msgRecv [1] [])).calls)) :=
  ⟨by decide,
    RecvPacket_verification_failure Demo.keeper Demo.recvCtx (Demo.msgRecv [1] [])
      Demo.relayer "mock" Demo.chanCap Demo.module (Demo.taoBranch [1] [])
      (.sentinel "ErrInvalidProof") rfl rfl rfl (by decide) (by decide)⟩

/-- C4. Application failures in RecvPacket are contained: when TAO verification
succeeds, `OnRecvPacket` returns a non-nil unsuccessful acknowledgement and
`WriteAcknowledgement` succeeds, the handler answers `Result = SUCCESS` with a
nil error, and the one `WriteAcknowledgement` call it makes carries that
acknowledgement. -/
theorem RecvPacket_contains_application_failure
    (k : Keeper) (ctx : Context) (msg : MsgRecvPacket) (relayer : AccAddress)
    (module : String) (capability : Capability) (cbs : IBCModule)
    (taoCtx appCtx ackCtx : Context) (ack : Acknowledgement)
    (hSigner : k.AccAddressFromBech32 msg.Signer = .ok relayer)
    (hLookup : k.ChannelKeeper.LookupModuleByChannel ctx msg.Packet.DestinationPort
      msg.Packet.DestinationChannel = .ok (module, capability))
    (hRoute : k.Router.GetRoute module = some cbs)
    (hTao : k.ChannelKeeper.RecvPacket ctx.CacheContext capability msg.Packet
      msg.ProofCommitment msg.ProofHeight = (taoCtx, none))
    (hCallback : cbs.OnRecvPacket (ctx.writeFn taoCtx).CacheContext msg.Packet relayer
      = (appCtx, some ack))
    (hFail : ack.Success = false)
    (hWrite : k.ChannelKeeper.WriteAcknowledgement
      ((ctx.writeFn taoCtx).EmitEvents appCtx.events) capability msg.Packet ack
      = (ackCtx, none)) :
    (k.RecvPacket ctx msg).resp = some { Result := .SUCCESS } ∧
      (k.RecvPacket ctx msg).err = none ∧
      (k.RecvPacket ctx msg).ctx = ackCtx ∧
      (k.RecvPacket ctx msg).calls.filter isWriteAcknowledgement
        = [Call.WriteAcknowledgement capability msg.Packet ack] := by
  simp only [Keeper.RecvPacket, hSigner, hLookup, hRoute, hTao, hCallback, hFail]
  simp [hWrite, List.filter, isWriteAcknowledgement]

/-- Witness of C4 on the demo chain. -/
theorem RecvPacket_contains_application_failure_witness :
    (Demo.keeper.RecvPacket Demo.recvCtx (Demo.msgRecv [9] [1])).resp
        = some { Result := .SUCCESS } ∧
      (Demo.keeper.RecvPacket Demo.recvCtx (Demo.msgRecv [9] [1])).err = none ∧
      (Demo.keeper.RecvPacket Demo.recvCtx (Demo.msgRecv [9] [1])).ctx = Demo.recvOnce [9] ∧
      (Demo.keeper.RecvPacket Demo.recvCtx (Demo.msgRecv [9] [1])).calls.filter isWriteAcknowledgement
        = [Call.WriteAcknowledgement Demo.chanCap (Demo.packet [9])
            Demo.MockFailAcknowledgement] :=
  RecvPacket_contains_application_failure Demo.keeper Demo.recvCtx (Demo.msgRecv [9] [1])
    Demo.relayer "mock" Demo.chanCap Demo.module (Demo.taoBranch [9] [1]) (Demo.appBranch [9])
    (Demo.recvOnce [9]) Demo.MockFailAcknowledgement
    rfl rfl rfl (by decide) (by decide) rfl (by decide)

/-- C5. RecvPacket acknowledgement writing: after a successful TAO verification,
whatever `OnRecvPacket` returns, a `WriteAcknowledgement` call is made if and
only if the returned acknowledgement is non-nil, every such call carries the
channel capability, the packet of the message and exactly that
acknowledgement; and when the acknowledgement is nil or successful the branch
of the callback is written to the message context: without acknowledgement
the handler leaves that context, with a successful one it leaves what
`WriteAcknowledgement` makes of it. -/
theorem RecvPacket_acknowledgement_writing
    (k : Keeper) (ctx : Context) (msg : MsgRecvPacket) (relayer : AccAddress)
    (module : String) (capability : Capability) (cbs : IBCModule)
    (taoCtx appCtx : Context) (ack : Option Acknowledgement)
    (hSigner : k.AccAddressFromBech32 msg.Signer = .ok relayer)
    (hLookup : k.ChannelKeeper.LookupModuleByChannel ctx msg.Packet.DestinationPort
      msg.Packet.DestinationChannel = .ok (module, capability))
    (hRoute : k.Router.GetRoute module = some cbs)
    (hTao : k.ChannelKeeper.RecvPacket ctx.CacheContext capability msg.Packet
      msg.ProofCommitment msg.ProofHeight = (taoCtx, none))
    (hCallback : cbs.OnRecvPacket (ctx.writeFn taoCtx).CacheContext msg.Packet relayer
      = (appCtx, ack)) :
    ((∃ c p a, Call.WriteAcknowledgement c p a ∈ (k.RecvPacket ctx msg).calls) ↔ ack ≠ none) ∧
      (∀ c p a, Call.WriteAcknowledgement c p a ∈ (k.RecvPacket ctx msg).calls →
        c = capability ∧ p = msg.Packet ∧ ack = some a) ∧
      (k.RecvPacket ctx msg).calls =
        [Call.LookupModuleByChannel msg.Packet.DestinationPort msg.Packet.DestinationChannel,
          Call.GetRoute module,
          Call.RecvPacket capability msg.Packet msg.ProofCommitment msg.ProofHeight,
          Call.OnRecvPacket msg.Packet relayer] ++
        (match ack with
          | some a => [Call.WriteAcknowledgement capability msg.Packet a]
          | none => []) ∧
      (ack = none → (k.RecvPacket ctx msg).ctx = (ctx.writeFn taoCtx).writeFn appCtx) ∧
      (∀ a, ack = some a → a.Success = true →
        (k.RecvPacket ctx msg).ctx =
          (k.ChannelKeeper.WriteAcknowledgement ((ctx.writeFn taoCtx).writeFn appCtx)
            capability msg.Packet a).1) := by
  simp only [Keeper.RecvPacket, hSigner, hLookup, hRoute, hTao, hCallback]
  cases ack with
  | none => simp
  | some a =>
    simp only []
    split <;> simp <;>
      exact ⟨fun _ _ _ hc hp ha => ⟨hc, hp, ha.symm⟩, fun h => by simp [h]⟩

/-- Witness of C5 on the demo chain: packet data [1] is answered with the
successful acknowledgement; the canary key of the callback is committed and
the acknowledgement is written. -/
theorem RecvPacket_acknowledgement_writing_witness :
    KVStore.get (Demo.keeper.RecvPacket Demo.recvCtx (Demo.msgRecv [1] [1])).ctx.store
        (Demo.recvCanaryKey (Demo.packet [1])) = some [1] ∧
      KVStore.get (Demo.keeper.RecvPacket Demo.recvCtx (Demo.msgRecv [1] [1])).ctx.store
        (Demo.ackKey (Demo.packet [1])) = some [1] ∧
      (((∃ c p a, Call.WriteAcknowledgement c p a ∈
            (Demo.keeper.RecvPacket Demo.recvCtx (Demo.msgRecv [1] [1])).calls) ↔
          some Demo.MockAcknowledgement ≠ none) ∧
        (∀ c p a, Call.WriteAcknowledgement c p a ∈
            (Demo.keeper.RecvPacket Demo.recvCtx (Demo.msgRecv [1] [1])).calls →
          c = Demo.chanCap ∧ p = (Demo.msgRecv [1] [1]).Packet ∧ some Demo.MockAcknowledgement = some a) ∧
        (Demo.keeper.RecvPacket Demo.recvCtx (Demo.msgRecv [1] [1])).calls =
          [Call.LookupModuleByChannel (Demo.msgRecv [1] [1]).Packet.DestinationPort
              (Demo.msgRecv [1] [1]).Packet.DestinationChannel,
            Call.GetRoute "mock",
            Call.RecvPacket Demo.chanCap (Demo.msgRecv [1] [1]).Packet
              (Demo.msgRecv [1] [1]).ProofCommitment (Demo.msgRecv [1] [1]).ProofHeight,
            Call.OnRecvPacket (Demo.msgRecv [1] [1]).Packet Demo.relayer] ++
          (match some Demo.MockAcknowledgement with
            | some a => [Call.WriteAcknowledgement Demo.chanCap (Demo.msgRecv [1] [1]).Packet a]
            | none => []) ∧
        (some Demo.MockAcknowledgement = none →
          (Demo.keeper.RecvPacket Demo.recvCtx (Demo.msgRecv [1] [1])).ctx =
            (Demo.recvCtx.writeFn (Demo.taoBranch [1] [1])).writeFn (Demo.appBranch [1])) ∧
        (∀ a, some Demo.MockAcknowledgement = some a → a.Success = true →
          (Demo.keeper.RecvPacket Demo.recvCtx (Demo.msgRecv [1] [1])).ctx =
            (Demo.keeper.ChannelKeeper.WriteAcknowledgement
              ((Demo.recvCtx.writeFn (Demo.taoBranch [1] [1])).writeFn (Demo.appBranch [1]))
              Demo.chanCap (Demo.msgRecv [1] [1]).Packet a).1)) :=
  ⟨by decide, by decide,
    RecvPacket_acknowledgement_writing Demo.keeper Demo.recvCtx (Demo.msgRecv [1] [1])
      Demo.relayer "mock" Demo.chanCap Demo.module (Demo.taoBranch [1] [1]) (Demo.appBranch [1])
      (some Demo.MockAcknowledgement) rfl rfl rfl (by decide) (by decide)⟩

/-! ## Channel upgrade acknowledgement -/

/-- What `ChannelUpgradeAck` does when the keeper step succeeds and the callback
rejects: it makes no further call and no further write, and returns a non-nil
response with a nil error; the context is the one the callback left on top of
the keeper step. -/
theorem ChannelUpgradeAck_callback_error
    (k : Keeper) (ctx : Context) (msg : MsgChannelUpgradeAck) (module : String)
    (capability : Capability) (cbs : IBCModule) (keeperCtx appCtx : Context) (err : Error)
    (hLookup : k.ChannelKeeper.LookupModuleByChannel ctx msg.PortId msg.ChannelId
      = .ok (module, capability))
    (hRoute : k.Router.GetRoute module = some cbs)
    (hKeeper : k.ChannelKeeper.ChanUpgradeAck ctx msg.PortId msg.ChannelId
      msg.CounterpartyFlushStatus msg.CounterpartyUpgrade msg.ProofChannel msg.ProofUpgrade
      msg.ProofHeight = (keeperCtx, none))
    (hCallback : cbs.OnChanUpgradeAck keeperCtx msg.PortId msg.ChannelId "" ""
      = (appCtx, some err)) :
    (k.ChannelUpgradeAck ctx msg).resp = some {} ∧
      (k.ChannelUpgradeAck ctx msg).err = none ∧
      (k.ChannelUpgradeAck ctx msg).ctx = appCtx ∧
      (k.ChannelUpgradeAck ctx msg).calls =
        [Call.LookupModuleByChannel msg.PortId msg.ChannelId, Call.GetRoute module,
          Call.ChanUpgradeAck msg.PortId msg.ChannelId msg.CounterpartyFlushStatus
            msg.CounterpartyUpgrade msg.ProofChannel msg.ProofUpgrade msg.ProofHeight,
          Call.OnChanUpgradeAck msg.PortId msg.ChannelId "" ""] := by
  simp [Keeper.ChannelUpgradeAck, hLookup, hRoute, hKeeper, hCallback]

/-- C7, the code at failing inputs.  `ChannelUpgradeConfirm`, `ChannelUpgradeTimeout`
and `ChannelUpgradeCancel` return a nil response and a nil error on every
input; `ChannelUpgradeAck` returns both nil when the keeper step and the
callback succeed, and a non-nil response with a nil error when the callback
rejects. -/
theorem upgrade_handlers_results_not_typed :
    (∀ (k : Keeper) (ctx : Context) (msg : MsgChannelUpgradeConfirm),
        (k.ChannelUpgradeConfirm ctx msg).resp = none ∧
          (k.ChannelUpgradeConfirm ctx msg).err = none) ∧
      (∀ (k : Keeper) (ctx : Context) (msg : MsgChannelUpgradeTimeout),
        (k.ChannelUpgradeTimeout ctx msg).resp = none ∧
          (k.ChannelUpgradeTimeout ctx msg).err = none) ∧
      (∀ (k : Keeper) (ctx : Context) (msg : MsgChannelUpgradeCancel),
        (k.ChannelUpgradeCancel ctx msg).resp = none ∧
          (k.ChannelUpgradeCancel ctx msg).err = none) ∧
      ((Demo.keeper.ChannelUpgradeAck Demo.upgradeInitiated Demo.msgUpgradeAck).resp = none ∧
        (Demo.keeper.ChannelUpgradeAck Demo.upgradeInitiated Demo.msgUpgradeAck).err = none ∧
        Call.OnChanUpgradeAck "mock" "channel-0" "" "" ∈
          (Demo.keeper.ChannelUpgradeAck Demo.upgradeInitiated Demo.msgUpgradeAck).calls) ∧
      ((Demo.rejectingModule.OnChanUpgradeAck
          (Demo.channelKeeper.ChanUpgradeAck Demo.upgradeInitiated "mock" "channel-0" .FLUSHING
            Demo.msgUpgradeAck.CounterpartyUpgrade [1] [1] Demo.proofHeight).1
          "mock" "channel-0" "" "").2 = some Demo.applicationCallbackError ∧
        ((Demo.keeperWith Demo.rejectingModule).ChannelUpgradeAck Demo.upgradeInitiated
          Demo.msgUpgradeAck).resp = some {} ∧
        ((Demo.keeperWith Demo.rejectingModule).ChannelUpgradeAck Demo.upgradeInitiated
          Demo.msgUpgradeAck).err = none) := by
  refine ⟨fun _ _ _ => ⟨rfl, rfl⟩, fun _ _ _ => ⟨rfl, rfl⟩, fun _ _ _ => ⟨rfl, rfl⟩, ?_, ?_⟩
  · decide
  · decide

/-! ## Acknowledgement -/

/-- C8. Acknowledgement handler.  If `ChannelKeeper.AcknowledgePacket` returns
`ErrNoOpMsg`, the handler answers `Result = NOOP` with a nil error, makes no
`OnAcknowledgementPacket` call and leaves the context unchanged.  If it
returns nil, the branch of the keeper is written to the context,
`OnAcknowledgementPacket` is called exactly once, on that context, with the
packet and the acknowledgement bytes of the message, the handler leaves the
context the callback leaves, and it answers `SUCCESS` with a nil error when
the callback returns nil. -/
theorem Acknowledgement_handler
    (k : Keeper) (ctx : Context) (msg : MsgAcknowledgement) (relayer : AccAddress)
    (module : String) (capability : Capability) (cbs : IBCModule) (branch : Context)
    (hSigner : k.AccAddressFromBech32 msg.Signer = .ok relayer)
    (hLookup : k.ChannelKeeper.LookupModuleByChannel ctx msg.Packet.SourcePort
      msg.Packet.SourceChannel = .ok (module, capability))
    (hRoute : k.Router.GetRoute module = some cbs) :
    (k.ChannelKeeper.AcknowledgePacket ctx.CacheContext capability msg.Packet
        msg.Acknowledgement msg.ProofAcked msg.ProofHeight = (branch, some ErrNoOpMsg) →
      (k.Acknowledgement ctx msg).resp = some { Result := .NOOP } ∧
        (k.Acknowledgement ctx msg).err = none ∧
        (k.Acknowledgement ctx msg).ctx = ctx ∧
        (k.Acknowledgement ctx msg).calls.filter isOnAcknowledgementPacket = []) ∧
    (k.ChannelKeeper.AcknowledgePacket ctx.CacheContext capability msg.Packet
        msg.Acknowledgement msg.ProofAcked msg.ProofHeight = (branch, none) →
      (k.Acknowledgement ctx msg).calls.filter isOnAcknowledgementPacket
          = [Call.OnAcknowledgementPacket msg.Packet msg.Acknowledgement relayer] ∧
        (ctx.writeFn branch).store = branch.store ∧
        (k.Acknowledgement ctx msg).ctx =
          (cbs.OnAcknowledgementPacket (ctx.writeFn branch) msg.Packet msg.Acknowledgement
            relayer).1 ∧
        ((cbs.OnAcknowledgementPacket (ctx.writeFn branch) msg.Packet msg.Acknowledgement
            relayer).2 = none →
          (k.Acknowledgement ctx msg).resp = some { Result := .SUCCESS } ∧
            (k.Acknowledgement ctx msg).err = none)) := by
  constructor
  · intro hTao
    simp [Keeper.Acknowledgement, hSigner, hLookup, hRoute, hTao, List.filter,
      isOnAcknowledgementPacket]
  · intro hTao
    simp only [Keeper.Acknowledgement, hSigner, hLookup, hRoute, hTao]
    refine ⟨?_, rfl, ?_, ?_⟩
    · split <;> simp [List.filter, isOnAcknowledgementPacket]
    · split <;> rfl
    · intro hCallback
      simp [hCallback]

/-- Witness of C8 on the demo chain: the acknowledgement of packet 1 deletes the
commitment, runs the callback once and answers SUCCESS; delivered again it is
a no-op. -/
theorem Acknowledgement_handler_witness :
    KVStore.has Demo.sendCtx.store (Demo.commitmentKey (Demo.packet [1])) = true ∧
      KVStore.has Demo.ackOnce.store (Demo.commitmentKey (Demo.packet [1])) = false ∧
      (Demo.keeper.Acknowledgement Demo.sendCtx (Demo.msgAck [1] [1])).calls.filter
          isOnAcknowledgementPacket
        = [Call.OnAcknowledgementPacket (Demo.packet [1]) [1] Demo.relayer] ∧
      (Demo.keeper.Acknowledgement Demo.sendCtx (Demo.msgAck [1] [1])).ctx =
        (Demo.module.OnAcknowledgementPacket (Demo.sendCtx.writeFn (Demo.ackBranch [1] [1]))
          (Demo.packet [1]) [1] Demo.relayer).1 ∧
      ((Demo.keeper.Acknowledgement Demo.sendCtx (Demo.msgAck [1] [1])).resp
          = some { Result := .SUCCESS } ∧
        (Demo.keeper.Acknowledgement Demo.sendCtx (Demo.msgAck [1] [1])).err = none) ∧
      ((Demo.keeper.Acknowledgement Demo.ackOnce (Demo.msgAck [1] [1])).resp
          = some { Result := .NOOP } ∧
        (Demo.keeper.Acknowledgement Demo.ackOnce (Demo.msgAck [1] [1])).err = none ∧
        (Demo.keeper.Acknowledgement Demo.ackOnce (Demo.msgAck [1] [1])).ctx = Demo.ackOnce ∧
        (Demo.keeper.Acknowledgement Demo.ackOnce (Demo.msgAck [1] [1])).calls.filter
          isOnAcknowledgementPacket = []) :=
  have h := (Acknowledgement_handler Demo.keeper Demo.sendCtx (Demo.msgAck [1] [1])
    Demo.relayer "mock" Demo.chanCap Demo.module (Demo.ackBranch [1] [1]) rfl rfl rfl).2
    (by decide)
  ⟨by decide, by decide, h.1, h.2.2.1, h.2.2.2 (by decide),
    (Acknowledgement_handler Demo.keeper Demo.ackOnce (Demo.msgAck [1] [1]) Demo.relayer "mock"
      Demo.chanCap Demo.module Demo.ackOnce.CacheContext rfl rfl rfl).1 (by decide)⟩

/-! ## Timeout and TimeoutOnClose -/

/-- C9 as the code has it.  For `Timeout` and for `TimeoutOnClose`: if the keeper
verification returns `ErrNoOpMsg`, the handler answers `Result = NOOP` with a
nil error, makes no `OnTimeoutPacket` and no `TimeoutExecuted` call and leaves
the context unchanged.  If the verification returns nil, its branch is
written to the context and `OnTimeoutPacket` is called exactly once, on that
context, with the packet of the message; when the callback returns nil,
`TimeoutExecuted` is called exactly once on the context the callback left,
with the channel capability and the packet, the handler leaves the context
`TimeoutExecuted` leaves, and it answers `SUCCESS` with a nil error if
`TimeoutExecuted` returns nil and a nil response with that error if
`TimeoutExecuted` returns an error.  Both handlers call the `OnTimeoutPacket`
callback of the routed module. -/
theorem Timeout_and_TimeoutOnClose_handlers (k : Keeper) (ctx : Context) :
    (∀ (msg : MsgTimeout) (relayer : AccAddress) (module : String) (capability : Capability)
        (cbs : IBCModule) (branch : Context),
      k.AccAddressFromBech32 msg.Signer = .ok relayer →
      k.ChannelKeeper.LookupModuleByChannel ctx msg.Packet.SourcePort
        msg.Packet.SourceChannel = .ok (module, capability) →
      k.Router.GetRoute module = some cbs →
      (k.ChannelKeeper.TimeoutPacket ctx.CacheContext msg.Packet msg.ProofUnreceived
          msg.ProofHeight msg.NextSequenceRecv = (branch, some ErrNoOpMsg) →
        (k.Timeout ctx msg).resp = some { Result := .NOOP } ∧
          (k.Timeout ctx msg).err = none ∧
          (k.Timeout ctx msg).ctx = ctx ∧
          (k.Timeout ctx msg).calls.filter isOnTimeoutPacket = [] ∧
          (k.Timeout ctx msg).calls.filter isTimeoutExecuted = []) ∧
      (k.ChannelKeeper.TimeoutPacket ctx.CacheContext msg.Packet msg.ProofUnreceived
          msg.ProofHeight msg.NextSequenceRecv = (branch, none) →
        (k.Timeout ctx msg).calls.filter isOnTimeoutPacket
            = [Call.OnTimeoutPacket msg.Packet relayer] ∧
          ((cbs.OnTimeoutPacket (ctx.writeFn branch) msg.Packet relayer).2 = none →
            (k.Timeout ctx msg).calls.filter isTimeoutExecuted
                = [Call.TimeoutExecuted capability msg.Packet] ∧
              (k.Timeout ctx msg).ctx =
                (k.ChannelKeeper.TimeoutExecuted
                  (cbs.OnTimeoutPacket (ctx.writeFn branch) msg.Packet relayer).1
                  capability msg.Packet).1 ∧
              ((k.ChannelKeeper.TimeoutExecuted
                  (cbs.OnTimeoutPacket (ctx.writeFn branch) msg.Packet relayer).1
                  capability msg.Packet).2 = none →
                (k.Timeout ctx msg).resp = some { Result := .SUCCESS } ∧
                  (k.Timeout ctx msg).err = none) ∧
              (∀ e, (k.ChannelKeeper.TimeoutExecuted
                  (cbs.OnTimeoutPacket (ctx.writeFn branch) msg.Packet relayer).1
                  capability msg.Packet).2 = some e →
                (k.Timeout ctx msg).resp = none ∧ (k.Timeout ctx msg).err = some e)))) ∧
    (∀ (msg : MsgTimeoutOnClose) (relayer : AccAddress) (module : String)
        (capability : Capability) (cbs : IBCModule) (branch : Context),
      k.AccAddressFromBech32 msg.Signer = .ok relayer →
      k.ChannelKeeper.LookupModuleByChannel ctx msg.Packet.SourcePort
        msg.Packet.SourceChannel = .ok (module, capability) →
      k.Router.GetRoute module = some cbs →
      (k.ChannelKeeper.TimeoutOnClose ctx.CacheContext capability msg.Packet
          msg.ProofUnreceived msg.ProofClose msg.ProofHeight msg.NextSequenceRecv
          = (branch, some ErrNoOpMsg) →
        (k.TimeoutOnClose ctx msg).resp = some { Result := .NOOP } ∧
          (k.TimeoutOnClose ctx msg).err = none ∧
          (k.TimeoutOnClose ctx msg).ctx = ctx ∧
          (k.TimeoutOnClose ctx msg).calls.filter isOnTimeoutPacket = [] ∧
          (k.TimeoutOnClose ctx msg).calls.filter isTimeoutExecuted = []) ∧
      (k.ChannelKeeper.TimeoutOnClose ctx.CacheContext capability msg.Packet
          msg.ProofUnreceived msg.ProofClose msg.ProofHeight msg.NextSequenceRecv
          = (branch, none) →
        (k.TimeoutOnClose ctx msg).calls.filter isOnTimeoutPacket
            = [Call.OnTimeoutPacket msg.Packet relayer] ∧
          ((cbs.OnTimeoutPacket (ctx.writeFn branch) msg.Packet relayer).2 = none →
            (k.TimeoutOnClose ctx msg).calls.filter isTimeoutExecuted
                = [Call.TimeoutExecuted capability msg.Packet] ∧
              (k.TimeoutOnClose ctx msg).ctx =
                (k.ChannelKeeper.TimeoutExecuted
                  (cbs.OnTimeoutPacket (ctx.writeFn branch) msg.Packet relayer).1
                  capability msg.Packet).1 ∧
              ((k.ChannelKeeper.TimeoutExecuted
                  (cbs.OnTimeoutPacket (ctx.writeFn branch) msg.Packet relayer).1
                  capability msg.Packet).2 = none →
                (k.TimeoutOnClose ctx msg).resp = some { Result := .SUCCESS } ∧
                  (k.TimeoutOnClose ctx msg).err = none) ∧
              (∀ e, (k.ChannelKeeper.TimeoutExecuted
                  (cbs.OnTimeoutPacket (ctx.writeFn branch) msg.Packet relayer).1
                  capability msg.Packet).2 = some e →
                (k.TimeoutOnClose ctx msg).resp = none ∧
                  (k.TimeoutOnClose ctx msg).err = some e)))) := by
  constructor
  · intro msg relayer module capability cbs branch hSigner hLookup hRoute
    constructor
    · intro hTao
      simp [Keeper.Timeout, hSigner, hLookup, hRoute, hTao, List.filter, isOnTimeoutPacket,
        isTimeoutExecuted]
    · intro hTao
      simp only [Keeper.Timeout, hSigner, hLookup, hRoute, hTao]
      refine ⟨?_, ?_⟩
      · split
        · simp [List.filter, isOnTimeoutPacket]
        · split <;> simp [List.filter, isOnTimeoutPacket]
      · intro hCallback
        simp only [hCallback]
        refine ⟨?_, ?_, ?_, ?_⟩
        · split <;> simp [List.filter, isTimeoutExecuted]
        · split <;> rfl
        · intro hExec
          simp [hExec]
        · intro e hExec
          simp [hExec]
  · intro msg relayer module capability cbs branch hSigner hLookup hRoute
    constructor
    · intro hTao
      simp [Keeper.TimeoutOnClose, hSigner, hLookup, hRoute, hTao, List.filter,
        isOnTimeoutPacket, isTimeoutExecuted]
    · intro hTao
      simp only [Keeper.TimeoutOnClose, hSigner, hLookup, hRoute, hTao]
      refine ⟨?_, ?_⟩
      · split
        · simp [List.filter, isOnTimeoutPacket]
        · split <;> simp [List.filter, isOnTimeoutPacket]
      · intro hCallback
        simp only [hCallback]
        refine ⟨?_, ?_, ?_, ?_⟩
        · split <;> simp [List.filter, isTimeoutExecuted]
        · split <;> rfl
        · intro hExec
          simp [hExec]
        · intro e hExec
          simp [hExec]

/-- Witness of C9 on the demo chain: the timeout of packet 1, by either handler,
runs the callback once, deletes the commitment and answers SUCCESS; delivered
again it is a no-op. -/
theorem Timeout_and_TimeoutOnClose_handlers_witness :
    (KVStore.has Demo.timeoutOnce.store (Demo.commitmentKey (Demo.packet [1])) = false ∧
      (Demo.keeper.Timeout Demo.sendCtx (Demo.msgTimeout [1] [1])).calls.filter
        isOnTimeoutPacket = [Call.OnTimeoutPacket (Demo.packet [1]) Demo.relayer] ∧
      (Demo.keeper.Timeout Demo.sendCtx (Demo.msgTimeout [1] [1])).calls.filter
        isTimeoutExecuted = [Call.TimeoutExecuted Demo.chanCap (Demo.packet [1])] ∧
      ((Demo.keeper.Timeout Demo.sendCtx (Demo.msgTimeout [1] [1])).resp
          = some { Result := .SUCCESS } ∧
        (Demo.keeper.Timeout Demo.sendCtx (Demo.msgTimeout [1] [1])).err = none) ∧
      ((Demo.keeper.Timeout Demo.timeoutOnce (Demo.msgTimeout [1] [1])).resp
          = some { Result := .NOOP } ∧
        (Demo.keeper.Timeout Demo.timeoutOnce (Demo.msgTimeout [1] [1])).err = none ∧
        (Demo.keeper.Timeout Demo.timeoutOnce (Demo.msgTimeout [1] [1])).ctx
          = Demo.timeoutOnce ∧
        (Demo.keeper.Timeout Demo.timeoutOnce (Demo.msgTimeout [1] [1])).calls.filter
          isOnTimeoutPacket = [] ∧
        (Demo.keeper.Timeout Demo.timeoutOnce (Demo.msgTimeout [1] [1])).calls.filter
          isTimeoutExecuted = [])) ∧
    (KVStore.has Demo.timeoutOnCloseOnce.store (Demo.commitmentKey (Demo.packet [1])) = false ∧
      (Demo.keeper.TimeoutOnClose Demo.sendCtx (Demo.msgTimeoutOnClose [1] [1])).calls.filter
        isOnTimeoutPacket = [Call.OnTimeoutPacket (Demo.packet [1]) Demo.relayer] ∧
      (Demo.keeper.TimeoutOnClose Demo.sendCtx (Demo.msgTimeoutOnClose [1] [1])).calls.filter
        isTimeoutExecuted = [Call.TimeoutExecuted Demo.chanCap (Demo.packet [1])] ∧
      ((Demo.keeper.TimeoutOnClose Demo.sendCtx (Demo.msgTimeoutOnClose [1] [1])).resp
          = some { Result := .SUCCESS } ∧
        (Demo.keeper.TimeoutOnClose Demo.sendCtx (Demo.msgTimeoutOnClose [1] [1])).err = none) ∧
      ((Demo.keeper.TimeoutOnClose Demo.timeoutOnCloseOnce
          (Demo.msgTimeoutOnClose [1] [1])).resp = some { Result := .NOOP } ∧
        (Demo.keeper.TimeoutOnClose Demo.timeoutOnCloseOnce
          (Demo.msgTimeoutOnClose [1] [1])).err = none ∧
        (Demo.keeper.TimeoutOnClose Demo.timeoutOnCloseOnce
          (Demo.msgTimeoutOnClose [1] [1])).ctx = Demo.timeoutOnCloseOnce ∧
        (Demo.keeper.TimeoutOnClose Demo.timeoutOnCloseOnce
          (Demo.msgTimeoutOnClose [1] [1])).calls.filter isOnTimeoutPacket = [] ∧
        (Demo.keeper.TimeoutOnClose Demo.timeoutOnCloseOnce
          (Demo.msgTimeoutOnClose [1] [1])).calls.filter isTimeoutExecuted = [])) :=
  have hT := ((Timeout_and_TimeoutOnClose_handlers Demo.keeper Demo.sendCtx).1
    (Demo.msgTimeout [1] [1]) Demo.relayer "mock" Demo.chanCap Demo.module
    (Demo.channelKeeper.TimeoutPacket Demo.sendCtx.CacheContext (Demo.packet [1]) [1]
      Demo.proofHeight 1).1 rfl rfl rfl).2 (by decide)
  have hC := ((Timeout_and_TimeoutOnClose_handlers Demo.keeper Demo.sendCtx).2
    (Demo.msgTimeoutOnClose [1] [1]) Demo.relayer "mock" Demo.chanCap Demo.module
    (Demo.channelKeeper.TimeoutOnClose Demo.sendCtx.CacheContext Demo.chanCap (Demo.packet [1])
      [1] [1] Demo.proofHeight 1).1 rfl rfl rfl).2 (by decide)
  ⟨⟨by decide, hT.1, (hT.2 (by decide)).1, (hT.2 (by decide)).2.2.1 (by decide),
      ((Timeout_and_TimeoutOnClose_handlers Demo.keeper Demo.timeoutOnce).1
        (Demo.msgTimeout [1] [1]) Demo.relayer "mock" Demo.chanCap Demo.module
        Demo.timeoutOnce.CacheContext rfl rfl rfl).1 (by decide)⟩,
    ⟨by decide, hC.1, (hC.2 (by decide)).1, (hC.2 (by decide)).2.2.1 (by decide),
      ((Timeout_and_TimeoutOnClose_handlers Demo.keeper Demo.timeoutOnCloseOnce).2
        (Demo.msgTimeoutOnClose [1] [1]) Demo.relayer "mock" Demo.chanCap Demo.module
        Demo.timeoutOnCloseOnce.CacheContext rfl rfl rfl).1 (by decide)⟩⟩

/-- C9 as stated fails.  On the demo chain without a channel end the timeout
verification succeeds and `OnTimeoutPacket` succeeds, `TimeoutExecuted`
returns `ErrChannelNotFound`, and the handler returns a nil response and that
error instead of `SUCCESS`. -/
theorem Timeout_callback_success_not_SUCCESS :
    (Demo.channelKeeper.TimeoutPacket Demo.sendCtxNoChannel.CacheContext (Demo.packet [1]) [1]
        Demo.proofHeight 1).2 = none ∧
      (Demo.module.OnTimeoutPacket (Demo.timeoutCommitted Demo.sendCtxNoChannel)
        (Demo.packet [1]) Demo.relayer).2 = none ∧
      (Demo.keeper.Timeout Demo.sendCtxNoChannel (Demo.msgTimeout [1] [1])).calls.filter
        isOnTimeoutPacket = [Call.OnTimeoutPacket (Demo.packet [1]) Demo.relayer] ∧
      (Demo.keeper.Timeout Demo.sendCtxNoChannel (Demo.msgTimeout [1] [1])).calls.filter
        isTimeoutExecuted = [Call.TimeoutExecuted Demo.chanCap (Demo.packet [1])] ∧
      (Demo.keeper.Timeout Demo.sendCtxNoChannel (Demo.msgTimeout [1] [1])).resp = none ∧
      (Demo.keeper.Timeout Demo.sendCtxNoChannel (Demo.msgTimeout [1] [1])).err
        = some ErrChannelNotFound ∧
      ¬ ((Demo.channelKeeper.TimeoutPacket Demo.sendCtxNoChannel.CacheContext (Demo.packet [1])
            [1] Demo.proofHeight 1).2 = none →
          (Demo.module.OnTimeoutPacket (Demo.timeoutCommitted Demo.sendCtxNoChannel)
            (Demo.packet [1]) Demo.relayer).2 = none →
          (Demo.keeper.Timeout Demo.sendCtxNoChannel (Demo.msgTimeout [1] [1])).resp
            = some { Result := .SUCCESS }) := by
  decide

/-! ## Errors and the state the handlers leave -/

/-- C10 as the code has it.  For `Acknowledgement`, `Timeout` and `TimeoutOnClose`:
whenever the handler returns a non-nil error without having called the
application callback, the context it leaves is the context it was called
with; and when the keeper verification has succeeded and the callback returns
an error, the handler returns a nil response and that error wrapped, and the
context it leaves is the one the callback left on top of the written
verification branch. -/
theorem packet_handlers_error_state (k : Keeper) (ctx : Context) :
    ((∀ (msg : MsgAcknowledgement),
        (k.Acknowledgement ctx msg).err ≠ none →
        (k.Acknowledgement ctx msg).calls.filter isOnAcknowledgementPacket = [] →
        (k.Acknowledgement ctx msg).ctx = ctx) ∧
      (∀ (msg : MsgTimeout),
        (k.Timeout ctx msg).err ≠ none →
        (k.Timeout ctx msg).calls.filter isOnTimeoutPacket = [] →
        (k.Timeout ctx msg).ctx = ctx) ∧
      (∀ (msg : MsgTimeoutOnClose),
        (k.TimeoutOnClose ctx msg).err ≠ none →
        (k.TimeoutOnClose ctx msg).calls.filter isOnTimeoutPacket = [] →
        (k.TimeoutOnClose ctx msg).ctx = ctx)) ∧
    ((∀ (msg : MsgAcknowledgement) (relayer : AccAddress) (module : String)
          (capability : Capability) (cbs : IBCModule) (branch appCtx : Context) (e : Error),
        k.AccAddressFromBech32 msg.Signer = .ok relayer →
        k.ChannelKeeper.LookupModuleByChannel ctx msg.Packet.SourcePort
          msg.Packet.SourceChannel = .ok (module, capability) →
        k.Router.GetRoute module = some cbs →
        k.ChannelKeeper.AcknowledgePacket ctx.CacheContext capability msg.Packet
          msg.Acknowledgement msg.ProofAcked msg.ProofHeight = (branch, none) →
        cbs.OnAcknowledgementPacket (ctx.writeFn branch) msg.Packet msg.Acknowledgement relayer
          = (appCtx, some e) →
        (k.Acknowledgement ctx msg).resp = none ∧
          (k.Acknowledgement ctx msg).err
            = some (.Wrap e "acknowledge packet callback failed") ∧
          (k.Acknowledgement ctx msg).ctx = appCtx) ∧
      (∀ (msg : MsgTimeout) (relayer : AccAddress) (module : String)
          (capability : Capability) (cbs : IBCModule) (branch appCtx : Context) (e : Error),
        k.AccAddressFromBech32 msg.Signer = .ok relayer →
        k.ChannelKeeper.LookupModuleByChannel ctx msg.Packet.SourcePort
          msg.Packet.SourceChannel = .ok (module, capability) →
        k.Router.GetRoute module = some cbs →
        k.ChannelKeeper.TimeoutPacket ctx.CacheContext msg.Packet msg.ProofUnreceived
          msg.ProofHeight msg.NextSequenceRecv = (branch, none) →
        cbs.OnTimeoutPacket (ctx.writeFn branch) msg.Packet relayer = (appCtx, some e) →
        (k.Timeout ctx msg).resp = none ∧
          (k.Timeout ctx msg).err = some (.Wrap e "timeout packet callback failed") ∧
          (k.Timeout ctx msg).ctx = appCtx) ∧
      (∀ (msg : MsgTimeoutOnClose) (relayer : AccAddress) (module : String)
          (capability : Capability) (cbs : IBCModule) (branch appCtx : Context) (e : Error),
        k.AccAddressFromBech32 msg.Signer = .ok relayer →
        k.ChannelKeeper.LookupModuleByChannel ctx msg.Packet.SourcePort
          msg.Packet.SourceChannel = .ok (module, capability) →
        k.Router.GetRoute module = some cbs →
        k.ChannelKeeper.TimeoutOnClose ctx.CacheContext capability msg.Packet
          msg.ProofUnreceived msg.ProofClose msg.ProofHeight msg.NextSequenceRecv
          = (branch, none) →
        cbs.OnTimeoutPacket (ctx.writeFn branch) msg.Packet relayer = (appCtx, some e) →
        (k.TimeoutOnClose ctx msg).resp = none ∧
          (k.TimeoutOnClose ctx msg).err = some (.Wrap e "timeout packet callback failed") ∧
          (k.TimeoutOnClose ctx msg).ctx = appCtx)) := by
  refine ⟨⟨?_, ?_, ?_⟩, ⟨?_, ?_, ?_⟩⟩
  · intro msg
    simp only [Keeper.Acknowledgement]
    repeat' split
    all_goals
      intro hErr hCalls
      first
        | rfl
        | (simp [List.filter, isOnAcknowledgementPacket] at hCalls)
  · intro msg
    simp only [Keeper.Timeout]
    repeat' split
    all_goals
      intro hErr hCalls
      first
        | rfl
        | (simp [List.filter, isOnTimeoutPacket] at hCalls)
  · intro msg
    simp only [Keeper.TimeoutOnClose]
    repeat' split
    all_goals
      intro hErr hCalls
      first
        | rfl
        | (simp [List.filter, isOnTimeoutPacket] at hCalls)
  · intro msg relayer module capability cbs branch appCtx e hSigner hLookup hRoute hTao hCb
    simp [Keeper.Acknowledgement, hSigner, hLookup, hRoute, hTao, hCb]
  · intro msg relayer module capability cbs branch appCtx e hSigner hLookup hRoute hTao hCb
    simp [Keeper.Timeout, hSigner, hLookup, hRoute, hTao, hCb]
  · intro msg relayer module capability cbs branch appCtx e hSigner hLookup hRoute hTao hCb
    simp [Keeper.TimeoutOnClose, hSigner, hLookup, hRoute, hTao, hCb]

/-- Witness of C10 as the code has it, on the demo chain: an acknowledgement with
an empty proof fails in the keeper and leaves the context unchanged; an
acknowledgement with empty acknowledgement bytes passes the keeper, is
rejected by the callback, and the context left is the one the callback left. -/
theorem packet_handlers_error_state_witness :
    ((Demo.keeper.Acknowledgement Demo.sendCtx (Demo.msgAck [1] [])).err ≠ none ∧
      (Demo.keeper.Acknowledgement Demo.sendCtx (Demo.msgAck [1] [])).ctx = Demo.sendCtx) ∧
    ((Demo.keeper.Acknowledgement Demo.sendCtx (Demo.msgAck [] [1])).resp = none ∧
      (Demo.keeper.Acknowledgement Demo.sendCtx (Demo.msgAck [] [1])).err
        = some (.Wrap Demo.applicationCallbackError "acknowledge packet callback failed") ∧
      (Demo.keeper.Acknowledgement Demo.sendCtx (Demo.msgAck [] [1])).ctx =
        (Demo.module.OnAcknowledgementPacket (Demo.sendCtx.writeFn (Demo.ackBranch [] [1]))
          (Demo.packet [1]) [] Demo.relayer).1) :=
  ⟨⟨by decide,
      (packet_handlers_error_state Demo.keeper Demo.sendCtx).1.1 (Demo.msgAck [1] [])
        (by decide) (by decide)⟩,
    (packet_handlers_error_state Demo.keeper Demo.sendCtx).2.1 (Demo.msgAck [] [1])
      Demo.relayer "mock" Demo.chanCap Demo.module (Demo.ackBranch [] [1])
      (Demo.module.OnAcknowledgementPacket (Demo.sendCtx.writeFn (Demo.ackBranch [] [1]))
        (Demo.packet [1]) [] Demo.relayer).1
      Demo.applicationCallbackError rfl rfl rfl (by decide) (by decide)⟩

/-- C10 as stated fails.  On the demo chain the acknowledgement of packet 1 with
empty acknowledgement bytes passes the keeper verification and is rejected by
`OnAcknowledgementPacket`: the handler returns a non-nil error, and the
context it leaves differs from the context it was called with (the
commitment is deleted and the key written by the callback is there).  The
same holds for `Timeout` and `TimeoutOnClose` with a rejecting
`OnTimeoutPacket`. -/
theorem packet_handlers_callback_error_changes_state :
    ((Demo.keeper.Acknowledgement Demo.sendCtx (Demo.msgAck [] [1])).err ≠ none ∧
      (Demo.keeper.Acknowledgement Demo.sendCtx (Demo.msgAck [] [1])).ctx ≠ Demo.sendCtx ∧
      KVStore.has Demo.sendCtx.store (Demo.commitmentKey (Demo.packet [1])) = true ∧
      KVStore.has (Demo.keeper.Acknowledgement Demo.sendCtx (Demo.msgAck [] [1])).ctx.store
        (Demo.commitmentKey (Demo.packet [1])) = false ∧
      KVStore.has Demo.sendCtx.store (Demo.ackCanaryKey (Demo.packet [1])) = false ∧
      KVStore.has (Demo.keeper.Acknowledgement Demo.sendCtx (Demo.msgAck [] [1])).ctx.store
        (Demo.ackCanaryKey (Demo.packet [1])) = true) ∧
    ((Demo.keeper.Timeout Demo.sendCtx (Demo.msgTimeout [] [1])).err ≠ none ∧
      (Demo.keeper.Timeout Demo.sendCtx (Demo.msgTimeout [] [1])).ctx ≠ Demo.sendCtx) ∧
    ((Demo.keeper.TimeoutOnClose Demo.sendCtx (Demo.msgTimeoutOnClose [] [1])).err ≠ none ∧
      (Demo.keeper.TimeoutOnClose Demo.sendCtx (Demo.msgTimeoutOnClose [] [1])).ctx
        ≠ Demo.sendCtx) := by
  decide

/-! ## Capability lookup and routing -/

/-- C11. Missing capability aborts before any mutation.  For `ChannelOpenInit` and
`ChannelOpenTry` (lookup of the module by port) and for `ChannelOpenAck`,
`ChannelOpenConfirm`, `ChannelCloseInit`, `ChannelCloseConfirm`,
`RecvPacket`, `Timeout`, `TimeoutOnClose`, `Acknowledgement`,
`ChannelUpgradeInit` and `ChannelUpgradeAck` (lookup of the module by
channel): when the lookup returns an error, the handler returns a nil
response and that error wrapped, the lookup is the only collaborator call it
makes (no keeper verification, no keeper write, no callback), and the
context is the one it was called with. -/
theorem lookup_failure_aborts (k : Keeper) (ctx : Context) (e : Error) :
    (∀ msg : MsgChannelOpenInit,
      k.PortKeeper.LookupModuleByPort ctx msg.PortId = .error e →
      (k.ChannelOpenInit ctx msg).resp = none ∧
        (k.ChannelOpenInit ctx msg).err
          = some (.Wrap e "could not retrieve module from port-id") ∧
        (k.ChannelOpenInit ctx msg).ctx = ctx ∧
        (k.ChannelOpenInit ctx msg).calls = [Call.LookupModuleByPort msg.PortId]) ∧
    (∀ msg : MsgChannelOpenTry,
      k.PortKeeper.LookupModuleByPort ctx msg.PortId = .error e →
      (k.ChannelOpenTry ctx msg).resp = none ∧
        (k.ChannelOpenTry ctx msg).err
          = some (.Wrap e "could not retrieve module from port-id") ∧
        (k.ChannelOpenTry ctx msg).ctx = ctx ∧
        (k.ChannelOpenTry ctx msg).calls = [Call.LookupModuleByPort msg.PortId]) ∧
    (∀ msg : MsgChannelOpenAck,
      k.ChannelKeeper.LookupModuleByChannel ctx msg.PortId msg.ChannelId = .error e →
      (k.ChannelOpenAck ctx msg).resp = none ∧
        (k.ChannelOpenAck ctx msg).err
          = some (.Wrap e "could not retrieve module from port-id") ∧
        (k.ChannelOpenAck ctx msg).ctx = ctx ∧
        (k.ChannelOpenAck ctx msg).calls
          = [Call.LookupModuleByChannel msg.PortId msg.ChannelId]) ∧
    (∀ msg : MsgChannelOpenConfirm,
      k.ChannelKeeper.LookupModuleByChannel ctx msg.PortId msg.ChannelId = .error e →
      (k.ChannelOpenConfirm ctx msg).resp = none ∧
        (k.ChannelOpenConfirm ctx msg).err
          = some (.Wrap e "could not retrieve module from port-id") ∧
        (k.ChannelOpenConfirm ctx msg).ctx = ctx ∧
        (k.ChannelOpenConfirm ctx msg).calls
          = [Call.LookupModuleByChannel msg.PortId msg.ChannelId]) ∧
    (∀ msg : MsgChannelCloseInit,
      k.ChannelKeeper.LookupModuleByChannel ctx msg.PortId msg.ChannelId = .error e →
      (k.ChannelCloseInit ctx msg).resp = none ∧
        (k.ChannelCloseInit ctx msg).err
          = some (.Wrap e "could not retrieve module from port-id") ∧
        (k.ChannelCloseInit ctx msg).ctx = ctx ∧
        (k.ChannelCloseInit ctx msg).calls
          = [Call.LookupModuleByChannel msg.PortId msg.ChannelId]) ∧
    (∀ msg : MsgChannelCloseConfirm,
      k.ChannelKeeper.LookupModuleByChannel ctx msg.PortId msg.ChannelId = .error e →
      (k.ChannelCloseConfirm ctx msg).resp = none ∧
        (k.ChannelCloseConfirm ctx msg).err
          = some (.Wrap e "could not retrieve module from port-id") ∧
        (k.ChannelCloseConfirm ctx msg).ctx = ctx ∧
        (k.ChannelCloseConfirm ctx msg).calls
          = [Call.LookupModuleByChannel msg.PortId msg.ChannelId]) ∧
    (∀ (msg : MsgRecvPacket) (relayer : AccAddress),
      k.AccAddressFromBech32 msg.Signer = .ok relayer →
      k.ChannelKeeper.LookupModuleByChannel ctx msg.Packet.DestinationPort
        msg.Packet.DestinationChannel = .error e →
      (k.RecvPacket ctx msg).resp = none ∧
        (k.RecvPacket ctx msg).err = some (.Wrap e "could not retrieve module from port-id") ∧
        (k.RecvPacket ctx msg).ctx = ctx ∧
        (k.RecvPacket ctx msg).calls
          = [Call.LookupModuleByChannel msg.Packet.DestinationPort
              msg.Packet.DestinationChannel]) ∧
    (∀ (msg : MsgTimeout) (relayer : AccAddress),
      k.AccAddressFromBech32 msg.Signer = .ok relayer →
      k.ChannelKeeper.LookupModuleByChannel ctx msg.Packet.SourcePort
        msg.Packet.SourceChannel = .error e →
      (k.Timeout ctx msg).resp = none ∧
        (k.Timeout ctx msg).err = some (.Wrap e "could not retrieve module from port-id") ∧
        (k.Timeout ctx msg).ctx = ctx ∧
        (k.Timeout ctx msg).calls
          = [Call.LookupModuleByChannel msg.Packet.SourcePort msg.Packet.SourceChannel]) ∧
    (∀ (msg : MsgTimeoutOnClose) (relayer : AccAddress),
      k.AccAddressFromBech32 msg.Signer = .ok relayer →
      k.ChannelKeeper.LookupModuleByChannel ctx msg.Packet.SourcePort
        msg.Packet.SourceChannel = .error e →
      (k.TimeoutOnClose ctx msg).resp = none ∧
        (k.TimeoutOnClose ctx msg).err
          = some (.Wrap e "could not retrieve module from port-id") ∧
        (k.TimeoutOnClose ctx msg).ctx = ctx ∧
        (k.TimeoutOnClose ctx msg).calls
          = [Call.LookupModuleByChannel msg.Packet.SourcePort msg.Packet.SourceChannel]) ∧
    (∀ (msg : MsgAcknowledgement) (relayer : AccAddress),
      k.AccAddressFromBech32 msg.Signer = .ok relayer →
      k.ChannelKeeper.LookupModuleByChannel ctx msg.Packet.SourcePort
        msg.Packet.SourceChannel = .error e →
      (k.Acknowledgement ctx msg).resp = none ∧
        (k.Acknowledgement ctx msg).err
          = some (.Wrap e "could not retrieve module from port-id") ∧
        (k.Acknowledgement ctx msg).ctx = ctx ∧
        (k.Acknowledgement ctx msg).calls
          = [Call.LookupModuleByChannel msg.Packet.SourcePort msg.Packet.SourceChannel]) ∧
    (∀ msg : MsgChannelUpgradeInit,
      k.ChannelKeeper.LookupModuleByChannel ctx msg.PortId msg.ChannelId = .error e →
      (k.ChannelUpgradeInit ctx msg).resp = none ∧
        (k.ChannelUpgradeInit ctx msg).err
          = some (.Wrap e "could not retrieve module from port-id") ∧
        (k.ChannelUpgradeInit ctx msg).ctx = ctx ∧
        (k.ChannelUpgradeInit ctx msg).calls
          = [Call.LookupModuleByChannel msg.PortId msg.ChannelId]) ∧
    (∀ msg : MsgChannelUpgradeAck,
      k.ChannelKeeper.LookupModuleByChannel ctx msg.PortId msg.ChannelId = .error e →
      (k.ChannelUpgradeAck ctx msg).resp = none ∧
        (k.ChannelUpgradeAck ctx msg).err
          = some (.Wrap e "could not retrieve module from port-id") ∧
        (k.ChannelUpgradeAck ctx msg).ctx = ctx ∧
        (k.ChannelUpgradeAck ctx msg).calls
          = [Call.LookupModuleByChannel msg.PortId msg.ChannelId]) := by
  refine ⟨?_, ?_, ?_, ?_, ?_, ?_, ?_, ?_, ?_, ?_, ?_, ?_⟩
  · intro msg h
    simp [Keeper.ChannelOpenInit, h]
  · intro msg h
    simp [Keeper.ChannelOpenTry, h]
  · intro msg h
    simp [Keeper.ChannelOpenAck, h]
  · intro msg h
    simp [Keeper.ChannelOpenConfirm, h]
  · intro msg h
    simp [Keeper.ChannelCloseInit, h]
  · intro msg h
    simp [Keeper.ChannelCloseConfirm, h]
  · intro msg relayer hs h
    simp [Keeper.RecvPacket, hs, h]
  · intro msg relayer hs h
    simp [Keeper.Timeout, hs, h]
  · intro msg relayer hs h
    simp [Keeper.TimeoutOnClose, hs, h]
  · intro msg relayer hs h
    simp [Keeper.Acknowledgement, hs, h]
  · intro msg h
    simp [Keeper.ChannelUpgradeInit, h]
  · intro msg h
    simp [Keeper.ChannelUpgradeAck, h]

/-- Witness of C11 on the demo chain: the port "unbound" and the channels
"channel-7" and "channel-8" have no capability in `recvCtx`; every handler
returns the wrapped lookup error and leaves `recvCtx`. -/
theorem lookup_failure_aborts_witness :
    ((Demo.keeper.ChannelOpenInit Demo.recvCtx (Demo.msgOpenInit "unbound")).err
        = some (.Wrap Demo.ErrCapabilityNotFound "could not retrieve module from port-id") ∧
      (Demo.keeper.ChannelOpenInit Demo.recvCtx (Demo.msgOpenInit "unbound")).ctx
        = Demo.recvCtx ∧
      (Demo.keeper.ChannelOpenInit Demo.recvCtx (Demo.msgOpenInit "unbound")).calls
        = [Call.LookupModuleByPort "unbound"]) ∧
    ((Demo.keeper.ChannelOpenTry Demo.recvCtx (Demo.msgOpenTry "unbound" [1])).err
        = some (.Wrap Demo.ErrCapabilityNotFound "could not retrieve module from port-id") ∧
      (Demo.keeper.ChannelOpenTry Demo.recvCtx (Demo.msgOpenTry "unbound" [1])).ctx
        = Demo.recvCtx) ∧
    ((Demo.keeper.ChannelOpenAck Demo.recvCtx (Demo.msgOpenAck "channel-7")).err
        = some (.Wrap Demo.ErrCapabilityNotFound "could not retrieve module from port-id") ∧
      (Demo.keeper.ChannelOpenAck Demo.recvCtx (Demo.msgOpenAck "channel-7")).ctx
        = Demo.recvCtx) ∧
    ((Demo.keeper.ChannelOpenConfirm Demo.recvCtx (Demo.msgOpenConfirm "channel-7")).err
        = some (.Wrap Demo.ErrCapabilityNotFound "could not retrieve module from port-id") ∧
      (Demo.keeper.ChannelOpenConfirm Demo.recvCtx (Demo.msgOpenConfirm "channel-7")).ctx
        = Demo.recvCtx) ∧
    ((Demo.keeper.ChannelCloseInit Demo.recvCtx (Demo.msgCloseInit "channel-7")).err
        = some (.Wrap Demo.ErrCapabilityNotFound "could not retrieve module from port-id") ∧
      (Demo.keeper.ChannelCloseInit Demo.recvCtx (Demo.msgCloseInit "channel-7")).ctx
        = Demo.recvCtx) ∧
    ((Demo.keeper.ChannelCloseConfirm Demo.recvCtx (Demo.msgCloseConfirm "channel-7")).err
        = some (.Wrap Demo.ErrCapabilityNotFound "could not retrieve module from port-id") ∧
      (Demo.keeper.ChannelCloseConfirm Demo.recvCtx (Demo.msgCloseConfirm "channel-7")).ctx
        = Demo.recvCtx) ∧
    ((Demo.keeper.RecvPacket Demo.recvCtx
          { Demo.msgRecv [1] [1] with Packet := Demo.strayPacket }).err
        = some (.Wrap Demo.ErrCapabilityNotFound "could not retrieve module from port-id") ∧
      (Demo.keeper.RecvPacket Demo.recvCtx
          { Demo.msgRecv [1] [1] with Packet := Demo.strayPacket }).ctx = Demo.recvCtx ∧
      (Demo.keeper.RecvPacket Demo.recvCtx
          { Demo.msgRecv [1] [1] with Packet := Demo.strayPacket }).calls
        = [Call.LookupModuleByChannel "mock" "channel-8"]) ∧
    ((Demo.keeper.Timeout Demo.recvCtx
          { Demo.msgTimeout [1] [1] with Packet := Demo.strayPacket }).err
        = some (.Wrap Demo.ErrCapabilityNotFound "could not retrieve module from port-id") ∧
      (Demo.keeper.Timeout Demo.recvCtx
          { Demo.msgTimeout [1] [1] with Packet := Demo.strayPacket }).ctx = Demo.recvCtx) ∧
    ((Demo.keeper.TimeoutOnClose Demo.recvCtx
          { Demo.msgTimeoutOnClose [1] [1] with Packet := Demo.strayPacket }).err
        = some (.Wrap Demo.ErrCapabilityNotFound "could not retrieve module from port-id") ∧
      (Demo.keeper.TimeoutOnClose Demo.recvCtx
          { Demo.msgTimeoutOnClose [1] [1] with Packet := Demo.strayPacket }).ctx
        = Demo.recvCtx) ∧
    ((Demo.keeper.Acknowledgement Demo.recvCtx
          { Demo.msgAck [1] [1] with Packet := Demo.strayPacket }).err
        = some (.Wrap Demo.ErrCapabilityNotFound "could not retrieve module from port-id") ∧
      (Demo.keeper.Acknowledgement Demo.recvCtx
          { Demo.msgAck [1] [1] with Packet := Demo.strayPacket }).ctx = Demo.recvCtx ∧
      (Demo.keeper.Acknowledgement Demo.recvCtx
          { Demo.msgAck [1] [1] with Packet := Demo.strayPacket }).calls
        = [Call.LookupModuleByChannel "mock" "channel-7"]) ∧
    ((Demo.keeper.ChannelUpgradeInit Demo.recvCtx Demo.msgUpgradeInit).err
        = some (.Wrap Demo.ErrCapabilityNotFound "could not retrieve module from port-id") ∧
      (Demo.keeper.ChannelUpgradeInit Demo.recvCtx Demo.msgUpgradeInit).ctx = Demo.recvCtx) ∧
    ((Demo.keeper.ChannelUpgradeAck Demo.recvCtx Demo.msgUpgradeAck).err
        = some (.Wrap Demo.ErrCapabilityNotFound "could not retrieve module from port-id") ∧
      (Demo.keeper.ChannelUpgradeAck Demo.recvCtx Demo.msgUpgradeAck).ctx = Demo.recvCtx) :=
  have h := lookup_failure_aborts Demo.keeper Demo.recvCtx Demo.ErrCapabilityNotFound
  have h1 := h.1 (Demo.msgOpenInit "unbound") rfl
  have h2 := h.2.1 (Demo.msgOpenTry "unbound" [1]) rfl
  have h3 := h.2.2.1 (Demo.msgOpenAck "channel-7") rfl
  have h4 := h.2.2.2.1 (Demo.msgOpenConfirm "channel-7") rfl
  have h5 := h.2.2.2.2.1 (Demo.msgCloseInit "channel-7") rfl
  have h6 := h.2.2.2.2.2.1 (Demo.msgCloseConfirm "channel-7") rfl
  have h7 := h.2.2.2.2.2.2.1 { Demo.msgRecv [1] [1] with Packet := Demo.strayPacket }
    Demo.relayer rfl rfl
  have h8 := h.2.2.2.2.2.2.2.1 { Demo.msgTimeout [1] [1] with Packet := Demo.strayPacket }
    Demo.relayer rfl rfl
  have h9 := h.2.2.2.2.2.2.2.2.1
    { Demo.msgTimeoutOnClose [1] [1] with Packet := Demo.strayPacket } Demo.relayer rfl rfl
  have h10 := h.2.2.2.2.2.2.2.2.2.1 { Demo.msgAck [1] [1] with Packet := Demo.strayPacket }
    Demo.relayer rfl rfl
  have h11 := h.2.2.2.2.2.2.2.2.2.2.1 Demo.msgUpgradeInit rfl
  have h12 := h.2.2.2.2.2.2.2.2.2.2.2 Demo.msgUpgradeAck rfl
  ⟨⟨h1.2.1, h1.2.2.1, h1.2.2.2⟩, ⟨h2.2.1, h2.2.2.1⟩, ⟨h3.2.1, h3.2.2.1⟩, ⟨h4.2.1, h4.2.2.1⟩,
    ⟨h5.2.1, h5.2.2.1⟩, ⟨h6.2.1, h6.2.2.1⟩, ⟨h7.2.1, h7.2.2.1, h7.2.2.2⟩, ⟨h8.2.1, h8.2.2.1⟩,
    ⟨h9.2.1, h9.2.2.1⟩, ⟨h10.2.1, h10.2.2.1, h10.2.2.2⟩, ⟨h11.2.1, h11.2.2.1⟩,
    ⟨h12.2.1, h12.2.2.1⟩⟩

/-- C12. Callbacks go only to the owning module.  In `RecvPacket` the module is
looked up under the packet's destination port and channel, in
`Acknowledgement`, `Timeout` and `TimeoutOnClose` under its source port and
channel, and the router is asked for that module.  If the router has no
route for it, the handler returns a nil response and `ErrInvalidRoute`
wrapped, makes no further call and leaves the context unchanged.  If the
router has the route `cbs` for it, then: the handler does exactly what it
does on a keeper whose router knows `cbs` only, and on every keeper whose
router gives `cbs` for that module, whatever else is registered; and once the
keeper verification has succeeded, the context and the error the handler
returns are those made from the result of the packet callback of `cbs`
itself (`OnRecvPacket`, `OnAcknowledgementPacket`, `OnTimeoutPacket`), so the
callback that runs is the one of the route registered for the owning module. -/
theorem packet_callbacks_go_to_owning_module (k : Keeper) (ctx : Context) :
    (∀ (msg : MsgRecvPacket) (relayer : AccAddress) (module : String)
        (capability : Capability),
      k.AccAddressFromBech32 msg.Signer = .ok relayer →
      k.ChannelKeeper.LookupModuleByChannel ctx msg.Packet.DestinationPort
        msg.Packet.DestinationChannel = .ok (module, capability) →
      (k.RecvPacket ctx msg).calls.take 2 =
          [Call.LookupModuleByChannel msg.Packet.DestinationPort
            msg.Packet.DestinationChannel, Call.GetRoute module] ∧
        (k.Router.GetRoute module = none →
          (k.RecvPacket ctx msg).resp = none ∧
            (k.RecvPacket ctx msg).err
              = some (.Wrap ErrInvalidRoute ("route not found to module: " ++ module)) ∧
            (k.RecvPacket ctx msg).ctx = ctx ∧
            (k.RecvPacket ctx msg).calls =
              [Call.LookupModuleByChannel msg.Packet.DestinationPort
                msg.Packet.DestinationChannel,
                Call.GetRoute module]) ∧
        (∀ cbs, k.Router.GetRoute module = some cbs →
          k.RecvPacket ctx msg = (k.withOnlyRoute cbs).RecvPacket ctx msg ∧
          (∀ router : Router, router.GetRoute module = some cbs →
            Keeper.RecvPacket { k with Router := router } ctx msg = k.RecvPacket ctx msg) ∧
          (∀ taoCtx : Context,
            k.ChannelKeeper.RecvPacket ctx.CacheContext capability msg.Packet
              msg.ProofCommitment msg.ProofHeight = (taoCtx, none) →
            (∀ appCtx : Context,
              cbs.OnRecvPacket (ctx.writeFn taoCtx).CacheContext msg.Packet relayer
                = (appCtx, none) →
              (k.RecvPacket ctx msg).ctx = (ctx.writeFn taoCtx).writeFn appCtx ∧
                (k.RecvPacket ctx msg).err = none) ∧
            (∀ (appCtx : Context) (ack : Acknowledgement),
              cbs.OnRecvPacket (ctx.writeFn taoCtx).CacheContext msg.Packet relayer
                = (appCtx, some ack) →
              (k.RecvPacket ctx msg).ctx =
                  (k.ChannelKeeper.WriteAcknowledgement
                    (if ack.Success = true then (ctx.writeFn taoCtx).writeFn appCtx
                      else (ctx.writeFn taoCtx).EmitEvents appCtx.events)
                    capability msg.Packet ack).1 ∧
                (k.RecvPacket ctx msg).err =
                  (k.ChannelKeeper.WriteAcknowledgement
                    (if ack.Success = true then (ctx.writeFn taoCtx).writeFn appCtx
                      else (ctx.writeFn taoCtx).EmitEvents appCtx.events)
                    capability msg.Packet ack).2)))) ∧
    (∀ (msg : MsgAcknowledgement) (relayer : AccAddress) (module : String)
        (capability : Capability),
      k.AccAddressFromBech32 msg.Signer = .ok relayer →
      k.ChannelKeeper.LookupModuleByChannel ctx msg.Packet.SourcePort
        msg.Packet.SourceChannel = .ok (module, capability) →
      (k.Acknowledgement ctx msg).calls.take 2 =
          [Call.LookupModuleByChannel msg.Packet.SourcePort msg.Packet.SourceChannel,
            Call.GetRoute module] ∧
        (k.Router.GetRoute module = none →
          (k.Acknowledgement ctx msg).resp = none ∧
            (k.Acknowledgement ctx msg).err
              = some (.Wrap ErrInvalidRoute ("route not found to module: " ++ module)) ∧
            (k.Acknowledgement ctx msg).ctx = ctx ∧
            (k.Acknowledgement ctx msg).calls =
              [Call.LookupModuleByChannel msg.Packet.SourcePort msg.Packet.SourceChannel,
                Call.GetRoute module]) ∧
        (∀ cbs, k.Router.GetRoute module = some cbs →
          k.Acknowledgement ctx msg = (k.withOnlyRoute cbs).Acknowledgement ctx msg ∧
          (∀ router : Router, router.GetRoute module = some cbs →
            Keeper.Acknowledgement { k with Router := router } ctx msg
              = k.Acknowledgement ctx msg) ∧
          (∀ taoCtx : Context,
            k.ChannelKeeper.AcknowledgePacket ctx.CacheContext capability msg.Packet
              msg.Acknowledgement msg.ProofAcked msg.ProofHeight = (taoCtx, none) →
            (k.Acknowledgement ctx msg).ctx =
                (cbs.OnAcknowledgementPacket (ctx.writeFn taoCtx) msg.Packet
                  msg.Acknowledgement relayer).1 ∧
              (k.Acknowledgement ctx msg).err =
                (cbs.OnAcknowledgementPacket (ctx.writeFn taoCtx) msg.Packet
                  msg.Acknowledgement relayer).2.map
                  (fun err => Error.Wrap err "acknowledge packet callback failed")))) ∧
    (∀ (msg : MsgTimeout) (relayer : AccAddress) (module : String)
        (capability : Capability),
      k.AccAddressFromBech32 msg.Signer = .ok relayer →
      k.ChannelKeeper.LookupModuleByChannel ctx msg.Packet.SourcePort
        msg.Packet.SourceChannel = .ok (module, capability) →
      (k.Timeout ctx msg).calls.take 2 =
          [Call.LookupModuleByChannel msg.Packet.SourcePort msg.Packet.SourceChannel,
            Call.GetRoute module] ∧
        (k.Router.GetRoute module = none →
          (k.Timeout ctx msg).resp = none ∧
            (k.Timeout ctx msg).err
              = some (.Wrap ErrInvalidRoute ("route not found to module: " ++ module)) ∧
            (k.Timeout ctx msg).ctx = ctx ∧
            (k.Timeout ctx msg).calls =
              [Call.LookupModuleByChannel msg.Packet.SourcePort msg.Packet.SourceChannel,
                Call.GetRoute module]) ∧
        (∀ cbs, k.Router.GetRoute module = some cbs →
          k.Timeout ctx msg = (k.withOnlyRoute cbs).Timeout ctx msg ∧
          (∀ router : Router, router.GetRoute module = some cbs →
            Keeper.Timeout { k with Router := router } ctx msg = k.Timeout ctx msg) ∧
          (∀ taoCtx : Context,
            k.ChannelKeeper.TimeoutPacket ctx.CacheContext msg.Packet msg.ProofUnreceived
              msg.ProofHeight msg.NextSequenceRecv = (taoCtx, none) →
            (∀ (appCtx : Context) (err : Error),
              cbs.OnTimeoutPacket (ctx.writeFn taoCtx) msg.Packet relayer
                = (appCtx, some err) →
              (k.Timeout ctx msg).ctx = appCtx ∧
                (k.Timeout ctx msg).err
                  = some (.Wrap err "timeout packet callback failed")) ∧
            (∀ appCtx : Context,
              cbs.OnTimeoutPacket (ctx.writeFn taoCtx) msg.Packet relayer = (appCtx, none) →
              (k.Timeout ctx msg).ctx
                  = (k.ChannelKeeper.TimeoutExecuted appCtx capability msg.Packet).1 ∧
                (k.Timeout ctx msg).err
                  = (k.ChannelKeeper.TimeoutExecuted appCtx capability msg.Packet).2)))) ∧
    (∀ (msg : MsgTimeoutOnClose) (relayer : AccAddress) (module : String)
        (capability : Capability),
      k.AccAddressFromBech32 msg.Signer = .ok relayer →
      k.ChannelKeeper.LookupModuleByChannel ctx msg.Packet.SourcePort
        msg.Packet.SourceChannel = .ok (module, capability) →
      (k.TimeoutOnClose ctx msg).calls.take 2 =
          [Call.LookupModuleByChannel msg.Packet.SourcePort msg.Packet.SourceChannel,
            Call.GetRoute module] ∧
        (k.Router.GetRoute module = none →
          (k.TimeoutOnClose ctx msg).resp = none ∧
            (k.TimeoutOnClose ctx msg).err
              = some (.Wrap ErrInvalidRoute ("route not found to module: " ++ module)) ∧
            (k.TimeoutOnClose ctx msg).ctx = ctx ∧
            (k.TimeoutOnClose ctx msg).calls =
              [Call.LookupModuleByChannel msg.Packet.SourcePort msg.Packet.SourceChannel,
                Call.GetRoute module]) ∧
        (∀ cbs, k.Router.GetRoute module = some cbs →
          k.TimeoutOnClose ctx msg = (k.withOnlyRoute cbs).TimeoutOnClose ctx msg ∧
          (∀ router : Router, router.GetRoute module = some cbs →
            Keeper.TimeoutOnClose { k with Router := router } ctx msg
              = k.TimeoutOnClose ctx msg) ∧
          (∀ taoCtx : Context,
            k.ChannelKeeper.TimeoutOnClose ctx.CacheContext capability msg.Packet
              msg.ProofUnreceived msg.ProofClose msg.ProofHeight msg.NextSequenceRecv
              = (taoCtx, none) →
            (∀ (appCtx : Context) (err : Error),
              cbs.OnTimeoutPacket (ctx.writeFn taoCtx) msg.Packet relayer
                = (appCtx, some err) →
              (k.TimeoutOnClose ctx msg).ctx = appCtx ∧
                (k.TimeoutOnClose ctx msg).err
                  = some (.Wrap err "timeout packet callback failed")) ∧
            (∀ appCtx : Context,
              cbs.OnTimeoutPacket (ctx.writeFn taoCtx) msg.Packet relayer = (appCtx, none) →
              (k.TimeoutOnClose ctx msg).ctx
                  = (k.ChannelKeeper.TimeoutExecuted appCtx capability msg.Packet).1 ∧
                (k.TimeoutOnClose ctx msg).err
                  = (k.ChannelKeeper.TimeoutExecuted appCtx capability
                      msg.Packet).2)))) := by
  refine ⟨?_, ?_, ?_, ?_⟩
  · intro msg relayer module capability hs hl
    refine ⟨?_, ?_, ?_⟩
    · simp only [Keeper.RecvPacket, hs, hl]
      repeat' split
      all_goals simp
    · intro hr
      simp [Keeper.RecvPacket, hs, hl, hr]
    · intro cbs hr
      refine ⟨?_, ?_, ?_⟩
      · simp [Keeper.RecvPacket, Keeper.withOnlyRoute, hs, hl, hr]
      · intro router hr'
        simp [Keeper.RecvPacket, hs, hl, hr, hr']
      · intro taoCtx hTao
        refine ⟨?_, ?_⟩
        · intro appCtx hCb
          simp [Keeper.RecvPacket, hs, hl, hr, hTao, hCb]
        · intro appCtx ack hCb
          cases hS : ack.Success
          · simp only [Keeper.RecvPacket, hs, hl, hr, hTao, hCb, hS]
            constructor <;> (split <;> simp_all)
          · simp only [Keeper.RecvPacket, hs, hl, hr, hTao, hCb, hS]
            constructor <;> (split <;> simp_all)
  · intro msg relayer module capability hs hl
    refine ⟨?_, ?_, ?_⟩
    · simp only [Keeper.Acknowledgement, hs, hl]
      repeat' split
      all_goals simp
    · intro hr
      simp [Keeper.Acknowledgement, hs, hl, hr]
    · intro cbs hr
      refine ⟨?_, ?_, ?_⟩
      · simp [Keeper.Acknowledgement, Keeper.withOnlyRoute, hs, hl, hr]
      · intro router hr'
        simp [Keeper.Acknowledgement, hs, hl, hr, hr']
      · intro taoCtx hTao
        simp only [Keeper.Acknowledgement, hs, hl, hr, hTao]
        constructor <;> (split <;> simp_all)
  · intro msg relayer module capability hs hl
    refine ⟨?_, ?_, ?_⟩
    · simp only [Keeper.Timeout, hs, hl]
      repeat' split
      all_goals simp
    · intro hr
      simp [Keeper.Timeout, hs, hl, hr]
    · intro cbs hr
      refine ⟨?_, ?_, ?_⟩
      · simp [Keeper.Timeout, Keeper.withOnlyRoute, hs, hl, hr]
      · intro router hr'
        simp [Keeper.Timeout, hs, hl, hr, hr']
      · intro taoCtx hTao
        refine ⟨?_, ?_⟩
        · intro appCtx err hCb
          simp [Keeper.Timeout, hs, hl, hr, hTao, hCb]
        · intro appCtx hCb
          simp only [Keeper.Timeout, hs, hl, hr, hTao, hCb]
          constructor <;> (split <;> simp_all)
  · intro msg relayer module capability hs hl
    refine ⟨?_, ?_, ?_⟩
    · simp only [Keeper.TimeoutOnClose, hs, hl]
      repeat' split
      all_goals simp
    · intro hr
      simp [Keeper.TimeoutOnClose, hs, hl, hr]
    · intro cbs hr
      refine ⟨?_, ?_, ?_⟩
      · simp [Keeper.TimeoutOnClose, Keeper.withOnlyRoute, hs, hl, hr]
      · intro router hr'
        simp [Keeper.TimeoutOnClose, hs, hl, hr, hr']
      · intro taoCtx hTao
        refine ⟨?_, ?_⟩
        · intro appCtx err hCb
          simp [Keeper.TimeoutOnClose, hs, hl, hr, hTao, hCb]
        · intro appCtx hCb
          simp only [Keeper.TimeoutOnClose, hs, hl, hr, hTao, hCb]
          constructor <;> (split <;> simp_all)

/-- Witness of C12 on the demo chain.  With an empty router the four packet
handlers fail with `ErrInvalidRoute` and leave the context.  With the route
"mock" they do what they do on the keeper that knows the demo module only,
and the same when a second module is registered under another name: that
module is never run.  After a successful verification the context left is made
from the result of the callback of the demo module. -/
theorem packet_callbacks_go_to_owning_module_witness :
    ((Demo.keeperNoRoute.RecvPacket Demo.recvCtx (Demo.msgRecv [1] [1])).err
        = some (.Wrap ErrInvalidRoute ("route not found to module: " ++ "mock")) ∧
      (Demo.keeperNoRoute.RecvPacket Demo.recvCtx (Demo.msgRecv [1] [1])).ctx = Demo.recvCtx ∧
      (Demo.keeperNoRoute.RecvPacket Demo.recvCtx (Demo.msgRecv [1] [1])).calls
        = [Call.LookupModuleByChannel "mock" "channel-1", Call.GetRoute "mock"] ∧
      Demo.keeper.RecvPacket Demo.recvCtx (Demo.msgRecv [1] [1])
        = (Demo.keeper.withOnlyRoute Demo.module).RecvPacket Demo.recvCtx
            (Demo.msgRecv [1] [1]) ∧
      Demo.keeperTwoRoutes.RecvPacket Demo.recvCtx (Demo.msgRecv [1] [1])
        = Demo.keeper.RecvPacket Demo.recvCtx (Demo.msgRecv [1] [1]) ∧
      KVStore.has (Demo.keeperTwoRoutes.RecvPacket Demo.recvCtx (Demo.msgRecv [1] [1])).ctx.store
        (Demo.recvCanaryKey (Demo.packet [1])) = true ∧
      KVStore.has (Demo.keeperTwoRoutes.RecvPacket Demo.recvCtx (Demo.msgRecv [1] [1])).ctx.store
        (Demo.seenKey "OnRecvPacket") = false ∧
      (Demo.keeper.RecvPacket Demo.recvCtx (Demo.msgRecv [1] [1])).ctx
        = (Demo.channelKeeper.WriteAcknowledgement
            ((Demo.recvCtx.writeFn (Demo.taoBranch [1] [1])).writeFn (Demo.appBranch [1]))
            Demo.chanCap (Demo.packet [1]) Demo.MockAcknowledgement).1 ∧
      (Demo.keeper.RecvPacket Demo.recvCtx (Demo.msgRecv [2] [1])).ctx
        = (Demo.recvCtx.writeFn (Demo.taoBranch [2] [1])).writeFn (Demo.appBranch [2])) ∧
    ((Demo.keeperNoRoute.Acknowledgement Demo.sendCtx (Demo.msgAck [1] [1])).err
        = some (.Wrap ErrInvalidRoute ("route not found to module: " ++ "mock")) ∧
      (Demo.keeperNoRoute.Acknowledgement Demo.sendCtx (Demo.msgAck [1] [1])).ctx
        = Demo.sendCtx ∧
      (Demo.keeperNoRoute.Acknowledgement Demo.sendCtx (Demo.msgAck [1] [1])).calls
        = [Call.LookupModuleByChannel "mock" "channel-0", Call.GetRoute "mock"] ∧
      Demo.keeper.Acknowledgement Demo.sendCtx (Demo.msgAck [1] [1])
        = (Demo.keeper.withOnlyRoute Demo.module).Acknowledgement Demo.sendCtx
            (Demo.msgAck [1] [1]) ∧
      Demo.keeperTwoRoutes.Acknowledgement Demo.sendCtx (Demo.msgAck [1] [1])
        = Demo.keeper.Acknowledgement Demo.sendCtx (Demo.msgAck [1] [1]) ∧
      (Demo.keeper.Acknowledgement Demo.sendCtx (Demo.msgAck [1] [1])).ctx
        = (Demo.module.OnAcknowledgementPacket (Demo.sendCtx.writeFn (Demo.ackBranch [1] [1]))
            (Demo.packet [1]) [1] Demo.relayer).1 ∧
      KVStore.has (Demo.keeper.Acknowledgement Demo.sendCtx (Demo.msgAck [1] [1])).ctx.store
        (Demo.ackCanaryKey (Demo.packet [1])) = true) ∧
    ((Demo.keeperNoRoute.Timeout Demo.sendCtx (Demo.msgTimeout [1] [1])).err
        = some (.Wrap ErrInvalidRoute ("route not found to module: " ++ "mock")) ∧
      (Demo.keeperNoRoute.Timeout Demo.sendCtx (Demo.msgTimeout [1] [1])).ctx = Demo.sendCtx ∧
      Demo.keeper.Timeout Demo.sendCtx (Demo.msgTimeout [1] [1])
        = (Demo.keeper.withOnlyRoute Demo.module).Timeout Demo.sendCtx
            (Demo.msgTimeout [1] [1]) ∧
      Demo.keeperTwoRoutes.Timeout Demo.sendCtx (Demo.msgTimeout [1] [1])
        = Demo.keeper.Timeout Demo.sendCtx (Demo.msgTimeout [1] [1]) ∧
      (Demo.keeper.Timeout Demo.sendCtx (Demo.msgTimeout [1] [1])).ctx
        = (Demo.channelKeeper.TimeoutExecuted
            (Demo.module.OnTimeoutPacket (Demo.sendCtx.writeFn Demo.timeoutBranch)
              (Demo.packet [1]) Demo.relayer).1 Demo.chanCap (Demo.packet [1])).1 ∧
      KVStore.has (Demo.keeper.Timeout Demo.sendCtx (Demo.msgTimeout [1] [1])).ctx.store
        (Demo.timeoutCanaryKey (Demo.packet [1])) = true) ∧
    ((Demo.keeperNoRoute.TimeoutOnClose Demo.sendCtx (Demo.msgTimeoutOnClose [1] [1])).err
        = some (.Wrap ErrInvalidRoute ("route not found to module: " ++ "mock")) ∧
      (Demo.keeperNoRoute.TimeoutOnClose Demo.sendCtx (Demo.msgTimeoutOnClose [1] [1])).ctx
        = Demo.sendCtx ∧
      Demo.keeper.TimeoutOnClose Demo.sendCtx (Demo.msgTimeoutOnClose [1] [1])
        = (Demo.keeper.withOnlyRoute Demo.module).TimeoutOnClose Demo.sendCtx
            (Demo.msgTimeoutOnClose [1] [1]) ∧
      Demo.keeperTwoRoutes.TimeoutOnClose Demo.sendCtx (Demo.msgTimeoutOnClose [1] [1])
        = Demo.keeper.TimeoutOnClose Demo.sendCtx (Demo.msgTimeoutOnClose [1] [1]) ∧
      (Demo.keeper.TimeoutOnClose Demo.sendCtx (Demo.msgTimeoutOnClose [1] [1])).ctx
        = (Demo.channelKeeper.TimeoutExecuted
            (Demo.module.OnTimeoutPacket (Demo.sendCtx.writeFn Demo.timeoutOnCloseBranch)
              (Demo.packet [1]) Demo.relayer).1 Demo.chanCap (Demo.packet [1])).1 ∧
      KVStore.has
        (Demo.keeper.TimeoutOnClose Demo.sendCtx (Demo.msgTimeoutOnClose [1] [1])).ctx.store
        (Demo.timeoutCanaryKey (Demo.packet [1])) = true) :=
  have n1 := ((packet_callbacks_go_to_owning_module Demo.keeperNoRoute Demo.recvCtx).1
    (Demo.msgRecv [1] [1]) Demo.relayer "mock" Demo.chanCap rfl rfl).2.1 rfl
  have r1 := ((packet_callbacks_go_to_owning_module Demo.keeper Demo.recvCtx).1
    (Demo.msgRecv [1] [1]) Demo.relayer "mock" Demo.chanCap rfl rfl).2.2 Demo.module rfl
  have a1 := ((packet_callbacks_go_to_owning_module Demo.keeper Demo.recvCtx).1
    (Demo.msgRecv [2] [1]) Demo.relayer "mock" Demo.chanCap rfl rfl).2.2 Demo.module rfl
  have n2 := ((packet_callbacks_go_to_owning_module Demo.keeperNoRoute Demo.sendCtx).2.1
    (Demo.msgAck [1] [1]) Demo.relayer "mock" Demo.chanCap rfl rfl).2.1 rfl
  have r2 := ((packet_callbacks_go_to_owning_module Demo.keeper Demo.sendCtx).2.1
    (Demo.msgAck [1] [1]) Demo.relayer "mock" Demo.chanCap rfl rfl).2.2 Demo.module rfl
  have n3 := ((packet_callbacks_go_to_owning_module Demo.keeperNoRoute Demo.sendCtx).2.2.1
    (Demo.msgTimeout [1] [1]) Demo.relayer "mock" Demo.chanCap rfl rfl).2.1 rfl
  have r3 := ((packet_callbacks_go_to_owning_module Demo.keeper Demo.sendCtx).2.2.1
    (Demo.msgTimeout [1] [1]) Demo.relayer "mock" Demo.chanCap rfl rfl).2.2 Demo.module rfl
  have n4 := ((packet_callbacks_go_to_owning_module Demo.keeperNoRoute Demo.sendCtx).2.2.2
    (Demo.msgTimeoutOnClose [1] [1]) Demo.relayer "mock" Demo.chanCap rfl rfl).2.1 rfl
  have r4 := ((packet_callbacks_go_to_owning_module Demo.keeper Demo.sendCtx).2.2.2
    (Demo.msgTimeoutOnClose [1] [1]) Demo.relayer "mock" Demo.chanCap rfl rfl).2.2
    Demo.module rfl
  ⟨⟨n1.2.1, n1.2.2.1, n1.2.2.2, r1.1, r1.2.1 Demo.keeperTwoRoutes.Router rfl,
      by decide, by decide,
      ((r1.2.2 (Demo.taoBranch [1] [1]) (by decide)).2 (Demo.appBranch [1])
        Demo.MockAcknowledgement (by decide)).1,
      ((a1.2.2 (Demo.taoBranch [2] [1]) (by decide)).1 (Demo.appBranch [2]) (by decide)).1⟩,
    ⟨n2.2.1, n2.2.2.1, n2.2.2.2, r2.1, r2.2.1 Demo.keeperTwoRoutes.Router rfl,
      (r2.2.2 (Demo.ackBranch [1] [1]) (by decide)).1, by decide⟩,
    ⟨n3.2.1, n3.2.2.1, r3.1, r3.2.1 Demo.keeperTwoRoutes.Router rfl,
      ((r3.2.2 Demo.timeoutBranch (by decide)).2
        (Demo.module.OnTimeoutPacket (Demo.sendCtx.writeFn Demo.timeoutBranch)
          (Demo.packet [1]) Demo.relayer).1 (by decide)).1, by decide⟩,
    ⟨n4.2.1, n4.2.2.1, r4.1, r4.2.1 Demo.keeperTwoRoutes.Router rfl,
      ((r4.2.2 Demo.timeoutOnCloseBranch (by decide)).2
        (Demo.module.OnTimeoutPacket (Demo.sendCtx.writeFn Demo.timeoutOnCloseBranch)
          (Demo.packet [1]) Demo.relayer).1 (by decide)).1, by decide⟩⟩

/-! ## Channel open, close and upgrade initiation -/

/-- C13. Channel open version negotiation.  In `ChannelOpenInit` and
`ChannelOpenTry`, after the keeper verification has returned a channel id:
when the callback returns a version, `WriteOpenInitChannel` /
`WriteOpenTryChannel` is called once, last, with that version, the response
carries the channel id of the keeper and that version, and the error is nil;
when the callback returns an error, no write call is made, the response is
nil and the error is the callback's error wrapped. -/
theorem channel_open_version_negotiation (k : Keeper) (ctx : Context) :
    (∀ (msg : MsgChannelOpenInit) (module : String) (portCap capability : Capability)
        (cbs : IBCModule) (keeperCtx appCtx : Context) (channelID : String),
      k.PortKeeper.LookupModuleByPort ctx msg.PortId = .ok (module, portCap) →
      k.Router.GetRoute module = some cbs →
      k.ChannelKeeper.ChanOpenInit ctx msg.Channel.Ordering msg.Channel.ConnectionHops
        msg.PortId portCap msg.Channel.Counterparty msg.Channel.Version
        = (keeperCtx, .ok (channelID, capability)) →
      (∀ version, cbs.OnChanOpenInit keeperCtx msg.Channel.Ordering
          msg.Channel.ConnectionHops msg.PortId channelID capability msg.Channel.Counterparty
          msg.Channel.Version = (appCtx, .ok version) →
        (k.ChannelOpenInit ctx msg).resp
            = some { ChannelId := channelID, Version := version } ∧
          (k.ChannelOpenInit ctx msg).err = none ∧
          (k.ChannelOpenInit ctx msg).ctx =
            k.ChannelKeeper.WriteOpenInitChannel appCtx msg.PortId channelID
              msg.Channel.Ordering msg.Channel.ConnectionHops msg.Channel.Counterparty
              version ∧
          (k.ChannelOpenInit ctx msg).calls =
            [Call.LookupModuleByPort msg.PortId, Call.GetRoute module,
              Call.ChanOpenInit msg.Channel.Ordering msg.Channel.ConnectionHops msg.PortId
                portCap msg.Channel.Counterparty msg.Channel.Version,
              Call.OnChanOpenInit msg.Channel.Ordering msg.Channel.ConnectionHops msg.PortId
                channelID capability msg.Channel.Counterparty msg.Channel.Version,
              Call.WriteOpenInitChannel msg.PortId channelID msg.Channel.Ordering
                msg.Channel.ConnectionHops msg.Channel.Counterparty version]) ∧
      (∀ e, cbs.OnChanOpenInit keeperCtx msg.Channel.Ordering
          msg.Channel.ConnectionHops msg.PortId channelID capability msg.Channel.Counterparty
          msg.Channel.Version = (appCtx, .error e) →
        (k.ChannelOpenInit ctx msg).resp = none ∧
          (k.ChannelOpenInit ctx msg).err =
            some (.Wrap e ("channel open init callback failed for port ID: " ++ msg.PortId ++
              ", channel ID: " ++ channelID)) ∧
          (k.ChannelOpenInit ctx msg).ctx = appCtx ∧
          (k.ChannelOpenInit ctx msg).calls =
            [Call.LookupModuleByPort msg.PortId, Call.GetRoute module,
              Call.ChanOpenInit msg.Channel.Ordering msg.Channel.ConnectionHops msg.PortId
                portCap msg.Channel.Counterparty msg.Channel.Version,
              Call.OnChanOpenInit msg.Channel.Ordering msg.Channel.ConnectionHops msg.PortId
                channelID capability msg.Channel.Counterparty msg.Channel.Version])) ∧
    (∀ (msg : MsgChannelOpenTry) (module : String) (portCap capability : Capability)
        (cbs : IBCModule) (keeperCtx appCtx : Context) (channelID : String),
      k.PortKeeper.LookupModuleByPort ctx msg.PortId = .ok (module, portCap) →
      k.Router.GetRoute module = some cbs →
      k.ChannelKeeper.ChanOpenTry ctx msg.Channel.Ordering msg.Channel.ConnectionHops
        msg.PortId portCap msg.Channel.Counterparty msg.CounterpartyVersion msg.ProofInit
        msg.ProofHeight = (keeperCtx, .ok (channelID, capability)) →
      (∀ version, cbs.OnChanOpenTry keeperCtx msg.Channel.Ordering
          msg.Channel.ConnectionHops msg.PortId channelID capability msg.Channel.Counterparty
          msg.CounterpartyVersion = (appCtx, .ok version) →
        (k.ChannelOpenTry ctx msg).resp
            = some { ChannelId := channelID, Version := version } ∧
          (k.ChannelOpenTry ctx msg).err = none ∧
          (k.ChannelOpenTry ctx msg).ctx =
            k.ChannelKeeper.WriteOpenTryChannel appCtx msg.PortId channelID
              msg.Channel.Ordering msg.Channel.ConnectionHops msg.Channel.Counterparty
              version ∧
          (k.ChannelOpenTry ctx msg).calls =
            [Call.LookupModuleByPort msg.PortId, Call.GetRoute module,
              Call.ChanOpenTry msg.Channel.Ordering msg.Channel.ConnectionHops msg.PortId
                portCap msg.Channel.Counterparty msg.CounterpartyVersion msg.ProofInit
                msg.ProofHeight,
              Call.OnChanOpenTry msg.Channel.Ordering msg.Channel.ConnectionHops msg.PortId
                channelID capability msg.Channel.Counterparty msg.CounterpartyVersion,
              Call.WriteOpenTryChannel msg.PortId channelID msg.Channel.Ordering
                msg.Channel.ConnectionHops msg.Channel.Counterparty version]) ∧
      (∀ e, cbs.OnChanOpenTry keeperCtx msg.Channel.Ordering
          msg.Channel.ConnectionHops msg.PortId channelID capability msg.Channel.Counterparty
          msg.CounterpartyVersion = (appCtx, .error e) →
        (k.ChannelOpenTry ctx msg).resp = none ∧
          (k.ChannelOpenTry ctx msg).err =
            some (.Wrap e ("channel open try callback failed for port ID: " ++ msg.PortId ++
              ", channel ID: " ++ channelID)) ∧
          (k.ChannelOpenTry ctx msg).ctx = appCtx ∧
          (k.ChannelOpenTry ctx msg).calls =
            [Call.LookupModuleByPort msg.PortId, Call.GetRoute module,
              Call.ChanOpenTry msg.Channel.Ordering msg.Channel.ConnectionHops msg.PortId
                portCap msg.Channel.Counterparty msg.CounterpartyVersion msg.ProofInit
                msg.ProofHeight,
              Call.OnChanOpenTry msg.Channel.Ordering msg.Channel.ConnectionHops msg.PortId
                channelID capability msg.Channel.Counterparty msg.CounterpartyVersion])) := by
  refine ⟨?_, ?_⟩
  · intro msg module portCap capability cbs keeperCtx appCtx channelID hl hr hk
    refine ⟨?_, ?_⟩
    · intro version hc
      simp [Keeper.ChannelOpenInit, hl, hr, hk, hc]
    · intro e hc
      simp [Keeper.ChannelOpenInit, hl, hr, hk, hc]
  · intro msg module portCap capability cbs keeperCtx appCtx channelID hl hr hk
    refine ⟨?_, ?_⟩
    · intro version hc
      simp [Keeper.ChannelOpenTry, hl, hr, hk, hc]
    · intro e hc
      simp [Keeper.ChannelOpenTry, hl, hr, hk, hc]

/-- Witness of C13 on the demo chain: the message proposes "mock-version", the
callback answers "mock-version-negotiated", and that is the version written
and returned; with the refusing module no channel state is written. -/
theorem channel_open_version_negotiation_witness :
    (Demo.msgOpenInit "mock").Channel.Version = "mock-version" ∧
    (((Demo.handshakeKeeper Demo.observingModule).ChannelOpenInit Demo.capCtx
          (Demo.msgOpenInit "mock")).resp
        = some { ChannelId := "channel-0", Version := "mock-version-negotiated" } ∧
      ((Demo.handshakeKeeper Demo.observingModule).ChannelOpenInit Demo.capCtx
          (Demo.msgOpenInit "mock")).err = none ∧
      Call.WriteOpenInitChannel "mock" "channel-0" .UNORDERED ["connection-0"]
          { PortId := "mock", ChannelId := "" } "mock-version-negotiated" ∈
        ((Demo.handshakeKeeper Demo.observingModule).ChannelOpenInit Demo.capCtx
          (Demo.msgOpenInit "mock")).calls) ∧
    (((Demo.handshakeKeeper Demo.refusingModule).ChannelOpenInit Demo.capCtx
          (Demo.msgOpenInit "mock")).resp = none ∧
      ((Demo.handshakeKeeper Demo.refusingModule).ChannelOpenInit Demo.capCtx
          (Demo.msgOpenInit "mock")).err ≠ none ∧
      KVStore.has ((Demo.handshakeKeeper Demo.refusingModule).ChannelOpenInit Demo.capCtx
          (Demo.msgOpenInit "mock")).ctx.store (Demo.stateKey "mock" "channel-0") = false) ∧
    (((Demo.handshakeKeeper Demo.observingModule).ChannelOpenTry Demo.capCtx
          (Demo.msgOpenTry "mock" [1])).resp
        = some { ChannelId := "channel-0", Version := "mock-version-negotiated" } ∧
      ((Demo.handshakeKeeper Demo.observingModule).ChannelOpenTry Demo.capCtx
          (Demo.msgOpenTry "mock" [1])).err = none) ∧
    (((Demo.handshakeKeeper Demo.refusingModule).ChannelOpenTry Demo.capCtx
          (Demo.msgOpenTry "mock" [1])).resp = none ∧
      ((Demo.handshakeKeeper Demo.refusingModule).ChannelOpenTry Demo.capCtx
          (Demo.msgOpenTry "mock" [1])).calls.length = 4) :=
  have a := ((channel_open_version_negotiation
    (Demo.handshakeKeeper Demo.observingModule) Demo.capCtx).1 (Demo.msgOpenInit "mock") "mock"
    Demo.portCap Demo.portCap Demo.observingModule Demo.capCtx
    (Demo.observe Demo.capCtx "OnChanOpenInit" "mock" "channel-0") "channel-0" rfl rfl rfl).1
    "mock-version-negotiated" rfl
  have b := ((channel_open_version_negotiation
    (Demo.handshakeKeeper Demo.refusingModule) Demo.capCtx).1 (Demo.msgOpenInit "mock") "mock"
    Demo.portCap Demo.portCap Demo.refusingModule Demo.capCtx
    (Demo.observe Demo.capCtx "OnChanOpenInit" "mock" "channel-0") "channel-0" rfl rfl rfl).2
    Demo.applicationCallbackError rfl
  have c := ((channel_open_version_negotiation
    (Demo.handshakeKeeper Demo.observingModule) Demo.capCtx).2 (Demo.msgOpenTry "mock" [1])
    "mock" Demo.portCap Demo.portCap Demo.observingModule Demo.capCtx
    (Demo.observe Demo.capCtx "OnChanOpenTry" "mock" "channel-0") "channel-0" rfl rfl rfl).1
    "mock-version-negotiated" rfl
  have d := ((channel_open_version_negotiation
    (Demo.handshakeKeeper Demo.refusingModule) Demo.capCtx).2 (Demo.msgOpenTry "mock" [1])
    "mock" Demo.portCap Demo.portCap Demo.refusingModule Demo.capCtx
    (Demo.observe Demo.capCtx "OnChanOpenTry" "mock" "channel-0") "channel-0" rfl rfl rfl).2
    Demo.applicationCallbackError rfl
  ⟨rfl, ⟨a.1, a.2.1, by rw [a.2.2.2]; decide⟩, ⟨b.1, by rw [b.2.1]; decide, by decide⟩,
    ⟨c.1, c.2.1⟩, ⟨d.1, by rw [d.2.2.2]; rfl⟩⟩

/-- C14 as the code has it.  `ChannelOpenTry` step order: after the keeper
verification `ChanOpenTry` has succeeded, `OnChanOpenTry` is called on the
context the verification left, and only then is the channel written by
`WriteOpenTryChannel`, on the context the callback left and with the version
the callback returned.  The callback runs before the write. -/
theorem ChannelOpenTry_callback_before_write (k : Keeper) (ctx : Context)
    (msg : MsgChannelOpenTry) (module : String) (portCap capability : Capability)
    (cbs : IBCModule) (keeperCtx : Context) (channelID version : String)
    (hLookup : k.PortKeeper.LookupModuleByPort ctx msg.PortId = .ok (module, portCap))
    (hRoute : k.Router.GetRoute module = some cbs)
    (hKeeper : k.ChannelKeeper.ChanOpenTry ctx msg.Channel.Ordering
      msg.Channel.ConnectionHops msg.PortId portCap msg.Channel.Counterparty
      msg.CounterpartyVersion msg.ProofInit msg.ProofHeight
      = (keeperCtx, .ok (channelID, capability)))
    (hCallback : (cbs.OnChanOpenTry keeperCtx msg.Channel.Ordering
      msg.Channel.ConnectionHops msg.PortId channelID capability msg.Channel.Counterparty
      msg.CounterpartyVersion).2 = .ok version) :
    (k.ChannelOpenTry ctx msg).ctx =
        k.ChannelKeeper.WriteOpenTryChannel
          (cbs.OnChanOpenTry keeperCtx msg.Channel.Ordering msg.Channel.ConnectionHops
            msg.PortId channelID capability msg.Channel.Counterparty
            msg.CounterpartyVersion).1
          msg.PortId channelID msg.Channel.Ordering msg.Channel.ConnectionHops
          msg.Channel.Counterparty version ∧
      (k.ChannelOpenTry ctx msg).calls =
        [Call.LookupModuleByPort msg.PortId, Call.GetRoute module,
          Call.ChanOpenTry msg.Channel.Ordering msg.Channel.ConnectionHops msg.PortId
            portCap msg.Channel.Counterparty msg.CounterpartyVersion msg.ProofInit
            msg.ProofHeight,
          Call.OnChanOpenTry msg.Channel.Ordering msg.Channel.ConnectionHops msg.PortId
            channelID capability msg.Channel.Counterparty msg.CounterpartyVersion,
          Call.WriteOpenTryChannel msg.PortId channelID msg.Channel.Ordering
            msg.Channel.ConnectionHops msg.Channel.Counterparty version] := by
  simp [Keeper.ChannelOpenTry, hLookup, hRoute, hKeeper, hCallback]

/-- Witness of C14 as the code has it, on the demo chain. -/
theorem ChannelOpenTry_callback_before_write_witness :
    ((Demo.handshakeKeeper Demo.observingModule).ChannelOpenTry Demo.capCtx
        (Demo.msgOpenTry "mock" [1])).ctx =
      Demo.handshakeChannelKeeper.WriteOpenTryChannel
        (Demo.observe Demo.capCtx "OnChanOpenTry" "mock" "channel-0")
        "mock" "channel-0" .UNORDERED ["connection-0"] { PortId := "mock", ChannelId := "" }
        "mock-version-negotiated" ∧
    ((Demo.handshakeKeeper Demo.observingModule).ChannelOpenTry Demo.capCtx
        (Demo.msgOpenTry "mock" [1])).calls =
      [Call.LookupModuleByPort "mock", Call.GetRoute "mock",
        Call.ChanOpenTry .UNORDERED ["connection-0"] "mock" Demo.portCap
          { PortId := "mock", ChannelId := "" } "mock-version" [1] Demo.proofHeight,
        Call.OnChanOpenTry .UNORDERED ["connection-0"] "mock" "channel-0" Demo.portCap
          { PortId := "mock", ChannelId := "" } "mock-version",
        Call.WriteOpenTryChannel "mock" "channel-0" .UNORDERED ["connection-0"]
          { PortId := "mock", ChannelId := "" } "mock-version-negotiated"] :=
  ChannelOpenTry_callback_before_write (Demo.handshakeKeeper Demo.observingModule) Demo.capCtx
    (Demo.msgOpenTry "mock" [1]) "mock" Demo.portCap Demo.portCap Demo.observingModule
    Demo.capCtx "channel-0" "mock-version-negotiated" rfl rfl rfl rfl

/-- C14 as stated fails.  On the demo chain the proof of `ChannelOpenTry` verifies
and the handler succeeds; afterwards the channel is in state TRYOPEN (2), yet
`OnChanOpenTry` recorded that it saw no channel ([0]): it ran before
`WriteOpenTryChannel`, on a state without the TRYOPEN channel. -/
theorem ChannelOpenTry_callback_sees_no_channel :
    ((Demo.handshakeKeeper Demo.observingModule).ChannelOpenTry Demo.capCtx
        (Demo.msgOpenTry "mock" [1])).err = none ∧
      KVStore.get ((Demo.handshakeKeeper Demo.observingModule).ChannelOpenTry Demo.capCtx
        (Demo.msgOpenTry "mock" [1])).ctx.store (Demo.stateKey "mock" "channel-0")
        = some [2] ∧
      KVStore.get ((Demo.handshakeKeeper Demo.observingModule).ChannelOpenTry Demo.capCtx
        (Demo.msgOpenTry "mock" [1])).ctx.store (Demo.seenKey "OnChanOpenTry")
        = some [0] ∧
      KVStore.get ((Demo.handshakeKeeper Demo.observingModule).ChannelOpenTry Demo.capCtx
        (Demo.msgOpenTry "mock" [1])).ctx.store (Demo.seenKey "OnChanOpenTry")
        ≠ some [2] := by
  decide

/-- C15. `ChannelOpenAck` and `ChannelOpenConfirm` step order.  When the keeper
verification succeeds, `WriteOpenAckChannel` / `WriteOpenConfirmChannel` is
called before the callback, and the callback runs on the context the write
left; the handler leaves the context the callback left.  When the
verification fails, the verification is the last call: neither the write nor
the callback happens, and the verification error is returned wrapped. -/
theorem channel_open_ack_confirm_order (k : Keeper) (ctx : Context) :
    (∀ (msg : MsgChannelOpenAck) (module : String) (capability : Capability)
        (cbs : IBCModule) (keeperCtx : Context),
      k.ChannelKeeper.LookupModuleByChannel ctx msg.PortId msg.ChannelId
        = .ok (module, capability) →
      k.Router.GetRoute module = some cbs →
      (k.ChannelKeeper.ChanOpenAck ctx msg.PortId msg.ChannelId capability
          msg.CounterpartyVersion msg.CounterpartyChannelId msg.ProofTry msg.ProofHeight
          = (keeperCtx, none) →
        (k.ChannelOpenAck ctx msg).calls =
            [Call.LookupModuleByChannel msg.PortId msg.ChannelId, Call.GetRoute module,
              Call.ChanOpenAck msg.PortId msg.ChannelId capability msg.CounterpartyVersion
                msg.CounterpartyChannelId msg.ProofTry msg.ProofHeight,
              Call.WriteOpenAckChannel msg.PortId msg.ChannelId msg.CounterpartyVersion
                msg.CounterpartyChannelId,
              Call.OnChanOpenAck msg.PortId msg.ChannelId msg.CounterpartyChannelId
                msg.CounterpartyVersion] ∧
          (k.ChannelOpenAck ctx msg).ctx =
            (cbs.OnChanOpenAck
              (k.ChannelKeeper.WriteOpenAckChannel keeperCtx msg.PortId msg.ChannelId
                msg.CounterpartyVersion msg.CounterpartyChannelId)
              msg.PortId msg.ChannelId msg.CounterpartyChannelId msg.CounterpartyVersion).1) ∧
      (∀ e, k.ChannelKeeper.ChanOpenAck ctx msg.PortId msg.ChannelId capability
          msg.CounterpartyVersion msg.CounterpartyChannelId msg.ProofTry msg.ProofHeight
          = (keeperCtx, some e) →
        (k.ChannelOpenAck ctx msg).calls =
            [Call.LookupModuleByChannel msg.PortId msg.ChannelId, Call.GetRoute module,
              Call.ChanOpenAck msg.PortId msg.ChannelId capability msg.CounterpartyVersion
                msg.CounterpartyChannelId msg.ProofTry msg.ProofHeight] ∧
          (k.ChannelOpenAck ctx msg).resp = none ∧
          (k.ChannelOpenAck ctx msg).err
            = some (.Wrap e "channel handshake open ack failed") ∧
          (k.ChannelOpenAck ctx msg).ctx = keeperCtx)) ∧
    (∀ (msg : MsgChannelOpenConfirm) (module : String) (capability : Capability)
        (cbs : IBCModule) (keeperCtx : Context),
      k.ChannelKeeper.LookupModuleByChannel ctx msg.PortId msg.ChannelId
        = .ok (module, capability) →
      k.Router.GetRoute module = some cbs →
      (k.ChannelKeeper.ChanOpenConfirm ctx msg.PortId msg.ChannelId capability msg.ProofAck
          msg.ProofHeight = (keeperCtx, none) →
        (k.ChannelOpenConfirm ctx msg).calls =
            [Call.LookupModuleByChannel msg.PortId msg.ChannelId, Call.GetRoute module,
              Call.ChanOpenConfirm msg.PortId msg.ChannelId capability msg.ProofAck
                msg.ProofHeight,
              Call.WriteOpenConfirmChannel msg.PortId msg.ChannelId,
              Call.OnChanOpenConfirm msg.PortId msg.ChannelId] ∧
          (k.ChannelOpenConfirm ctx msg).ctx =
            (cbs.OnChanOpenConfirm
              (k.ChannelKeeper.WriteOpenConfirmChannel keeperCtx msg.PortId msg.ChannelId)
              msg.PortId msg.ChannelId).1) ∧
      (∀ e, k.ChannelKeeper.ChanOpenConfirm ctx msg.PortId msg.ChannelId capability
          msg.ProofAck msg.ProofHeight = (keeperCtx, some e) →
        (k.ChannelOpenConfirm ctx msg).calls =
            [Call.LookupModuleByChannel msg.PortId msg.ChannelId, Call.GetRoute module,
              Call.ChanOpenConfirm msg.PortId msg.ChannelId capability msg.ProofAck
                msg.ProofHeight] ∧
          (k.ChannelOpenConfirm ctx msg).resp = none ∧
          (k.ChannelOpenConfirm ctx msg).err
            = some (.Wrap e "channel handshake open confirm failed") ∧
          (k.ChannelOpenConfirm ctx msg).ctx = keeperCtx)) := by
  refine ⟨?_, ?_⟩
  · intro msg module capability cbs keeperCtx hl hr
    refine ⟨?_, ?_⟩
    · intro hk
      simp only [Keeper.ChannelOpenAck, hl, hr, hk]
      constructor <;> split <;> simp
    · intro e hk
      simp [Keeper.ChannelOpenAck, hl, hr, hk]
  · intro msg module capability cbs keeperCtx hl hr
    refine ⟨?_, ?_⟩
    · intro hk
      simp only [Keeper.ChannelOpenConfirm, hl, hr, hk]
      constructor <;> split <;> simp
    · intro e hk
      simp [Keeper.ChannelOpenConfirm, hl, hr, hk]

/-- Witness of C15 on the demo chain: with a proof the callback records that it
saw the channel OPEN (3); with an empty proof the verification fails, nothing
is written and nothing is recorded. -/
theorem channel_open_ack_confirm_order_witness :
    (KVStore.get ((Demo.handshakeKeeper Demo.observingModule).ChannelOpenAck Demo.capCtx
          (Demo.msgOpenAck "channel-0")).ctx.store (Demo.seenKey "OnChanOpenAck")
        = some [3] ∧
      ((Demo.handshakeKeeper Demo.observingModule).ChannelOpenAck Demo.capCtx
          (Demo.msgOpenAck "channel-0")).calls =
        [Call.LookupModuleByChannel "mock" "channel-0", Call.GetRoute "mock",
          Call.ChanOpenAck "mock" "channel-0" Demo.chanCap "mock-version" "channel-1" [1]
            Demo.proofHeight,
          Call.WriteOpenAckChannel "mock" "channel-0" "mock-version" "channel-1",
          Call.OnChanOpenAck "mock" "channel-0" "channel-1" "mock-version"]) ∧
    (((Demo.handshakeKeeper Demo.observingModule).ChannelOpenAck Demo.capCtx
          { Demo.msgOpenAck "channel-0" with ProofTry := [] }).ctx = Demo.capCtx ∧
      ((Demo.handshakeKeeper Demo.observingModule).ChannelOpenAck Demo.capCtx
          { Demo.msgOpenAck "channel-0" with ProofTry := [] }).calls.length = 3) ∧
    (KVStore.get ((Demo.handshakeKeeper Demo.observingModule).ChannelOpenConfirm Demo.capCtx
          (Demo.msgOpenConfirm "channel-0")).ctx.store (Demo.seenKey "OnChanOpenConfirm")
        = some [3] ∧
      ((Demo.handshakeKeeper Demo.observingModule).ChannelOpenConfirm Demo.capCtx
          (Demo.msgOpenConfirm "channel-0")).calls =
        [Call.LookupModuleByChannel "mock" "channel-0", Call.GetRoute "mock",
          Call.ChanOpenConfirm "mock" "channel-0" Demo.chanCap [1] Demo.proofHeight,
          Call.WriteOpenConfirmChannel "mock" "channel-0",
          Call.OnChanOpenConfirm "mock" "channel-0"]) ∧
    (((Demo.handshakeKeeper Demo.observingModule).ChannelOpenConfirm Demo.capCtx
          { Demo.msgOpenConfirm "channel-0" with ProofAck := [] }).ctx = Demo.capCtx ∧
      ((Demo.handshakeKeeper Demo.observingModule).ChannelOpenConfirm Demo.capCtx
          { Demo.msgOpenConfirm "channel-0" with ProofAck := [] }).calls.length = 3) :=
  have a := ((channel_open_ack_confirm_order (Demo.handshakeKeeper Demo.observingModule)
    Demo.capCtx).1 (Demo.msgOpenAck "channel-0") "mock" Demo.chanCap Demo.observingModule
    Demo.capCtx rfl rfl).1 rfl
  have b := ((channel_open_ack_confirm_order (Demo.handshakeKeeper Demo.observingModule)
    Demo.capCtx).1 { Demo.msgOpenAck "channel-0" with ProofTry := [] } "mock" Demo.chanCap
    Demo.observingModule Demo.capCtx rfl rfl).2 (.sentinel "ErrInvalidProof") rfl
  have c := ((channel_open_ack_confirm_order (Demo.handshakeKeeper Demo.observingModule)
    Demo.capCtx).2 (Demo.msgOpenConfirm "channel-0") "mock" Demo.chanCap Demo.observingModule
    Demo.capCtx rfl rfl).1 rfl
  have d := ((channel_open_ack_confirm_order (Demo.handshakeKeeper Demo.observingModule)
    Demo.capCtx).2 { Demo.msgOpenConfirm "channel-0" with ProofAck := [] } "mock" Demo.chanCap
    Demo.observingModule Demo.capCtx rfl rfl).2 (.sentinel "ErrInvalidProof") rfl
  ⟨⟨by decide, a.1⟩, ⟨b.2.2.2, by rw [b.1]; rfl⟩, ⟨by decide, c.1⟩,
    ⟨d.2.2.2, by rw [d.1]; rfl⟩⟩

/-- C16. Channel close order.  In `ChannelCloseInit` and `ChannelCloseConfirm` the
callback is called on the context of the message, before the keeper step.
If the callback returns an error, the callback is the last call (the keeper
step `ChanCloseInit` / `ChanCloseConfirm` is never run) and the handler
returns a nil response and the callback's error wrapped.  If the callback
returns nil, the keeper step is called next, on the context the callback
left. -/
theorem channel_close_order (k : Keeper) (ctx : Context) :
    (∀ (msg : MsgChannelCloseInit) (module : String) (capability : Capability)
        (cbs : IBCModule) (appCtx : Context),
      k.ChannelKeeper.LookupModuleByChannel ctx msg.PortId msg.ChannelId
        = .ok (module, capability) →
      k.Router.GetRoute module = some cbs →
      (∀ e, cbs.OnChanCloseInit ctx msg.PortId msg.ChannelId = (appCtx, some e) →
        (k.ChannelCloseInit ctx msg).resp = none ∧
          (k.ChannelCloseInit ctx msg).err =
            some (.Wrap e ("channel close init callback failed for port ID: " ++ msg.PortId ++
              ", channel ID: " ++ msg.ChannelId)) ∧
          (k.ChannelCloseInit ctx msg).ctx = appCtx ∧
          (k.ChannelCloseInit ctx msg).calls =
            [Call.LookupModuleByChannel msg.PortId msg.ChannelId, Call.GetRoute module,
              Call.OnChanCloseInit msg.PortId msg.ChannelId]) ∧
      (cbs.OnChanCloseInit ctx msg.PortId msg.ChannelId = (appCtx, none) →
        (k.ChannelCloseInit ctx msg).calls =
            [Call.LookupModuleByChannel msg.PortId msg.ChannelId, Call.GetRoute module,
              Call.OnChanCloseInit msg.PortId msg.ChannelId,
              Call.ChanCloseInit msg.PortId msg.ChannelId capability] ∧
          (k.ChannelCloseInit ctx msg).ctx =
            (k.ChannelKeeper.ChanCloseInit appCtx msg.PortId msg.ChannelId capability).1)) ∧
    (∀ (msg : MsgChannelCloseConfirm) (module : String) (capability : Capability)
        (cbs : IBCModule) (appCtx : Context),
      k.ChannelKeeper.LookupModuleByChannel ctx msg.PortId msg.ChannelId
        = .ok (module, capability) →
      k.Router.GetRoute module = some cbs →
      (∀ e, cbs.OnChanCloseConfirm ctx msg.PortId msg.ChannelId = (appCtx, some e) →
        (k.ChannelCloseConfirm ctx msg).resp = none ∧
          (k.ChannelCloseConfirm ctx msg).err =
            some (.Wrap e ("channel close confirm callback failed for port ID: " ++
              msg.PortId ++ ", channel ID: " ++ msg.ChannelId)) ∧
          (k.ChannelCloseConfirm ctx msg).ctx = appCtx ∧
          (k.ChannelCloseConfirm ctx msg).calls =
            [Call.LookupModuleByChannel msg.PortId msg.ChannelId, Call.GetRoute module,
              Call.OnChanCloseConfirm msg.PortId msg.ChannelId]) ∧
      (cbs.OnChanCloseConfirm ctx msg.PortId msg.ChannelId = (appCtx, none) →
        (k.ChannelCloseConfirm ctx msg).calls =
            [Call.LookupModuleByChannel msg.PortId msg.ChannelId, Call.GetRoute module,
              Call.OnChanCloseConfirm msg.PortId msg.ChannelId,
              Call.ChanCloseConfirm msg.PortId msg.ChannelId capability msg.ProofInit
                msg.ProofHeight] ∧
          (k.ChannelCloseConfirm ctx msg).ctx =
            (k.ChannelKeeper.ChanCloseConfirm appCtx msg.PortId msg.ChannelId capability
              msg.ProofInit msg.ProofHeight).1)) := by
  refine ⟨?_, ?_⟩
  · intro msg module capability cbs appCtx hl hr
    refine ⟨?_, ?_⟩
    · intro e hc
      simp [Keeper.ChannelCloseInit, hl, hr, hc]
    · intro hc
      simp only [Keeper.ChannelCloseInit, hl, hr, hc]
      constructor <;> split <;> simp
  · intro msg module capability cbs appCtx hl hr
    refine ⟨?_, ?_⟩
    · intro e hc
      simp [Keeper.ChannelCloseConfirm, hl, hr, hc]
    · intro hc
      simp only [Keeper.ChannelCloseConfirm, hl, hr, hc]
      constructor <;> split <;> simp

/-- Witness of C16 on the demo chain, where the channel is OPEN (3): the refusing
module stops both handlers before the keeper step and the channel stays
OPEN; with the observing module the callback saw the channel OPEN and the
keeper step then closed it (4). -/
theorem channel_close_order_witness :
    (((Demo.handshakeKeeper Demo.refusingModule).ChannelCloseInit Demo.openCtx
          (Demo.msgCloseInit "channel-0")).err =
        some (.Wrap Demo.applicationCallbackError
          ("channel close init callback failed for port ID: " ++ "mock" ++
            ", channel ID: " ++ "channel-0")) ∧
      ((Demo.handshakeKeeper Demo.refusingModule).ChannelCloseInit Demo.openCtx
          (Demo.msgCloseInit "channel-0")).calls =
        [Call.LookupModuleByChannel "mock" "channel-0", Call.GetRoute "mock",
          Call.OnChanCloseInit "mock" "channel-0"] ∧
      KVStore.get ((Demo.handshakeKeeper Demo.refusingModule).ChannelCloseInit Demo.openCtx
          (Demo.msgCloseInit "channel-0")).ctx.store (Demo.stateKey "mock" "channel-0")
        = some [3]) ∧
    (((Demo.handshakeKeeper Demo.observingModule).ChannelCloseInit Demo.openCtx
          (Demo.msgCloseInit "channel-0")).calls =
        [Call.LookupModuleByChannel "mock" "channel-0", Call.GetRoute "mock",
          Call.OnChanCloseInit "mock" "channel-0",
          Call.ChanCloseInit "mock" "channel-0" Demo.chanCap] ∧
      KVStore.get ((Demo.handshakeKeeper Demo.observingModule).ChannelCloseInit Demo.openCtx
          (Demo.msgCloseInit "channel-0")).ctx.store (Demo.seenKey "OnChanCloseInit")
        = some [3] ∧
      KVStore.get ((Demo.handshakeKeeper Demo.observingModule).ChannelCloseInit Demo.openCtx
          (Demo.msgCloseInit "channel-0")).ctx.store (Demo.stateKey "mock" "channel-0")
        = some [4]) ∧
    (((Demo.handshakeKeeper Demo.refusingModule).ChannelCloseConfirm Demo.openCtx
          (Demo.msgCloseConfirm "channel-0")).err =
        some (.Wrap Demo.applicationCallbackError
          ("channel close confirm callback failed for port ID: " ++ "mock" ++
            ", channel ID: " ++ "channel-0")) ∧
      ((Demo.handshakeKeeper Demo.refusingModule).ChannelCloseConfirm Demo.openCtx
          (Demo.msgCloseConfirm "channel-0")).calls =
        [Call.LookupModuleByChannel "mock" "channel-0", Call.GetRoute "mock",
          Call.OnChanCloseConfirm "mock" "channel-0"]) ∧
    (((Demo.handshakeKeeper Demo.observingModule).ChannelCloseConfirm Demo.openCtx
          (Demo.msgCloseConfirm "channel-0")).calls =
        [Call.LookupModuleByChannel "mock" "channel-0", Call.GetRoute "mock",
          Call.OnChanCloseConfirm "mock" "channel-0",
          Call.ChanCloseConfirm "mock" "channel-0" Demo.chanCap [1] Demo.proofHeight] ∧
      KVStore.get ((Demo.handshakeKeeper Demo.observingModule).ChannelCloseConfirm
          Demo.openCtx (Demo.msgCloseConfirm "channel-0")).ctx.store
          (Demo.seenKey "OnChanCloseConfirm") = some [3]) :=
  have a := ((channel_close_order (Demo.handshakeKeeper Demo.refusingModule) Demo.openCtx).1
    (Demo.msgCloseInit "channel-0") "mock" Demo.chanCap Demo.refusingModule
    (Demo.observe Demo.openCtx "OnChanCloseInit" "mock" "channel-0") rfl rfl).1
    Demo.applicationCallbackError rfl
  have b := ((channel_close_order (Demo.handshakeKeeper Demo.observingModule) Demo.openCtx).1
    (Demo.msgCloseInit "channel-0") "mock" Demo.chanCap Demo.observingModule
    (Demo.observe Demo.openCtx "OnChanCloseInit" "mock" "channel-0") rfl rfl).2 rfl
  have c := ((channel_close_order (Demo.handshakeKeeper Demo.refusingModule) Demo.openCtx).2
    (Demo.msgCloseConfirm "channel-0") "mock" Demo.chanCap Demo.refusingModule
    (Demo.observe Demo.openCtx "OnChanCloseConfirm" "mock" "channel-0") rfl rfl).1
    Demo.applicationCallbackError rfl
  have d := ((channel_close_order (Demo.handshakeKeeper Demo.observingModule) Demo.openCtx).2
    (Demo.msgCloseConfirm "channel-0") "mock" Demo.chanCap Demo.observingModule
    (Demo.observe Demo.openCtx "OnChanCloseConfirm" "mock" "channel-0") rfl rfl).2 rfl
  ⟨⟨a.2.1, a.2.2.2, by decide⟩, ⟨b.1, by decide, by decide⟩, ⟨c.2.1, c.2.2.2⟩,
    ⟨d.1, by decide⟩⟩

/-- C17. `ChannelUpgradeInit`.  When the keeper step `ChanUpgradeInit` returns a
proposed upgrade, the channel is found and `OnChanUpgradeInit` returns a
version, then `WriteUpgradeInitChannel` is called once, last, with the
proposed upgrade in which only `Fields.Version` is replaced by that version
(ordering, connection hops, timeout and latest sequence unchanged); the
response carries the channel id of the message, the same upgrade and the
upgrade sequence of the channel, with a nil error.  When the keeper step or
the callback returns an error, the handler returns a nil response and that
error wrapped, and its calls end there, without `WriteUpgradeInitChannel`. -/
theorem ChannelUpgradeInit_proposal (k : Keeper) (ctx : Context)
    (msg : MsgChannelUpgradeInit) (module : String) (capability : Capability)
    (cbs : IBCModule) (keeperCtx : Context)
    (hLookup : k.ChannelKeeper.LookupModuleByChannel ctx msg.PortId msg.ChannelId
      = .ok (module, capability))
    (hRoute : k.Router.GetRoute module = some cbs) :
    (∀ (proposedUpgrade : Upgrade) (channel : Channel) (appCtx : Context),
      k.ChannelKeeper.ChanUpgradeInit ctx msg.PortId msg.ChannelId msg.Fields msg.Timeout
        = (keeperCtx, .ok proposedUpgrade) →
      k.ChannelKeeper.GetChannel keeperCtx msg.PortId msg.ChannelId = some channel →
      (∀ version, cbs.OnChanUpgradeInit keeperCtx msg.PortId msg.ChannelId
          proposedUpgrade.Fields.Ordering proposedUpgrade.Fields.ConnectionHops
          channel.UpgradeSequence proposedUpgrade.Fields.Version channel.Version
          = (appCtx, .ok version) →
        (k.ChannelUpgradeInit ctx msg).resp =
            some { ChannelId := msg.ChannelId,
                   Upgrade :=
                     { Fields := { Ordering := proposedUpgrade.Fields.Ordering,
                                   ConnectionHops := proposedUpgrade.Fields.ConnectionHops,
                                   Version := version },
                       Timeout := proposedUpgrade.Timeout,
                       LatestSequenceSend := proposedUpgrade.LatestSequenceSend },
                   UpgradeSequence := channel.UpgradeSequence } ∧
          (k.ChannelUpgradeInit ctx msg).err = none ∧
          (k.ChannelUpgradeInit ctx msg).ctx =
            k.ChannelKeeper.WriteUpgradeInitChannel appCtx msg.PortId msg.ChannelId
              { Fields := { Ordering := proposedUpgrade.Fields.Ordering,
                            ConnectionHops := proposedUpgrade.Fields.ConnectionHops,
                            Version := version },
                Timeout := proposedUpgrade.Timeout,
                LatestSequenceSend := proposedUpgrade.LatestSequenceSend } ∧
          (k.ChannelUpgradeInit ctx msg).calls =
            [Call.LookupModuleByChannel msg.PortId msg.ChannelId, Call.GetRoute module,
              Call.ChanUpgradeInit msg.PortId msg.ChannelId msg.Fields msg.Timeout,
              Call.GetChannel msg.PortId msg.ChannelId,
              Call.OnChanUpgradeInit msg.PortId msg.ChannelId proposedUpgrade.Fields.Ordering
                proposedUpgrade.Fields.ConnectionHops channel.UpgradeSequence
                proposedUpgrade.Fields.Version channel.Version,
              Call.WriteUpgradeInitChannel msg.PortId msg.ChannelId
                { Fields := { Ordering := proposedUpgrade.Fields.Ordering,
                              ConnectionHops := proposedUpgrade.Fields.ConnectionHops,
                              Version := version },
                  Timeout := proposedUpgrade.Timeout,
                  LatestSequenceSend := proposedUpgrade.LatestSequenceSend }]) ∧
      (∀ e, cbs.OnChanUpgradeInit keeperCtx msg.PortId msg.ChannelId
          proposedUpgrade.Fields.Ordering proposedUpgrade.Fields.ConnectionHops
          channel.UpgradeSequence proposedUpgrade.Fields.Version channel.Version
          = (appCtx, .error e) →
        (k.ChannelUpgradeInit ctx msg).resp = none ∧
          (k.ChannelUpgradeInit ctx msg).err =
            some (.Wrap e ("channel upgrade init callback failed for port ID: " ++
              msg.PortId ++ ", channel ID: " ++ msg.ChannelId)) ∧
          (k.ChannelUpgradeInit ctx msg).calls =
            [Call.LookupModuleByChannel msg.PortId msg.ChannelId, Call.GetRoute module,
              Call.ChanUpgradeInit msg.PortId msg.ChannelId msg.Fields msg.Timeout,
              Call.GetChannel msg.PortId msg.ChannelId,
              Call.OnChanUpgradeInit msg.PortId msg.ChannelId proposedUpgrade.Fields.Ordering
                proposedUpgrade.Fields.ConnectionHops channel.UpgradeSequence
                proposedUpgrade.Fields.Version channel.Version])) ∧
    (∀ e, k.ChannelKeeper.ChanUpgradeInit ctx msg.PortId msg.ChannelId msg.Fields msg.Timeout
        = (keeperCtx, .error e) →
      (k.ChannelUpgradeInit ctx msg).resp = none ∧
        (k.ChannelUpgradeInit ctx msg).err
          = some (.Wrap e "channel handshake upgrade init failed") ∧
        (k.ChannelUpgradeInit ctx msg).calls =
          [Call.LookupModuleByChannel msg.PortId msg.ChannelId, Call.GetRoute module,
            Call.ChanUpgradeInit msg.PortId msg.ChannelId msg.Fields msg.Timeout]) := by
  refine ⟨?_, ?_⟩
  · intro proposedUpgrade channel appCtx hk hg
    refine ⟨?_, ?_⟩
    · intro version hc
      simp [Keeper.ChannelUpgradeInit, hLookup, hRoute, hk, hg, hc]
    · intro e hc
      simp [Keeper.ChannelUpgradeInit, hLookup, hRoute, hk, hg, hc]
  · intro e hk
    simp [Keeper.ChannelUpgradeInit, hLookup, hRoute, hk]

/-- Witness of C17 on the demo chain: the message proposes the version
"mock-version-upgraded", the callback answers "mock-version-negotiated";
the stored and returned upgrade has that version and the ordering, hops and
timeout of the keeper's proposal.  With the refusing module, or with an
upgrade without timeout, an error is returned and nothing is stored. -/
theorem ChannelUpgradeInit_proposal_witness :
    (((Demo.handshakeKeeper Demo.observingModule).ChannelUpgradeInit Demo.sendCtx
          Demo.msgUpgradeInit).resp =
        some { ChannelId := "channel-0",
               Upgrade :=
                 { Fields := { Ordering := .ORDERED, ConnectionHops := ["connection-0"],
                               Version := "mock-version-negotiated" },
                   Timeout := Demo.msgUpgradeInit.Timeout,
                   LatestSequenceSend := 0 },
               UpgradeSequence := 0 } ∧
      ((Demo.handshakeKeeper Demo.observingModule).ChannelUpgradeInit Demo.sendCtx
          Demo.msgUpgradeInit).err = none ∧
      KVStore.get ((Demo.handshakeKeeper Demo.observingModule).ChannelUpgradeInit Demo.sendCtx
          Demo.msgUpgradeInit).ctx.store (Demo.upgradeKey "mock" "channel-0")
        = some (Demo.encodeFields .ORDERED "mock-version-negotiated")) ∧
    (((Demo.handshakeKeeper Demo.refusingModule).ChannelUpgradeInit Demo.sendCtx
          Demo.msgUpgradeInit).resp = none ∧
      ((Demo.handshakeKeeper Demo.refusingModule).ChannelUpgradeInit Demo.sendCtx
          Demo.msgUpgradeInit).err =
        some (.Wrap Demo.applicationCallbackError
          ("channel upgrade init callback failed for port ID: " ++ "mock" ++
            ", channel ID: " ++ "channel-0")) ∧
      ((Demo.handshakeKeeper Demo.refusingModule).ChannelUpgradeInit Demo.sendCtx
          Demo.msgUpgradeInit).ctx = Demo.sendCtx) ∧
    (((Demo.handshakeKeeper Demo.observingModule).ChannelUpgradeInit Demo.sendCtx
          { Demo.msgUpgradeInit with
            Timeout := { Height := { RevisionNumber := 0, RevisionHeight := 0 },
                         Timestamp := 0 } }).resp = none ∧
      ((Demo.handshakeKeeper Demo.observingModule).ChannelUpgradeInit Demo.sendCtx
          { Demo.msgUpgradeInit with
            Timeout := { Height := { RevisionNumber := 0, RevisionHeight := 0 },
                         Timestamp := 0 } }).err =
        some (.Wrap (.sentinel "ErrInvalidUpgradeTimeout")
          "channel handshake upgrade init failed")) :=
  have a := ((ChannelUpgradeInit_proposal (Demo.handshakeKeeper Demo.observingModule)
    Demo.sendCtx Demo.msgUpgradeInit "mock" Demo.chanCap Demo.observingModule Demo.sendCtx
    rfl rfl).1
    { Fields := Demo.msgUpgradeInit.Fields, Timeout := Demo.msgUpgradeInit.Timeout,
      LatestSequenceSend := 0 }
    { State := .OPEN, Ordering := .ORDERED,
      Counterparty := { PortId := "mock", ChannelId := "channel-0" },
      ConnectionHops := ["connection-0"], Version := "mock-version", UpgradeSequence := 0 }
    Demo.sendCtx rfl rfl).1 "mock-version-negotiated" rfl
  have b := ((ChannelUpgradeInit_proposal (Demo.handshakeKeeper Demo.refusingModule)
    Demo.sendCtx Demo.msgUpgradeInit "mock" Demo.chanCap Demo.refusingModule Demo.sendCtx
    rfl rfl).1
    { Fields := Demo.msgUpgradeInit.Fields, Timeout := Demo.msgUpgradeInit.Timeout,
      LatestSequenceSend := 0 }
    { State := .OPEN, Ordering := .ORDERED,
      Counterparty := { PortId := "mock", ChannelId := "channel-0" },
      ConnectionHops := ["connection-0"], Version := "mock-version", UpgradeSequence := 0 }
    Demo.sendCtx rfl rfl).2 Demo.applicationCallbackError rfl
  have c := (ChannelUpgradeInit_proposal (Demo.handshakeKeeper Demo.observingModule)
    Demo.sendCtx
    { Demo.msgUpgradeInit with
      Timeout := { Height := { RevisionNumber := 0, RevisionHeight := 0 }, Timestamp := 0 } }
    "mock" Demo.chanCap Demo.observingModule Demo.sendCtx rfl rfl).2
    (.sentinel "ErrInvalidUpgradeTimeout") rfl
  ⟨⟨a.1, a.2.1, by decide⟩, ⟨b.1, b.2.1, by decide⟩, ⟨c.1, c.2.1⟩⟩

/-! ## Interchain accounts -/

/-- The signer loop of `AuthenticateTx` returns nil exactly when every signer is
rendered as the account address, and `ErrUnauthorized` otherwise. -/
theorem Ica.AuthenticateTx.signers_spec (k : Ica.Keeper) (addr : String)
    (signers : List AccAddress) :
    (Ica.AuthenticateTx.signers k addr signers = none ↔
        ∀ signer ∈ signers, k.AccAddressString signer = addr) ∧
      (Ica.AuthenticateTx.signers k addr signers = none ∨
        Ica.AuthenticateTx.signers k addr signers = some Ica.ErrUnauthorized) := by
  induction signers with
  | nil => simp [Ica.AuthenticateTx.signers]
  | cons signer rest ih =>
    by_cases h : addr = k.AccAddressString signer
    · simp only [Ica.AuthenticateTx.signers, h, ne_eq, not_true_eq_false, if_false,
        List.mem_cons, forall_eq_or_imp, true_and]
      rw [← h]
      exact ih
    · have h' : ¬ k.AccAddressString signer = addr := fun e => h e.symm
      simp [Ica.AuthenticateTx.signers, h, h']

/-- The message loop of `AuthenticateTx` returns nil exactly when every signer of
every message is rendered as the account address, and `ErrUnauthorized`
otherwise. -/
theorem Ica.AuthenticateTx.msgs_spec (k : Ica.Keeper) (addr : String) (msgs : List Ica.Msg) :
    (Ica.AuthenticateTx.msgs k addr msgs = none ↔
        ∀ msg ∈ msgs, ∀ signer ∈ msg.GetSigners, k.AccAddressString signer = addr) ∧
      (Ica.AuthenticateTx.msgs k addr msgs = none ∨
        Ica.AuthenticateTx.msgs k addr msgs = some Ica.ErrUnauthorized) := by
  induction msgs with
  | nil => simp [Ica.AuthenticateTx.msgs]
  | cons msg rest ih =>
    have hs := Ica.AuthenticateTx.signers_spec k addr msg.GetSigners
    rcases hs.2 with h | h
    · simp only [Ica.AuthenticateTx.msgs, h, List.mem_cons, forall_eq_or_imp]
      refine ⟨?_, ih.2⟩
      rw [ih.1]
      exact ⟨fun hr => ⟨hs.1.mp h, hr⟩, fun hr => hr.2⟩
    · have hne : ¬ ∀ signer ∈ msg.GetSigners, k.AccAddressString signer = addr := by
        intro hall
        have := hs.1.mpr hall
        rw [h] at this
        cases this
      have hres : Ica.AuthenticateTx.msgs k addr (msg :: rest) = some Ica.ErrUnauthorized := by
        simp only [Ica.AuthenticateTx.msgs, h]
      rw [hres]
      refine ⟨⟨fun hc => Option.noConfusion hc, fun hr => ?_⟩, Or.inr rfl⟩
      exact absurd (fun signer hmem => hr msg (List.mem_cons_self _ _) signer hmem) hne

/-- C18. ICA `AuthenticateTx`: for every list of messages and every controller port
id it returns nil if and only if an interchain account address is registered
for the port and every signer of every message of the list, rendered as a
string, equals that address; in every other case it returns
`ErrUnauthorized`. -/
theorem Ica.AuthenticateTx_spec (k : Ica.Keeper) (ctx : Context) (msgs : List Ica.Msg)
    (portID : String) :
    (k.AuthenticateTx ctx msgs portID = none ↔
        ∃ addr, k.GetInterchainAccountAddress ctx portID = some addr ∧
          ∀ msg ∈ msgs, ∀ signer ∈ msg.GetSigners, k.AccAddressString signer = addr) ∧
      (k.AuthenticateTx ctx msgs portID = none ∨
        k.AuthenticateTx ctx msgs portID = some Ica.ErrUnauthorized) := by
  unfold Ica.Keeper.AuthenticateTx
  cases hfound : k.GetInterchainAccountAddress ctx portID with
  | none => simp
  | some addr =>
    have hm := Ica.AuthenticateTx.msgs_spec k addr msgs
    simp only [Option.some.injEq, exists_eq_left']
    exact hm

/-- The validation loop of `executeTx` passes when every message validates. -/
theorem Ica.executeTx.validate_ok (msgs : List Ica.Msg)
    (h : ∀ msg ∈ msgs, msg.ValidateBasic = none) : Ica.executeTx.validate msgs = none := by
  induction msgs with
  | nil => rfl
  | cons msg rest ih =>
    have h1 : msg.ValidateBasic = none := h msg (List.mem_cons_self _ _)
    have h2 : ∀ m ∈ rest, m.ValidateBasic = none :=
      fun m hm => h m (List.mem_cons_of_mem _ hm)
    simp [Ica.executeTx.validate, h1, ih h2]

/-- The execution loop of `executeTx` on messages that are all routed and
handled: it returns nil and leaves the state of the handlers run in order. -/
theorem Ica.executeTx.execute_ok (k : Ica.Keeper) (msgs : List Ica.Msg) :
    ∀ c : Context, Ica.allHandled k c msgs = true →
      Ica.executeTx.execute k c msgs = (Ica.runInOrder k c msgs, none) := by
  induction msgs with
  | nil => intro c _; rfl
  | cons msg rest ih =>
    intro c h
    simp only [Ica.allHandled] at h
    cases hh : k.msgRouterHandler msg with
    | none => simp [hh] at h
    | some handler =>
      simp only [hh] at h
      cases hr : (handler c msg).2 with
      | error e => simp [hr] at h
      | ok res =>
        simp only [hr] at h
        simp only [Ica.executeTx.execute, Ica.Keeper.executeMsg, Ica.runInOrder, hh, hr]
        exact ih _ h

/-- The execution loop of `executeTx` when some message is not routed or not
handled: the messages split at the first such message, the ones before it
ran in order, and the loop returns the error of that message. -/
theorem Ica.executeTx.execute_fail (k : Ica.Keeper) (msgs : List Ica.Msg) :
    ∀ c : Context, Ica.allHandled k c msgs = false →
      ∃ pre m post e, msgs = pre ++ m :: post ∧ Ica.allHandled k c pre = true ∧
        (k.executeMsg (Ica.runInOrder k c pre) m).2 = .error e ∧
        (k.msgRouterHandler m = none → e = Ica.ErrInvalidRoute) ∧
        (Ica.executeTx.execute k c msgs).2 = some e := by
  induction msgs with
  | nil => intro c h; simp [Ica.allHandled] at h
  | cons msg rest ih =>
    intro c h
    simp only [Ica.allHandled] at h
    cases hh : k.msgRouterHandler msg with
    | none =>
      refine ⟨[], msg, rest, Ica.ErrInvalidRoute, rfl, rfl, ?_, fun _ => rfl, ?_⟩
      · simp [Ica.Keeper.executeMsg, Ica.runInOrder, hh]
      · simp [Ica.executeTx.execute, Ica.Keeper.executeMsg, hh]
    | some handler =>
      simp only [hh] at h
      cases hr : (handler c msg).2 with
      | error e =>
        refine ⟨[], msg, rest, e, rfl, rfl, ?_, fun hn => ?_, ?_⟩
        · simp [Ica.Keeper.executeMsg, Ica.runInOrder, hh, hr]
        · rw [hh] at hn
          cases hn
        · simp [Ica.executeTx.execute, Ica.Keeper.executeMsg, hh, hr]
      | ok res =>
        simp only [hr] at h
        obtain ⟨pre, m, post, e, hsplit, hpre, hm, hroute, hexec⟩ := ih _ h
        refine ⟨msg :: pre, m, post, e, ?_, ?_, ?_, hroute, ?_⟩
        · simp [hsplit]
        · simp [Ica.allHandled, hh, hr, hpre]
        · simpa [Ica.runInOrder, hh] using hm
        · simpa [Ica.executeTx.execute, Ica.Keeper.executeMsg, hh, hr] using hexec

/-- C19. ICA `executeTx` is all-or-nothing.  For a list of messages that passes
authentication and basic validation: if every message has a route and its
handler succeeds, `executeTx` returns nil and the state it leaves is the
state obtained by running the handlers in list order (on the branch, then
written back); if some message has no route or its handler fails,
`executeTx` returns the error of the first such message (`ErrInvalidRoute`
when it has no route) and the context is the one before the call, although
the messages before the failing one were executed on the branch. -/
theorem Ica.executeTx_all_or_nothing (k : Ica.Keeper) (ctx : Context)
    (sourcePort destPort destChannel : String) (msgs : List Ica.Msg)
    (hAuth : k.AuthenticateTx ctx msgs sourcePort = none)
    (hValid : ∀ msg ∈ msgs, msg.ValidateBasic = none) :
    (Ica.allHandled k ctx.CacheContext msgs = true →
      k.executeTx ctx sourcePort destPort destChannel msgs
          = (ctx.writeFn (Ica.runInOrder k ctx.CacheContext msgs), none) ∧
        (k.executeTx ctx sourcePort destPort destChannel msgs).1.store
          = (Ica.runInOrder k ctx.CacheContext msgs).store) ∧
    (Ica.allHandled k ctx.CacheContext msgs = false →
      (k.executeTx ctx sourcePort destPort destChannel msgs).1 = ctx ∧
        ∃ pre m post e, msgs = pre ++ m :: post ∧
          Ica.allHandled k ctx.CacheContext pre = true ∧
          (k.executeMsg (Ica.runInOrder k ctx.CacheContext pre) m).2 = .error e ∧
          (k.msgRouterHandler m = none → e = Ica.ErrInvalidRoute) ∧
          (k.executeTx ctx sourcePort destPort destChannel msgs).2 = some e) := by
  have hv := Ica.executeTx.validate_ok msgs hValid
  constructor
  · intro h
    have he := Ica.executeTx.execute_ok k msgs ctx.CacheContext h
    simp [Ica.Keeper.executeTx, hAuth, hv, he, Context.writeFn]
  · intro h
    obtain ⟨pre, m, post, e, hsplit, hpre, hm, hroute, hexec⟩ :=
      Ica.executeTx.execute_fail k msgs ctx.CacheContext h
    have hres : k.executeTx ctx sourcePort destPort destChannel msgs = (ctx, some e) := by
      simp [Ica.Keeper.executeTx, hAuth, hv, hexec]
    exact ⟨by rw [hres], pre, m, post, e, hsplit, hpre, hm, hroute, by rw [hres]⟩

/-- Witness of C19 on the demo chain.  Two routed messages: the state is the one
of the second write.  A routed message followed by a failing one, or by one
without route: the error is returned and the state is the one before the
call, although the first message wrote "demo/value" on the branch. -/
theorem Ica.executeTx_all_or_nothing_witness :
    (Demo.icaKeeper.executeTx Demo.hostCtx "icacontroller-owner" "icahost" "channel-0"
          [Demo.icaMsg "/demo.MsgSet" [1], Demo.icaMsg "/demo.MsgSet" [2]]
        = (Demo.hostCtx.writeFn (Ica.runInOrder Demo.icaKeeper Demo.hostCtx.CacheContext
            [Demo.icaMsg "/demo.MsgSet" [1], Demo.icaMsg "/demo.MsgSet" [2]]), none) ∧
      KVStore.get (Demo.icaKeeper.executeTx Demo.hostCtx "icacontroller-owner" "icahost"
          "channel-0" [Demo.icaMsg "/demo.MsgSet" [1], Demo.icaMsg "/demo.MsgSet" [2]]).1.store
          "demo/value" = some [2]) ∧
    (KVStore.get (Ica.runInOrder Demo.icaKeeper Demo.hostCtx.CacheContext
          [Demo.icaMsg "/demo.MsgSet" [1]]).store "demo/value" = some [1] ∧
      (Demo.icaKeeper.executeTx Demo.hostCtx "icacontroller-owner" "icahost" "channel-0"
          [Demo.icaMsg "/demo.MsgSet" [1], Demo.icaMsg "/demo.MsgFail" []]).1
        = Demo.hostCtx ∧
      (Demo.icaKeeper.executeTx Demo.hostCtx "icacontroller-owner" "icahost" "channel-0"
          [Demo.icaMsg "/demo.MsgSet" [1], Demo.icaMsg "/demo.MsgFail" []]).2
        = some (.sentinel "ErrDemoHandler")) ∧
    ((Demo.icaKeeper.executeTx Demo.hostCtx "icacontroller-owner" "icahost" "channel-0"
          [Demo.icaMsg "/demo.MsgSet" [1], Demo.icaMsg "/demo.MsgUnknown" []]).1
        = Demo.hostCtx ∧
      (Demo.icaKeeper.executeTx Demo.hostCtx "icacontroller-owner" "icahost" "channel-0"
          [Demo.icaMsg "/demo.MsgSet" [1], Demo.icaMsg "/demo.MsgUnknown" []]).2
        = some Ica.ErrInvalidRoute) :=
  have a := (Ica.executeTx_all_or_nothing Demo.icaKeeper Demo.hostCtx "icacontroller-owner"
    "icahost" "channel-0" [Demo.icaMsg "/demo.MsgSet" [1], Demo.icaMsg "/demo.MsgSet" [2]]
    (by decide) (by decide)).1 (by decide)
  have b := (Ica.executeTx_all_or_nothing Demo.icaKeeper Demo.hostCtx "icacontroller-owner"
    "icahost" "channel-0" [Demo.icaMsg "/demo.MsgSet" [1], Demo.icaMsg "/demo.MsgFail" []]
    (by decide) (by decide)).2 (by decide)
  have c := (Ica.executeTx_all_or_nothing Demo.icaKeeper Demo.hostCtx "icacontroller-owner"
    "icahost" "channel-0" [Demo.icaMsg "/demo.MsgSet" [1], Demo.icaMsg "/demo.MsgUnknown" []]
    (by decide) (by decide)).2 (by decide)
  ⟨⟨a.1, by decide⟩, ⟨by decide, b.1, by decide⟩, ⟨c.1, by decide⟩⟩

/-! ## Wasm code validation -/

/-- C20. `ValidateWasmCode` size range: for every byte string `code` it returns
`ErrWasmEmptyCode` iff `len(code) = 0`, it returns `ErrWasmCodeTooLarge` iff
`len(code) > MaxWasmByteSize()`, where `MaxWasmByteSize() = 3*1024*1024 =
3145728`, and it returns nil iff `1 <= len(code) <= 3145728`; a code of
exactly the maximum size is accepted. -/
theorem Wasm.ValidateWasmCode_size_range :
    Wasm.MaxWasmByteSize = 3 * 1024 * 1024 ∧ Wasm.MaxWasmByteSize = 3145728 ∧
    (∀ code : Bytes,
      (Wasm.ValidateWasmCode code = some Wasm.ErrWasmEmptyCode ↔ code.length = 0) ∧
        (Wasm.ValidateWasmCode code = some Wasm.ErrWasmCodeTooLarge ↔
          code.length > Wasm.MaxWasmByteSize) ∧
        (Wasm.ValidateWasmCode code = none ↔ 1 ≤ code.length ∧ code.length ≤ 3145728)) ∧
    Wasm.ValidateWasmCode (List.replicate 3145728 0) = none := by
  have hmax : Wasm.MaxWasmByteSize = 3145728 := by
    simp [Wasm.MaxWasmByteSize, Wasm.maxWasmSize]
  have hne : Wasm.ErrWasmCodeTooLarge ≠ Wasm.ErrWasmEmptyCode := by decide
  have hspec : ∀ code : Bytes,
      (Wasm.ValidateWasmCode code = some Wasm.ErrWasmEmptyCode ↔ code.length = 0) ∧
        (Wasm.ValidateWasmCode code = some Wasm.ErrWasmCodeTooLarge ↔
          code.length > Wasm.MaxWasmByteSize) ∧
        (Wasm.ValidateWasmCode code = none ↔ 1 ≤ code.length ∧ code.length ≤ 3145728) := by
    intro code
    rw [hmax]
    have hsize : Wasm.maxWasmSize = 3145728 := by simp [Wasm.maxWasmSize]
    by_cases h0 : code.length = 0
    · have hv : Wasm.ValidateWasmCode code = some Wasm.ErrWasmEmptyCode := by
        simp [Wasm.ValidateWasmCode, h0]
      rw [hv]
      refine ⟨⟨fun _ => h0, fun _ => rfl⟩, ⟨fun h => ?_, fun h => ?_⟩,
        ⟨fun h => Option.noConfusion h, fun h => ?_⟩⟩
      · exact absurd (Option.some.inj h).symm hne
      · omega
      · omega
    · by_cases h1 : code.length > 3145728
      · have hv : Wasm.ValidateWasmCode code = some Wasm.ErrWasmCodeTooLarge := by
          simp [Wasm.ValidateWasmCode, h0, h1, hsize]
        rw [hv]
        refine ⟨⟨fun h => ?_, fun h => absurd h h0⟩, ⟨fun _ => h1, fun _ => rfl⟩,
          ⟨fun h => Option.noConfusion h, fun h => ?_⟩⟩
        · exact absurd (Option.some.inj h) hne
        · omega
      · have hv : Wasm.ValidateWasmCode code = none := by
          simp [Wasm.ValidateWasmCode, h0, h1, hsize]
        rw [hv]
        refine ⟨⟨fun h => Option.noConfusion h, fun h => absurd h h0⟩,
          ⟨fun h => Option.noConfusion h, fun h => absurd h h1⟩, ⟨fun _ => ?_, fun _ => rfl⟩⟩
        omega
  refine ⟨by rw [hmax], hmax, hspec, ?_⟩
  have hlen : (List.replicate 3145728 (0 : Nat)).length = 3145728 := List.length_replicate _ _
  exact (hspec (List.replicate 3145728 0)).2.2.mpr (by rw [hlen]; omega)

/-! ## Wasm light client -/

/-- C21, the code at a failing input.  `ValidateWasmCode` looks at the length of the
code only: the four bytes 1, 2, 3, 4 are not empty, within the size limit and
do not start with the wasm magic bytes, and the function returns nil; it
returns the same for every code of that length. -/
theorem Wasm.ValidateWasmCode_ignores_contents :
    (([1, 2, 3, 4] : Bytes).take 4 ≠ Wasm.wasmMagic) ∧
      Wasm.bytes.HasPrefix [1, 2, 3, 4] Wasm.wasmMagic = false ∧
      Wasm.ValidateWasmCode [1, 2, 3, 4] = none ∧
      (∀ code code' : Bytes, code.length = code'.length →
        Wasm.ValidateWasmCode code = Wasm.ValidateWasmCode code') := by
  refine ⟨by decide, by decide, by decide, ?_⟩
  intro code code' h
  simp [Wasm.ValidateWasmCode, h]

/-- C22. `ValidateWasmCodeHash`: for every byte string it returns nil if and only if
the length is 32, and otherwise an error wrapping `ErrInvalidCodeHash`. -/
theorem Wasm.ValidateWasmCodeHash_spec (codeHash : Bytes) :
    (Wasm.ValidateWasmCodeHash codeHash = none ↔ codeHash.length = 32) ∧
      (Wasm.ValidateWasmCodeHash codeHash = none ∨
        ∃ description, Wasm.ValidateWasmCodeHash codeHash
          = some (.Wrap Wasm.ErrInvalidCodeHash description)) := by
  unfold Wasm.ValidateWasmCodeHash
  by_cases h0 : codeHash.length = 0
  · simp [h0]
  · by_cases h32 : codeHash.length = 32
    · simp [h32]
    · simp [h0, h32]

/-- C23, the code at a failing input.  `NewConsensusState` drops its timestamp and
`GetTimestamp` returns 0 for every consensus state: built with the timestamp
1700000000000000000 the consensus state reports 0. -/
theorem Wasm.ConsensusState_timestamp_dropped :
    (∀ (data : Bytes) (timestamp : Nat),
        (Wasm.NewConsensusState data timestamp).GetTimestamp = 0) ∧
      (∀ (data : Bytes) (t t' : Nat),
        Wasm.NewConsensusState data t = Wasm.NewConsensusState data t') ∧
      (Wasm.NewConsensusState [1] 1700000000000000000).GetTimestamp
        ≠ 1700000000000000000 := by
  refine ⟨fun _ _ => rfl, fun _ _ _ => rfl, by decide⟩

/-- A byte string that starts with `pre` has the prefix `pre`. -/
theorem Wasm.bytes.HasPrefix_append (pre rest : Bytes) :
    Wasm.bytes.HasPrefix (pre ++ rest) pre = true := by
  simp [Wasm.bytes.HasPrefix]

/-- Trimming `pre` from `pre ++ rest` leaves `rest`. -/
theorem Wasm.bytes.TrimPrefix_append (pre rest : Bytes) :
    Wasm.bytes.TrimPrefix (pre ++ rest) pre = rest := by
  simp [Wasm.bytes.TrimPrefix, Wasm.bytes.HasPrefix_append]

/-- Reading an in-memory store after a write of the same key gives the value. -/
theorem Wasm.MemStore.get_set (s : Wasm.MemStore) (key value : Bytes) :
    storetypes.KVStore.Get (storetypes.KVStore.Set s key value) key = some value := by
  simp [storetypes.KVStore.Get, storetypes.KVStore.Set, Wasm.MemStore.get]

/-- C24. `updateProposalWrappedStore` routes by key prefix.  For every key
`subjectPrefix ++ rest`, `Get`, `Has`, `Set` and `Delete` act on the subject
store at `rest` and leave the substitute store and both prefixes unchanged.
For every key `substitutePrefix ++ rest` that does not start with
`subjectPrefix`, they act on the substitute store at `rest` and leave the
subject store and both prefixes unchanged.  Consequently, on stores where
`Get` after `Set` returns the value, `Get(k)` after `Set(k, v)` returns `v`
for every such key. -/
theorem Wasm.updateProposalWrappedStore_routes {σ : Type} [Wasm.storetypes.KVStore σ]
    (ws : Wasm.updateProposalWrappedStore σ) (rest value : Bytes) :
    (ws.Get (ws.subjectPrefix ++ rest) = storetypes.KVStore.Get ws.subjectStore rest ∧
      ws.Has (ws.subjectPrefix ++ rest) = storetypes.KVStore.Has ws.subjectStore rest ∧
      ws.Set (ws.subjectPrefix ++ rest) value =
        { subjectStore := storetypes.KVStore.Set ws.subjectStore rest value,
          substituteStore := ws.substituteStore,
          subjectPrefix := ws.subjectPrefix, substitutePrefix := ws.substitutePrefix } ∧
      ws.Delete (ws.subjectPrefix ++ rest) =
        { subjectStore := storetypes.KVStore.Delete ws.subjectStore rest,
          substituteStore := ws.substituteStore,
          subjectPrefix := ws.subjectPrefix, substitutePrefix := ws.substitutePrefix } ∧
      ((∀ (s : σ) (k v : Bytes),
          storetypes.KVStore.Get (storetypes.KVStore.Set s k v) k = some v) →
        (ws.Set (ws.subjectPrefix ++ rest) value).Get (ws.subjectPrefix ++ rest)
          = some value)) ∧
    (Wasm.bytes.HasPrefix (ws.substitutePrefix ++ rest) ws.subjectPrefix = false →
      ws.Get (ws.substitutePrefix ++ rest) = storetypes.KVStore.Get ws.substituteStore rest ∧
        ws.Has (ws.substitutePrefix ++ rest)
          = storetypes.KVStore.Has ws.substituteStore rest ∧
        ws.Set (ws.substitutePrefix ++ rest) value =
          { subjectStore := ws.subjectStore,
            substituteStore := storetypes.KVStore.Set ws.substituteStore rest value,
            subjectPrefix := ws.subjectPrefix, substitutePrefix := ws.substitutePrefix } ∧
        ws.Delete (ws.substitutePrefix ++ rest) =
          { subjectStore := ws.subjectStore,
            substituteStore := storetypes.KVStore.Delete ws.substituteStore rest,
            subjectPrefix := ws.subjectPrefix, substitutePrefix := ws.substitutePrefix } ∧
        ((∀ (s : σ) (k v : Bytes),
            storetypes.KVStore.Get (storetypes.KVStore.Set s k v) k = some v) →
          (ws.Set (ws.substitutePrefix ++ rest) value).Get (ws.substitutePrefix ++ rest)
            = some value)) := by
  constructor
  · have hp := Wasm.bytes.HasPrefix_append ws.subjectPrefix rest
    have ht := Wasm.bytes.TrimPrefix_append ws.subjectPrefix rest
    have hset : ws.Set (ws.subjectPrefix ++ rest) value =
        { subjectStore := storetypes.KVStore.Set ws.subjectStore rest value,
          substituteStore := ws.substituteStore,
          subjectPrefix := ws.subjectPrefix, substitutePrefix := ws.substitutePrefix } := by
      simp [Wasm.updateProposalWrappedStore.Set, Wasm.updateProposalWrappedStore.putStore,
        Wasm.updateProposalWrappedStore.getStore, Wasm.updateProposalWrappedStore.trimPrefix,
        hp, ht]
    refine ⟨?_, ?_, hset, ?_, ?_⟩
    · simp [Wasm.updateProposalWrappedStore.Get, Wasm.updateProposalWrappedStore.getStore,
        Wasm.updateProposalWrappedStore.trimPrefix, hp, ht]
    · simp [Wasm.updateProposalWrappedStore.Has, Wasm.updateProposalWrappedStore.getStore,
        Wasm.updateProposalWrappedStore.trimPrefix, hp, ht]
    · simp [Wasm.updateProposalWrappedStore.Delete, Wasm.updateProposalWrappedStore.putStore,
        Wasm.updateProposalWrappedStore.getStore, Wasm.updateProposalWrappedStore.trimPrefix,
        hp, ht]
    · intro hLaw
      rw [hset]
      simp [Wasm.updateProposalWrappedStore.Get, Wasm.updateProposalWrappedStore.getStore,
        Wasm.updateProposalWrappedStore.trimPrefix, hp, ht, hLaw]
  · intro hn
    have hp := Wasm.bytes.HasPrefix_append ws.substitutePrefix rest
    have ht := Wasm.bytes.TrimPrefix_append ws.substitutePrefix rest
    have hset : ws.Set (ws.substitutePrefix ++ rest) value =
        { subjectStore := ws.subjectStore,
          substituteStore := storetypes.KVStore.Set ws.substituteStore rest value,
          subjectPrefix := ws.subjectPrefix, substitutePrefix := ws.substitutePrefix } := by
      simp [Wasm.updateProposalWrappedStore.Set, Wasm.updateProposalWrappedStore.putStore,
        Wasm.updateProposalWrappedStore.getStore, Wasm.updateProposalWrappedStore.trimPrefix,
        hn, ht]
    refine ⟨?_, ?_, hset, ?_, ?_⟩
    · simp [Wasm.updateProposalWrappedStore.Get, Wasm.updateProposalWrappedStore.getStore,
        Wasm.updateProposalWrappedStore.trimPrefix, hn, ht]
    · simp [Wasm.updateProposalWrappedStore.Has, Wasm.updateProposalWrappedStore.getStore,
        Wasm.updateProposalWrappedStore.trimPrefix, hn, ht]
    · simp [Wasm.updateProposalWrappedStore.Delete, Wasm.updateProposalWrappedStore.putStore,
        Wasm.updateProposalWrappedStore.getStore, Wasm.updateProposalWrappedStore.trimPrefix,
        hn, ht]
    · intro hLaw
      rw [hset]
      simp [Wasm.updateProposalWrappedStore.Get, Wasm.updateProposalWrappedStore.getStore,
        Wasm.updateProposalWrappedStore.trimPrefix, hn, ht, hLaw]

/-- A split is never empty. -/
theorem Wasm.stringsSplit_ne_nil (sep : Nat) (l : Bytes) : Wasm.stringsSplit sep l ≠ [] := by
  cases l with
  | nil => simp [Wasm.stringsSplit]
  | cons b rest =>
    by_cases h : b = sep
    · simp [Wasm.stringsSplit, h]
    · simp only [Wasm.stringsSplit, h, if_false]
      split <;> simp

/-- A byte string without separator is its own single segment. -/
theorem Wasm.stringsSplit_of_not_mem (sep : Nat) (l : Bytes) (h : sep ∉ l) :
    Wasm.stringsSplit sep l = [l] := by
  induction l with
  | nil => rfl
  | cons b rest ih =>
    have hb : b ≠ sep := fun e => h (by simp [e])
    have hr : sep ∉ rest := fun m => h (List.mem_cons_of_mem _ m)
    simp [Wasm.stringsSplit, hb, ih hr]

/-- Splitting distributes over a separator. -/
theorem Wasm.stringsSplit_append (sep : Nat) (a b : Bytes) :
    Wasm.stringsSplit sep (a ++ sep :: b)
      = Wasm.stringsSplit sep a ++ Wasm.stringsSplit sep b := by
  induction a with
  | nil => simp [Wasm.stringsSplit]
  | cons x rest ih =>
    by_cases h : x = sep
    · simp [Wasm.stringsSplit, h, ih]
    · simp only [List.cons_append, Wasm.stringsSplit, h, if_false]
      have ih' : Wasm.stringsSplit sep (rest.append (sep :: b))
          = Wasm.stringsSplit sep rest ++ Wasm.stringsSplit sep b := ih
      rw [ih']
      cases hs : Wasm.stringsSplit sep rest with
      | nil => exact absurd hs (Wasm.stringsSplit_ne_nil sep rest)
      | cons seg segs => simp

/-- The split of a prefix of the form `placeholder/clientID/`. -/
theorem Wasm.stringsSplit_expected_form (placeholder clientID : Bytes) (h : 47 ∉ clientID) :
    Wasm.stringsSplit 47 (placeholder ++ [47] ++ clientID ++ [47])
      = Wasm.stringsSplit 47 placeholder ++ [clientID, []] := by
  have e : placeholder ++ [47] ++ clientID ++ [47]
      = placeholder ++ 47 :: (clientID ++ 47 :: []) := by simp
  rw [e, Wasm.stringsSplit_append, Wasm.stringsSplit_append,
    Wasm.stringsSplit_of_not_mem 47 clientID h]
  simp [Wasm.stringsSplit]

/-- C25. `getClientID` on a prefix store.  For every prefix of the form
`placeholder/clientID/`, where `clientID` holds no '/' (byte 47) and starts
with "08-wasm", it returns `clientID`.  For every prefix it returns an error
wrapping `ErrRetrieveClientID` when the prefix splits on '/' into fewer than
3 segments or when the second-to-last segment does not start with "08-wasm";
a store that is no prefix store gives such an error too.  Whenever it
succeeds on a prefix store, the result is the second-to-last segment.  For
an `updateProposalWrappedStore` the result is the one for its subject
store, whatever the substitute store is. -/
theorem Wasm.getClientID_spec :
    (∀ (parent : Wasm.ClientStore) (placeholder clientID : Bytes),
      47 ∉ clientID → Wasm.bytes.HasPrefix clientID Wasm.exportedWasm = true →
      Wasm.getClientID (.prefixStore parent (placeholder ++ [47] ++ clientID ++ [47]))
        = .ok clientID) ∧
    (∀ (parent : Wasm.ClientStore) (storePrefix : Bytes),
      (Wasm.stringsSplit 47 storePrefix).length < 3 →
      Wasm.getClientID (.prefixStore parent storePrefix)
        = .error (.Wrap Wasm.ErrRetrieveClientID "prefix is not of the expected form")) ∧
    (∀ (parent : Wasm.ClientStore) (storePrefix : Bytes),
      3 ≤ (Wasm.stringsSplit 47 storePrefix).length →
      Wasm.bytes.HasPrefix
        ((Wasm.stringsSplit 47 storePrefix).getD
          ((Wasm.stringsSplit 47 storePrefix).length - 2) []) Wasm.exportedWasm = false →
      Wasm.getClientID (.prefixStore parent storePrefix)
        = .error (.Wrap Wasm.ErrRetrieveClientID
            "prefix does not contain a 08-wasm clientID")) ∧
    (∀ entries : Wasm.MemStore,
      Wasm.getClientID (.other entries)
        = .error (.Wrap Wasm.ErrRetrieveClientID "clientStore is not a prefix store")) ∧
    (∀ (parent : Wasm.ClientStore) (storePrefix clientID : Bytes),
      Wasm.getClientID (.prefixStore parent storePrefix) = .ok clientID →
      3 ≤ (Wasm.stringsSplit 47 storePrefix).length ∧
        clientID = (Wasm.stringsSplit 47 storePrefix).getD
          ((Wasm.stringsSplit 47 storePrefix).length - 2) [] ∧
        Wasm.bytes.HasPrefix clientID Wasm.exportedWasm = true) ∧
    (∀ (ws : Wasm.updateProposalWrappedStore Wasm.ClientStore) (parent : Wasm.ClientStore)
        (storePrefix : Bytes),
      ws.subjectStore = .prefixStore parent storePrefix →
      Wasm.getClientID (.updateProposalWrappedStore ws)
        = Wasm.getClientID (.prefixStore parent storePrefix)) := by
  refine ⟨?_, ?_, ?_, ?_, ?_, ?_⟩
  · intro parent placeholder clientID hsep hwasm
    have hsplit := Wasm.stringsSplit_expected_form placeholder clientID hsep
    have hne := Wasm.stringsSplit_ne_nil 47 placeholder
    have hlen : 1 ≤ (Wasm.stringsSplit 47 placeholder).length := by
      cases hp : Wasm.stringsSplit 47 placeholder with
      | nil => exact absurd hp hne
      | cons a b => simp
    have hget : (Wasm.stringsSplit 47 placeholder ++ [clientID, []]).getD
        ((Wasm.stringsSplit 47 placeholder ++ [clientID, []]).length - 2) [] = clientID := by
      have e : (Wasm.stringsSplit 47 placeholder ++ [clientID, []]).length - 2
          = (Wasm.stringsSplit 47 placeholder).length := by simp
      rw [e, List.getD_eq_getElem?_getD, List.getElem?_append_right (le_refl _)]
      simp
    have hlen3 : ¬ (Wasm.stringsSplit 47 placeholder ++ [clientID, []]).length < 3 := by
      simp only [List.length_append, List.length_cons, List.length_nil]
      omega
    simp only [Wasm.getClientID, Wasm.getClientID.fromPrefix, hsplit, hlen3, if_false, hget,
      hwasm]
    rfl
  · intro parent storePrefix hlen
    simp [Wasm.getClientID, Wasm.getClientID.fromPrefix, hlen]
  · intro parent storePrefix hlen hwasm
    have hlen3 : ¬ (Wasm.stringsSplit 47 storePrefix).length < 3 := by omega
    simp only [Wasm.getClientID, Wasm.getClientID.fromPrefix, hlen3, if_false]
    rw [hwasm]
    simp
  · intro entries
    rfl
  · intro parent storePrefix clientID hok
    simp only [Wasm.getClientID, Wasm.getClientID.fromPrefix] at hok
    by_cases hlen : (Wasm.stringsSplit 47 storePrefix).length < 3
    · simp [hlen] at hok
    · simp only [hlen, if_false] at hok
      cases hw : Wasm.bytes.HasPrefix
          ((Wasm.stringsSplit 47 storePrefix).getD
            ((Wasm.stringsSplit 47 storePrefix).length - 2) []) Wasm.exportedWasm with
      | false =>
        rw [hw] at hok
        simp at hok
      | true =>
        rw [hw] at hok
        simp only [Bool.not_true, Bool.false_eq_true, if_false] at hok
        have e := Except.ok.inj hok
        refine ⟨by omega, e.symm, ?_⟩
        rw [← e]
        exact hw
  · intro ws parent storePrefix hsub
    simp [Wasm.getClientID, hsub]

/-- Witness of C24 on two in-memory stores that both hold the key [9]: the key
"1/" ++ [9] reads and writes the subject store, the key "2/" ++ [9] the
substitute store, and a read after a write returns the written value. -/
theorem Wasm.updateProposalWrappedStore_routes_witness :
    (Demo.wrappedStore.Get ([1, 47] ++ [9]) = some [10] ∧
      (Demo.wrappedStore.Set ([1, 47] ++ [9]) [7]).Get ([1, 47] ++ [9]) = some [7] ∧
      (Demo.wrappedStore.Set ([1, 47] ++ [9]) [7]).substituteStore
        = Demo.wrappedStore.substituteStore ∧
      (Demo.wrappedStore.Delete ([1, 47] ++ [9])).Get ([1, 47] ++ [9]) = none ∧
      (Demo.wrappedStore.Delete ([1, 47] ++ [9])).Get ([2, 47] ++ [9]) = some [20]) ∧
    (Wasm.bytes.HasPrefix ([2, 47] ++ [9]) [1, 47] = false ∧
      Demo.wrappedStore.Get ([2, 47] ++ [9]) = some [20] ∧
      (Demo.wrappedStore.Set ([2, 47] ++ [9]) [7]).Get ([2, 47] ++ [9]) = some [7] ∧
      (Demo.wrappedStore.Set ([2, 47] ++ [9]) [7]).subjectStore
        = Demo.wrappedStore.subjectStore) :=
  have h := Wasm.updateProposalWrappedStore_routes Demo.wrappedStore [9] [7]
  have hs := h.2 rfl
  have e1 := congrArg (fun w => Wasm.updateProposalWrappedStore.substituteStore w) h.1.2.2.1
  have e2 := congrArg (fun w => Wasm.updateProposalWrappedStore.subjectStore w) hs.2.2.1
  ⟨⟨h.1.1, h.1.2.2.2.2 Wasm.MemStore.get_set,
      e1, by decide, by decide⟩,
    ⟨rfl, hs.1, hs.2.2.2.2 Wasm.MemStore.get_set, e2⟩⟩

/-- Witness of C25: the prefix "clients/08-wasm-0/" gives "08-wasm-0", also
through a wrapped store whose subject store has that prefix; the prefix
"clients/07-tendermint-0/" and the prefix "08-wasm-0/" give an error. -/
theorem Wasm.getClientID_spec_witness :
    Wasm.getClientID (Demo.clientStore Demo.wasmClientID) = .ok Demo.wasmClientID ∧
      Wasm.getClientID (.updateProposalWrappedStore
          (Wasm.newUpdateProposalWrappedStore (Demo.clientStore Demo.wasmClientID)
            (Demo.clientStore Demo.tendermintClientID) [1, 47] [2, 47]))
        = Wasm.getClientID (Demo.clientStore Demo.wasmClientID) ∧
      Wasm.getClientID (Demo.clientStore Demo.tendermintClientID)
        = .error (.Wrap Wasm.ErrRetrieveClientID
            "prefix does not contain a 08-wasm clientID") ∧
      Wasm.getClientID (.prefixStore (.other []) (Demo.wasmClientID ++ [47]))
        = .error (.Wrap Wasm.ErrRetrieveClientID "prefix is not of the expected form") :=
  ⟨Wasm.getClientID_spec.1 (.other []) Demo.clientsBytes Demo.wasmClientID (by decide) rfl,
    Wasm.getClientID_spec.2.2.2.2.2
      (Wasm.newUpdateProposalWrappedStore (Demo.clientStore Demo.wasmClientID)
        (Demo.clientStore Demo.tendermintClientID) [1, 47] [2, 47])
      (.other []) (Demo.clientPrefix Demo.wasmClientID) rfl,
    Wasm.getClientID_spec.2.2.1 (.other []) (Demo.clientPrefix Demo.tendermintClientID)
      (by decide) rfl,
    Wasm.getClientID_spec.2.1 (.other []) (Demo.wasmClientID ++ [47]) (by decide)⟩

/-! ## Client handlers -/

/-- C26. SubmitMisbehaviour is redundant with UpdateClient: for every client
keeper, unpacking function, context, client id, packed client message and
signers, the two handlers leave the same context and return the same error;
the response is present in the one exactly when it is present in the other
(and exactly when there is no error); and the error is non-nil exactly when
unpacking fails or `ClientKeeper.UpdateClient` fails on the unpacked message.
On an unpack failure the context is the one given, otherwise it is the one
`ClientKeeper.UpdateClient` leaves. -/
theorem SubmitMisbehaviour_redundant_with_UpdateClient
    (ClientKeeper : ClientKeeper) (UnpackClientMessage : Any → Except Error ClientMessage)
    (ctx : Context) (clientID : String) (clientMsg : Any) (signer signer' : String) :
    (Keeper.SubmitMisbehaviour ClientKeeper UnpackClientMessage ctx
        { ClientId := clientID, Misbehaviour := clientMsg, Signer := signer' }).ctx
      = (Keeper.UpdateClient ClientKeeper UnpackClientMessage ctx
        { ClientId := clientID, ClientMessage := clientMsg, Signer := signer }).ctx ∧
    (Keeper.SubmitMisbehaviour ClientKeeper UnpackClientMessage ctx
        { ClientId := clientID, Misbehaviour := clientMsg, Signer := signer' }).err
      = (Keeper.UpdateClient ClientKeeper UnpackClientMessage ctx
        { ClientId := clientID, ClientMessage := clientMsg, Signer := signer }).err ∧
    (Keeper.SubmitMisbehaviour ClientKeeper UnpackClientMessage ctx
        { ClientId := clientID, Misbehaviour := clientMsg, Signer := signer' }).resp.isSome
      = (Keeper.UpdateClient ClientKeeper UnpackClientMessage ctx
        { ClientId := clientID, ClientMessage := clientMsg, Signer := signer }).resp.isSome ∧
    ((Keeper.UpdateClient ClientKeeper UnpackClientMessage ctx
        { ClientId := clientID, ClientMessage := clientMsg, Signer := signer }).resp.isSome = true
      ↔ (Keeper.UpdateClient ClientKeeper UnpackClientMessage ctx
        { ClientId := clientID, ClientMessage := clientMsg, Signer := signer }).err = none) ∧
    ((Keeper.UpdateClient ClientKeeper UnpackClientMessage ctx
        { ClientId := clientID, ClientMessage := clientMsg, Signer := signer }).err ≠ none
      ↔ (∃ err, UnpackClientMessage clientMsg = .error err) ∨
        (∃ m, UnpackClientMessage clientMsg = .ok m ∧
          (ClientKeeper.UpdateClient ctx clientID m).2 ≠ none)) ∧
    (∀ err, UnpackClientMessage clientMsg = .error err →
      (Keeper.UpdateClient ClientKeeper UnpackClientMessage ctx
        { ClientId := clientID, ClientMessage := clientMsg, Signer := signer })
        = ⟨none, some err, ctx⟩) ∧
    (∀ m, UnpackClientMessage clientMsg = .ok m →
      (Keeper.UpdateClient ClientKeeper UnpackClientMessage ctx
        { ClientId := clientID, ClientMessage := clientMsg, Signer := signer }).ctx
        = (ClientKeeper.UpdateClient ctx clientID m).1 ∧
      (Keeper.UpdateClient ClientKeeper UnpackClientMessage ctx
        { ClientId := clientID, ClientMessage := clientMsg, Signer := signer }).err
        = (ClientKeeper.UpdateClient ctx clientID m).2) := by
  unfold Keeper.SubmitMisbehaviour Keeper.UpdateClient
  cases hU : UnpackClientMessage clientMsg with
  | error err => simp
  | ok m =>
    cases hK : (ClientKeeper.UpdateClient ctx clientID m).2 with
    | none => simp [hK]
    | some err => simp [hK]

/-- Witness of C26 on the demo client keeper: the same packed client message
sent with either message type stores the same data under the client, and an
unknown type is refused by both with the same error and no state change. -/
theorem SubmitMisbehaviour_redundant_with_UpdateClient_witness :
    (Keeper.SubmitMisbehaviour Demo.clientKeeper Demo.unpackClientMessage Demo.recvCtx
        { ClientId := "08-wasm-0",
          Misbehaviour := { TypeUrl := "/ibc.ClientMessage", Value := [5] },
          Signer := "relayer" }).ctx
      = (Keeper.UpdateClient Demo.clientKeeper Demo.unpackClientMessage Demo.recvCtx
        { ClientId := "08-wasm-0",
          ClientMessage := { TypeUrl := "/ibc.ClientMessage", Value := [5] },
          Signer := "other" }).ctx ∧
    KVStore.get (Keeper.SubmitMisbehaviour Demo.clientKeeper Demo.unpackClientMessage
        Demo.recvCtx
        { ClientId := "08-wasm-0",
          Misbehaviour := { TypeUrl := "/ibc.ClientMessage", Value := [5] },
          Signer := "relayer" }).ctx.store "clients/08-wasm-0" = some [5] ∧
    (Keeper.SubmitMisbehaviour Demo.clientKeeper Demo.unpackClientMessage Demo.recvCtx
        { ClientId := "08-wasm-0", Misbehaviour := { TypeUrl := "/unknown", Value := [5] },
          Signer := "relayer" }).err
      = (Keeper.UpdateClient Demo.clientKeeper Demo.unpackClientMessage Demo.recvCtx
        { ClientId := "08-wasm-0", ClientMessage := { TypeUrl := "/unknown", Value := [5] },
          Signer := "other" }).err ∧
    (Keeper.UpdateClient Demo.clientKeeper Demo.unpackClientMessage Demo.recvCtx
        { ClientId := "08-wasm-0", ClientMessage := { TypeUrl := "/unknown", Value := [5] },
          Signer := "other" })
      = ⟨none, some (.sentinel "ErrUnpackAny"), Demo.recvCtx⟩ :=
  ⟨(SubmitMisbehaviour_redundant_with_UpdateClient Demo.clientKeeper Demo.unpackClientMessage
      Demo.recvCtx "08-wasm-0" { TypeUrl := "/ibc.ClientMessage", Value := [5] }
      "other" "relayer").1,
    by decide,
    (SubmitMisbehaviour_redundant_with_UpdateClient Demo.clientKeeper Demo.unpackClientMessage
      Demo.recvCtx "08-wasm-0" { TypeUrl := "/unknown", Value := [5] } "other" "relayer").2.1,
    (SubmitMisbehaviour_redundant_with_UpdateClient Demo.clientKeeper Demo.unpackClientMessage
      Demo.recvCtx "08-wasm-0" { TypeUrl := "/unknown", Value := [5] } "other"
      "relayer").2.2.2.2.2.1 (.sentinel "ErrUnpackAny") rfl⟩

/-! ## RecvPacket: order of the phases and events of a failed acknowledgement -/

/-- C27. RecvPacket phase ordering.  With the signer decoded, the module found
and routed: when the keeper verification fails, the context is the one given
(the verification branch is discarded) and `OnRecvPacket` is not called.  When
it succeeds with branch `taoCtx`, the message context becomes
`ctx.writeFn taoCtx`, whose store is the store of the verification branch, and
the callback is called, after the verification, on the branch
`(ctx.writeFn taoCtx).CacheContext`: a context with exactly the store of
`taoCtx` and no events.  The reply depends on the application module only
through the value of `OnRecvPacket` on that branch, and what the callback
leaves there is written back for a nil or successful acknowledgement. -/
theorem RecvPacket_phase_order
    (k : Keeper) (ctx : Context) (msg : MsgRecvPacket) (relayer : AccAddress)
    (module : String) (capability : Capability) (cbs : IBCModule)
    (hSigner : k.AccAddressFromBech32 msg.Signer = .ok relayer)
    (hLookup : k.ChannelKeeper.LookupModuleByChannel ctx msg.Packet.DestinationPort
      msg.Packet.DestinationChannel = .ok (module, capability))
    (hRoute : k.Router.GetRoute module = some cbs) :
    (∀ (taoCtx : Context) (err : Error),
      k.ChannelKeeper.RecvPacket ctx.CacheContext capability msg.Packet
        msg.ProofCommitment msg.ProofHeight = (taoCtx, some err) →
      (k.RecvPacket ctx msg).ctx = ctx ∧
        Call.OnRecvPacket msg.Packet relayer ∉ (k.RecvPacket ctx msg).calls) ∧
    (∀ taoCtx : Context,
      k.ChannelKeeper.RecvPacket ctx.CacheContext capability msg.Packet
        msg.ProofCommitment msg.ProofHeight = (taoCtx, none) →
      (ctx.writeFn taoCtx).store = taoCtx.store ∧
        (ctx.writeFn taoCtx).CacheContext = { store := taoCtx.store, events := [] } ∧
        (∀ key : String,
          KVStore.get (ctx.writeFn taoCtx).CacheContext.store key
            = KVStore.get taoCtx.store key) ∧
        (k.RecvPacket ctx msg).calls.take 4 =
          [Call.LookupModuleByChannel msg.Packet.DestinationPort msg.Packet.DestinationChannel,
            Call.GetRoute module,
            Call.RecvPacket capability msg.Packet msg.ProofCommitment msg.ProofHeight,
            Call.OnRecvPacket msg.Packet relayer] ∧
        (∀ cbs' : IBCModule,
          cbs'.OnRecvPacket (ctx.writeFn taoCtx).CacheContext msg.Packet relayer
            = cbs.OnRecvPacket (ctx.writeFn taoCtx).CacheContext msg.Packet relayer →
          (k.withOnlyRoute cbs').RecvPacket ctx msg = k.RecvPacket ctx msg) ∧
        (∀ appCtx : Context,
          cbs.OnRecvPacket (ctx.writeFn taoCtx).CacheContext msg.Packet relayer
            = (appCtx, none) →
          (k.RecvPacket ctx msg).ctx = (ctx.writeFn taoCtx).writeFn appCtx) ∧
        (∀ (appCtx : Context) (ack : Acknowledgement),
          cbs.OnRecvPacket (ctx.writeFn taoCtx).CacheContext msg.Packet relayer
            = (appCtx, some ack) →
          ack.Success = true →
          (k.RecvPacket ctx msg).ctx =
            (k.ChannelKeeper.WriteAcknowledgement ((ctx.writeFn taoCtx).writeFn appCtx)
              capability msg.Packet ack).1)) := by
  refine ⟨?_, ?_⟩
  · intro taoCtx err hTao
    by_cases hNoOp : err = ErrNoOpMsg
    · simp [Keeper.RecvPacket, hSigner, hLookup, hRoute, hTao, hNoOp]
    · simp [Keeper.RecvPacket, hSigner, hLookup, hRoute, hTao, hNoOp]
  · intro taoCtx hTao
    refine ⟨rfl, rfl, fun _ => rfl, ?_, ?_, ?_, ?_⟩
    · simp only [Keeper.RecvPacket, hSigner, hLookup, hRoute, hTao]
      cases hA : (cbs.OnRecvPacket (ctx.writeFn taoCtx).CacheContext msg.Packet relayer).2 with
      | none => simp
      | some a => simp only []; split <;> simp
    · intro cbs' hSame
      have hSigner' : (k.withOnlyRoute cbs').AccAddressFromBech32 msg.Signer = .ok relayer :=
        hSigner
      have hLookup' : (k.withOnlyRoute cbs').ChannelKeeper.LookupModuleByChannel ctx
          msg.Packet.DestinationPort msg.Packet.DestinationChannel = .ok (module, capability) :=
        hLookup
      have hRoute' : (k.withOnlyRoute cbs').Router.GetRoute module = some cbs' := rfl
      have hTao' : (k.withOnlyRoute cbs').ChannelKeeper.RecvPacket ctx.CacheContext capability
          msg.Packet msg.ProofCommitment msg.ProofHeight = (taoCtx, none) := hTao
      simp only [Keeper.RecvPacket, hSigner, hLookup, hRoute, hTao, hSigner', hLookup',
        hRoute', hTao', hSame]
      rfl
    · intro appCtx hCb
      simp [Keeper.RecvPacket, hSigner, hLookup, hRoute, hTao, hCb]
    · intro appCtx ack hCb hOk
      simp only [Keeper.RecvPacket, hSigner, hLookup, hRoute, hTao, hCb, hOk]
      split <;> simp

/-- Witness of C27 on the demo chain.  A first message for packet 2 with an
empty proof leaves a verification branch holding the receipt of packet 2; the
branch is discarded and the context is unchanged.  A second message for packet
1 is then verified: its callback runs fourth, on a branch that holds the
receipt of packet 1 and not the receipt of packet 2, and the module recorded
that it saw the receipt and a context without events. -/
theorem RecvPacket_phase_order_witness :
    KVStore.has Demo.discardedBranch.store (Demo.receiptKey (Demo.msgRecvSecond []).Packet)
        = true ∧
      (Demo.recvObservingKeeper.RecvPacket Demo.recvCtx (Demo.msgRecvSecond [])).ctx
        = Demo.recvCtx ∧
      Call.OnRecvPacket (Demo.msgRecvSecond []).Packet Demo.relayer ∉
        (Demo.recvObservingKeeper.RecvPacket Demo.recvCtx (Demo.msgRecvSecond [])).calls ∧
      KVStore.has (Demo.afterRejected.writeFn Demo.taoBranchAfterRejected).CacheContext.store
        (Demo.receiptKey (Demo.msgRecvSecond []).Packet) = false ∧
      KVStore.get (Demo.afterRejected.writeFn Demo.taoBranchAfterRejected).CacheContext.store
        (Demo.receiptKey (Demo.packet [1])) = some [1] ∧
      (Demo.recvObservingKeeper.RecvPacket Demo.afterRejected (Demo.msgRecv [1] [1])).calls.take 4
        = [Call.LookupModuleByChannel "mock" "channel-1", Call.GetRoute "mock",
            Call.RecvPacket Demo.chanCap (Demo.packet [1]) [1] Demo.proofHeight,
            Call.OnRecvPacket (Demo.packet [1]) Demo.relayer] ∧
      KVStore.get
        (Demo.recvObservingKeeper.RecvPacket Demo.afterRejected (Demo.msgRecv [1] [1])).ctx.store
        (Demo.seenKey "OnRecvPacket") = some [1] ∧
      KVStore.get
        (Demo.recvObservingKeeper.RecvPacket Demo.afterRejected (Demo.msgRecv [1] [1])).ctx.store
        (Demo.seenKey "OnRecvPacket events") = some [0] ∧
      (Demo.recvObservingKeeper.withOnlyRoute Demo.recvObservingModule).RecvPacket
          Demo.afterRejected (Demo.msgRecv [1] [1])
        = Demo.recvObservingKeeper.RecvPacket Demo.afterRejected (Demo.msgRecv [1] [1]) :=
  have h₁ := (RecvPacket_phase_order Demo.recvObservingKeeper Demo.recvCtx
    (Demo.msgRecvSecond []) Demo.relayer "mock" Demo.chanCap Demo.recvObservingModule
    rfl rfl rfl).1 Demo.discardedBranch (.sentinel "ErrInvalidProof") (by decide)
  have h₂ := (RecvPacket_phase_order Demo.recvObservingKeeper Demo.afterRejected
    (Demo.msgRecv [1] [1]) Demo.relayer "mock" Demo.chanCap Demo.recvObservingModule
    rfl rfl rfl).2 Demo.taoBranchAfterRejected (by decide)
  ⟨by decide, h₁.1, h₁.2, by decide, by decide, h₂.2.2.2.1, by decide, by decide,
    h₂.2.2.2.2.1 Demo.recvObservingModule rfl⟩

/-- C28. RecvPacket event visibility exception: when the keeper verification
succeeds with branch `taoCtx` and `OnRecvPacket` leaves the branch `appCtx`
and returns a non-nil acknowledgement with `Success() == false`, the
acknowledgement is written on the message context with the events of the
callback branch appended: its events are the events of the context before the
callback (`ctx.events ++ taoCtx.events`) followed by `appCtx.events` in their
order, while its store is the store of `taoCtx`, not of `appCtx`.  When
`WriteAcknowledgement` only appends events, that list is a prefix of the
events the handler leaves. -/
theorem RecvPacket_failed_ack_emits_callback_events
    (k : Keeper) (ctx : Context) (msg : MsgRecvPacket) (relayer : AccAddress)
    (module : String) (capability : Capability) (cbs : IBCModule)
    (taoCtx appCtx : Context) (ack : Acknowledgement)
    (hSigner : k.AccAddressFromBech32 msg.Signer = .ok relayer)
    (hLookup : k.ChannelKeeper.LookupModuleByChannel ctx msg.Packet.DestinationPort
      msg.Packet.DestinationChannel = .ok (module, capability))
    (hRoute : k.Router.GetRoute module = some cbs)
    (hTao : k.ChannelKeeper.RecvPacket ctx.CacheContext capability msg.Packet
      msg.ProofCommitment msg.ProofHeight = (taoCtx, none))
    (hCallback : cbs.OnRecvPacket (ctx.writeFn taoCtx).CacheContext msg.Packet relayer
      = (appCtx, some ack))
    (hFail : ack.Success = false) :
    (k.RecvPacket ctx msg).ctx =
        (k.ChannelKeeper.WriteAcknowledgement
          ((ctx.writeFn taoCtx).EmitEvents appCtx.events) capability msg.Packet ack).1 ∧
      ((ctx.writeFn taoCtx).EmitEvents appCtx.events).events
        = (ctx.writeFn taoCtx).events ++ appCtx.events ∧
      ((ctx.writeFn taoCtx).EmitEvents appCtx.events).events
        = (ctx.events ++ taoCtx.events) ++ appCtx.events ∧
      ((ctx.writeFn taoCtx).EmitEvents appCtx.events).store = taoCtx.store ∧
      ((∀ c : Context,
          c.events <+: (k.ChannelKeeper.WriteAcknowledgement c capability msg.Packet ack).1.events) →
        ((ctx.events ++ taoCtx.events) ++ appCtx.events) <+: (k.RecvPacket ctx msg).ctx.events ∧
          appCtx.events <:+: (k.RecvPacket ctx msg).ctx.events) := by
  have hCtx : (k.RecvPacket ctx msg).ctx =
      (k.ChannelKeeper.WriteAcknowledgement
        ((ctx.writeFn taoCtx).EmitEvents appCtx.events) capability msg.Packet ack).1 := by
    simp only [Keeper.RecvPacket, hSigner, hLookup, hRoute, hTao, hCallback, hFail]
    split <;> simp
  refine ⟨hCtx, rfl, rfl, rfl, ?_⟩
  intro hAppend
  have hPre : ((ctx.events ++ taoCtx.events) ++ appCtx.events) <+:
      (k.RecvPacket ctx msg).ctx.events := by
    rw [hCtx]
    exact hAppend ((ctx.writeFn taoCtx).EmitEvents appCtx.events)
  exact ⟨hPre, (List.suffix_append _ _).isInfix.trans hPre.isInfix⟩

/-- Witness of C28 on the demo chain: the packet data [9] is answered with the
failed acknowledgement; the event "mock-recv" of the callback follows the
event of the verification and precedes the event of the acknowledgement, and
the canary key the callback wrote is not in the store. -/
theorem RecvPacket_failed_ack_emits_callback_events_witness :
    (Demo.appBranch [9]).events = [{ type := "mock-recv", attributes := [] }] ∧
      KVStore.has (Demo.appBranch [9]).store (Demo.recvCanaryKey (Demo.packet [9])) = true ∧
      (Demo.keeper.RecvPacket Demo.recvCtx (Demo.msgRecv [9] [1])).ctx.events
        = [{ type := "recv_packet", attributes := [] }, { type := "mock-recv", attributes := [] },
            { type := "write_acknowledgement", attributes := [] }] ∧
      KVStore.has (Demo.keeper.RecvPacket Demo.recvCtx (Demo.msgRecv [9] [1])).ctx.store
        (Demo.recvCanaryKey (Demo.packet [9])) = false ∧
      ((Demo.recvCtx.events ++ (Demo.taoBranch [9] [1]).events) ++ (Demo.appBranch [9]).events)
        <+: (Demo.keeper.RecvPacket Demo.recvCtx (Demo.msgRecv [9] [1])).ctx.events ∧
      (Demo.appBranch [9]).events
        <:+: (Demo.keeper.RecvPacket Demo.recvCtx (Demo.msgRecv [9] [1])).ctx.events :=
  have h := RecvPacket_failed_ack_emits_callback_events Demo.keeper Demo.recvCtx
    (Demo.msgRecv [9] [1]) Demo.relayer "mock" Demo.chanCap Demo.module
    (Demo.taoBranch [9] [1]) (Demo.appBranch [9]) Demo.MockFailAcknowledgement
    rfl rfl rfl (by decide) (by decide) rfl
  have hAppend : ∀ c : Context,
      c.events <+: (Demo.keeper.ChannelKeeper.WriteAcknowledgement c Demo.chanCap
        (Demo.msgRecv [9] [1]).Packet Demo.MockFailAcknowledgement).1.events := by
    intro c
    show c.events <+: (Demo.channelKeeper.WriteAcknowledgement c Demo.chanCap
      (Demo.packet [9]) Demo.MockFailAcknowledgement).1.events
    unfold Demo.channelKeeper
    dsimp only
    split
    · exact List.prefix_refl _
    · exact List.prefix_append _ _
  ⟨by decide, by decide, by decide, by decide, (h.2.2.2.2 hAppend).1, (h.2.2.2.2 hAppend).2⟩

end IbcCore
